import Mathlib

/-!
# mlxsw: module EEPROM access (core_env.c)

Shallow embedding of `drivers/net/ethernet/mellanox/mlxsw/core_env.c`.

* Machine integers are `Nat`/`Int`; every conversion to `u8`, `u16`, `u32` or
  `int` that the C code performs is an explicit `%`.
* The device behind `mlxsw_reg_query` is a state machine `mlxsw_device σ`;
  `mlxsw_core σ` carries the device state together with the log of the register
  transactions issued so far.
* The `while` loop of `mlxsw_env_get_module_eeprom` runs on fuel; `none` means
  that the fuel ran out before the loop ended.
-/

namespace Mlxsw

/-! ## Machine arithmetic -/

/-- Conversion to `u8`. -/
def u8 (x : Nat) : Nat := x % 256

/-- Conversion to `u16`. -/
def u16 (x : Nat) : Nat := x % 65536

/-- Conversion to `u32` (also the bit pattern of an `int`). -/
def u32 (x : Nat) : Nat := x % 4294967296

/-- The value `a - b`, computed in `int` and stored in a `u16` (`a < 65536`). -/
def u16_sub (a b : Nat) : Nat := (a + 65536 - b % 65536) % 65536

/-- Conversion of a mathematical integer to `int` (32 bit, two's complement). -/
def s32 (x : Int) : Int := (x + 2147483648) % 4294967296 - 2147483648

/-! ## errno values -/

/-- Invalid argument (`EINVAL`, errno-base.h). -/
def EINVAL_errno : Int := 22

/-- Input/output failure (`EIO`, errno-base.h). -/
def EIO_errno : Int := 5

/-! ## reg.h: constants of the MCIA and MTMP registers

reg.h is not among the sources of this development; each constant below says
where its value comes from. -/

/-- Modelled from the spec: `MLXSW_REG_MCIA_EEPROM_SIZE` (reg.h), "the transport's
fixed transaction limit (48 bytes)"; the comment in
`mlxsw_env_query_module_eeprom` says "MCIA register accepts buffer size <= 48". -/
def MLXSW_REG_MCIA_EEPROM_SIZE : Nat := 48

/-- Modelled from the spec: `MLXSW_REG_MCIA_EEPROM_PAGE_LENGTH` (reg.h), the
"fixed lower-page length"; the source comment says "read until offset 256 in low
page". -/
def MLXSW_REG_MCIA_EEPROM_PAGE_LENGTH : Nat := 256

/-- Modelled from the spec: `MLXSW_REG_MCIA_EEPROM_UP_PAGE_LENGTH` (reg.h), the
`upperPageLength`; the source comment says "Page of size 128". -/
def MLXSW_REG_MCIA_EEPROM_UP_PAGE_LENGTH : Nat := 128

/-- Modelled from the spec: `MLXSW_REG_MCIA_I2C_ADDR_LOW` (reg.h), the primary
address space (I2C address 0x50, A0h). -/
def MLXSW_REG_MCIA_I2C_ADDR_LOW : Nat := 0x50

/-- Modelled from the spec: `MLXSW_REG_MCIA_I2C_ADDR_HIGH` (reg.h), the
"secondary address space" (I2C address 0x51, A2h). -/
def MLXSW_REG_MCIA_I2C_ADDR_HIGH : Nat := 0x51

/-- Modelled from the spec: `MLXSW_REG_MCIA_PAGE0_LO_OFF` (reg.h), passed as the
page number of the identifier read. Nothing proved below depends on its value:
the byte read lies in the lower memory, which is the same on every page. -/
def MLXSW_REG_MCIA_PAGE0_LO_OFF : Nat := 0xa0

/-- Modelled from the spec: `MLXSW_REG_MCIA_PAGE0_LO` (reg.h), page 0. -/
def MLXSW_REG_MCIA_PAGE0_LO : Nat := 0

/-- Modelled from the spec: `MLXSW_REG_MCIA_TH_ITEM_SIZE` (reg.h), the two bytes
of one threshold (source comment: "128-129 - Temp High Alarm"). -/
def MLXSW_REG_MCIA_TH_ITEM_SIZE : Nat := 2

/-- Modelled from the spec: `MLXSW_REG_MCIA_TH_PAGE_NUM` (reg.h), the page of the
thresholds of a non-CMIS module (source comment: "otherwise in page 03h"). -/
def MLXSW_REG_MCIA_TH_PAGE_NUM : Nat := 3

/-- Modelled from the spec: `MLXSW_REG_MCIA_TH_PAGE_CMIS_NUM` (reg.h), the page of
the thresholds of a CMIS module (source comment: "located in page 02h"). -/
def MLXSW_REG_MCIA_TH_PAGE_CMIS_NUM : Nat := 2

/-- Modelled from the spec: `MLXSW_REG_MCIA_TH_PAGE_OFF` (reg.h), the in-page
offset of the thresholds (source comment: "Bytes: 128-129 - Temp High Alarm"). -/
def MLXSW_REG_MCIA_TH_PAGE_OFF : Nat := 0x80

/-- Modelled from the spec: `MLXSW_REG_MTMP_MODULE_INDEX_MIN` (reg.h), the sensor
index of module 0. -/
def MLXSW_REG_MTMP_MODULE_INDEX_MIN : Nat := 64

/-- Modelled from the spec: the macro `MLXSW_REG_MCIA_PAGE_GET` (reg.h), used for
`offset >= 256` only. The spec words it as `page = offset div upperPageLength`;
the comment at its use in `mlxsw_env_query_module_eeprom` fixes the numbering:
"When reading upper pages 1, 2 and 3 the offset starts at 128", so logical
offset 256 is byte 128 of page 1, and the page is
`(off - PAGE_LENGTH) / UP_PAGE_LENGTH + 1`. -/
def MLXSW_REG_MCIA_PAGE_GET (off : Nat) : Nat :=
  (off - MLXSW_REG_MCIA_EEPROM_PAGE_LENGTH) / MLXSW_REG_MCIA_EEPROM_UP_PAGE_LENGTH + 1

/-- Modelled from the spec: the identifier bytes of
`enum mlxsw_reg_mcia_eeprom_module_info_id` (reg.h); the spec names the families
only, the values are the SFF-8024 identifiers the enum lists. -/
def MLXSW_REG_MCIA_EEPROM_MODULE_INFO_ID_SFP : Nat := 0x03

/-- Modelled from the spec: identifier of QSFP (SFF-8024), see `..._ID_SFP`. -/
def MLXSW_REG_MCIA_EEPROM_MODULE_INFO_ID_QSFP : Nat := 0x0c

/-- Modelled from the spec: identifier of QSFP+ (SFF-8024), see `..._ID_SFP`. -/
def MLXSW_REG_MCIA_EEPROM_MODULE_INFO_ID_QSFP_PLUS : Nat := 0x0d

/-- Modelled from the spec: identifier of QSFP28 (SFF-8024), see `..._ID_SFP`. -/
def MLXSW_REG_MCIA_EEPROM_MODULE_INFO_ID_QSFP28 : Nat := 0x11

/-- Modelled from the spec: identifier of QSFP-DD (SFF-8024), see `..._ID_SFP`. -/
def MLXSW_REG_MCIA_EEPROM_MODULE_INFO_ID_QSFP_DD : Nat := 0x18

/-- Modelled from the spec: identifier of SFP-DD (SFF-8024), see `..._ID_SFP`. -/
def MLXSW_REG_MCIA_EEPROM_MODULE_INFO_ID_SFP_DD : Nat := 0x1a

/-- Modelled from the spec: identifier of QSFP+ with CMIS (SFF-8024), see
`..._ID_SFP`. -/
def MLXSW_REG_MCIA_EEPROM_MODULE_INFO_ID_QSFP_PLUS_CMIS : Nat := 0x1e

/-! ## core_env.c: macros -/

/-- The constant `MLXSW_ENV_CMIS_PAGE_OFF` of core_env.c. -/
def MLXSW_ENV_CMIS_PAGE_OFF : Nat := 0x0d

/-- The macro `MLXSW_ENV_PAGE_MAP(page)` of core_env.c, in `int` arithmetic. -/
def MLXSW_ENV_PAGE_MAP (page : Nat) : Nat :=
  if page < MLXSW_REG_MCIA_TH_PAGE_NUM then page else page + MLXSW_ENV_CMIS_PAGE_OFF

/-! ## Registers and the device -/

/-- The fields of an MCIA request, as `mlxsw_reg_mcia_pack` receives them. -/
structure mlxsw_reg_mcia where
  slot_index : Nat
  module : Nat
  l : Nat
  page_number : Nat
  device_address : Nat
  size : Nat
  i2c_device_address : Nat
deriving DecidableEq, Repr

/-- The part of an MCIA response the driver reads: the status field and the
bytes of the eeprom field. -/
structure mcia_resp where
  status : Nat
  eeprom : List Nat
deriving DecidableEq, Repr

/-- The fields of an MTMP request, as `mlxsw_reg_mtmp_pack` receives them. -/
structure mlxsw_reg_mtmp where
  slot_index : Nat
  sensor_index : Nat
  max_temp_enable : Bool
  max_temp_reset : Bool
deriving DecidableEq, Repr

/-- The values `mlxsw_reg_mtmp_unpack` extracts from an MTMP response. -/
structure mtmp_resp where
  temp : Int
  max_temp : Int
deriving DecidableEq, Repr

/-- Modelled from the spec: the device behind `mlxsw_reg_query` (core.c is not
among the sources), "an opaque request/response RPC
`query(registerId, payload) -> (payload, status)`". A query takes the device
from one state to the next and yields the error code of the transport (0 for
success) and the response payload. -/
structure mlxsw_device (σ : Type) where
  mcia : σ → mlxsw_reg_mcia → σ × Int × mcia_resp
  mtmp : σ → mlxsw_reg_mtmp → σ × Int × mtmp_resp

/-- One register transaction: the request, the error code of the transport and
the response. -/
inductive reg_xfer where
  | mcia (pl : mlxsw_reg_mcia) (err : Int) (resp : mcia_resp)
  | mtmp (pl : mlxsw_reg_mtmp) (err : Int) (resp : mtmp_resp)
deriving DecidableEq, Repr

/-- The driver's handle on the device: the device state and the transactions
issued so far, oldest first. -/
structure mlxsw_core (σ : Type) where
  state : σ
  log : List reg_xfer

/-- Modelled from the spec: `mlxsw_reg_mcia_pack` (reg.h) builds the "(page,
offset, size, addressSpace) transaction" of a module of a slot. -/
def mlxsw_reg_mcia_pack (slot_index module lock page_number device_addr size
    i2c_device_addr : Nat) : mlxsw_reg_mcia :=
  { slot_index := slot_index, module := module, l := lock, page_number := page_number,
    device_address := device_addr, size := size, i2c_device_address := i2c_device_addr }

/-- Modelled from the spec: `mlxsw_reg_mtmp_pack` (reg.h). -/
def mlxsw_reg_mtmp_pack (slot_index sensor_index : Nat) (max_temp_enable max_temp_reset : Bool) :
    mlxsw_reg_mtmp :=
  { slot_index := slot_index, sensor_index := sensor_index,
    max_temp_enable := max_temp_enable, max_temp_reset := max_temp_reset }

/-- Modelled from the spec: `mlxsw_reg_query(core, MLXSW_REG(mcia), pl)`
(core.c): one MCIA transaction, appended to the log. -/
def mlxsw_reg_query_mcia {σ : Type} (dev : mlxsw_device σ) (core : mlxsw_core σ)
    (pl : mlxsw_reg_mcia) : mlxsw_core σ × Int × mcia_resp :=
  let r := dev.mcia core.state pl
  ({ state := r.1, log := core.log ++ [reg_xfer.mcia pl r.2.1 r.2.2] }, r.2.1, r.2.2)

/-- Modelled from the spec: `mlxsw_reg_query(core, MLXSW_REG(mtmp), pl)`
(core.c): one MTMP transaction, appended to the log. -/
def mlxsw_reg_query_mtmp {σ : Type} (dev : mlxsw_device σ) (core : mlxsw_core σ)
    (pl : mlxsw_reg_mtmp) : mlxsw_core σ × Int × mtmp_resp :=
  let r := dev.mtmp core.state pl
  ({ state := r.1, log := core.log ++ [reg_xfer.mtmp pl r.2.1 r.2.2] }, r.2.1, r.2.2)

/-- Modelled from the spec: `mlxsw_reg_mcia_eeprom_memcpy_from` (reg.h) copies
the eeprom field, `MLXSW_REG_MCIA_EEPROM_SIZE` bytes, into `eeprom_tmp`. -/
def mlxsw_reg_mcia_eeprom_memcpy_from (resp : mcia_resp) : List Nat :=
  (resp.eeprom ++ List.replicate MLXSW_REG_MCIA_EEPROM_SIZE 0).take MLXSW_REG_MCIA_EEPROM_SIZE

/-! ## mlxsw_env_query_module_eeprom -/

/-- The transaction `mlxsw_env_query_module_eeprom` resolves a request to: the
values of `page`, `offset`, `size` and `i2c_addr` at the call of
`mlxsw_reg_mcia_pack`. -/
structure mcia_window where
  page : Nat
  offset : Nat
  size : Nat
  i2c_addr : Nat
deriving DecidableEq, Repr

/-- Lines 74 to 106 of `mlxsw_env_query_module_eeprom`: the resolution of
`(offset, size)` (both `u16`) to a transaction, before the register is packed.
`page` is a `u8`, `offset` and `size` are `u16`. -/
def mlxsw_env_query_module_eeprom_window (offset size : Nat) (qsfp cmis : Bool) : mcia_window :=
  let offset := u16 offset
  let size := min (u16 size) MLXSW_REG_MCIA_EEPROM_SIZE
  let size :=
    if offset < MLXSW_REG_MCIA_EEPROM_PAGE_LENGTH ∧
        offset + size > MLXSW_REG_MCIA_EEPROM_PAGE_LENGTH then
      u16_sub MLXSW_REG_MCIA_EEPROM_PAGE_LENGTH offset
    else size
  let w : mcia_window :=
    if offset ≥ MLXSW_REG_MCIA_EEPROM_PAGE_LENGTH then
      if qsfp then
        let page := u8 (MLXSW_REG_MCIA_PAGE_GET offset)
        let offset := u16_sub offset (MLXSW_REG_MCIA_EEPROM_UP_PAGE_LENGTH * page)
        let size :=
          if offset + size > MLXSW_REG_MCIA_EEPROM_PAGE_LENGTH then
            u16_sub MLXSW_REG_MCIA_EEPROM_PAGE_LENGTH offset
          else size
        { page := page, offset := offset, size := size,
          i2c_addr := MLXSW_REG_MCIA_I2C_ADDR_LOW }
      else
        { page := 0, offset := u16_sub offset MLXSW_REG_MCIA_EEPROM_PAGE_LENGTH, size := size,
          i2c_addr := MLXSW_REG_MCIA_I2C_ADDR_HIGH }
    else
      { page := 0, offset := offset, size := size, i2c_addr := MLXSW_REG_MCIA_I2C_ADDR_LOW }
  { w with page := if cmis then u8 (MLXSW_ENV_PAGE_MAP w.page) else w.page }

/-- The value of the local `page` of `mlxsw_env_query_module_eeprom` at line 104,
before the CMIS remap: `MLXSW_REG_MCIA_PAGE_GET(offset)` stored in a `u8` for an
upper-page offset of a paged module, and the initial 0 otherwise. -/
def mlxsw_env_query_module_eeprom_page (offset : Nat) (qsfp : Bool) : Nat :=
  if u16 offset ≥ MLXSW_REG_MCIA_EEPROM_PAGE_LENGTH ∧ qsfp = true then
    u8 (MLXSW_REG_MCIA_PAGE_GET (u16 offset))
  else 0

/-- The function `mlxsw_env_query_module_eeprom`. The result is the error code,
or the bytes copied to `data` together with `*p_read_size`. `memcpy(data,
eeprom_tmp, size)` copies the first `size` bytes of the 48 of `eeprom_tmp`. -/
def mlxsw_env_query_module_eeprom {σ : Type} (dev : mlxsw_device σ) (core : mlxsw_core σ)
    (slot_index module offset size : Nat) (qsfp cmis : Bool) :
    mlxsw_core σ × Except Int (List Nat × Nat) :=
  let w := mlxsw_env_query_module_eeprom_window offset size qsfp cmis
  let mcia_pl := mlxsw_reg_mcia_pack slot_index module 0 w.page w.offset w.size w.i2c_addr
  let q := mlxsw_reg_query_mcia dev core mcia_pl
  if q.2.1 ≠ 0 then (q.1, Except.error q.2.1)
  else if q.2.2.status ≠ 0 then (q.1, Except.error (-EIO_errno))
  else (q.1, Except.ok ((mlxsw_reg_mcia_eeprom_memcpy_from q.2.2).take w.size, w.size))

/-! ## mlxsw_env_validate_cable_ident -/

/-- The `switch (ident)` of `mlxsw_env_validate_cable_ident`: the values stored
to `(*qsfp, *cmis)` on success, `-EINVAL` for any other identifier. -/
def mlxsw_env_validate_cable_ident_switch (ident : Nat) : Except Int (Bool × Bool) :=
  if ident = MLXSW_REG_MCIA_EEPROM_MODULE_INFO_ID_SFP ∨
      ident = MLXSW_REG_MCIA_EEPROM_MODULE_INFO_ID_SFP_DD then
    Except.ok (false, false)
  else if ident = MLXSW_REG_MCIA_EEPROM_MODULE_INFO_ID_QSFP ∨
      ident = MLXSW_REG_MCIA_EEPROM_MODULE_INFO_ID_QSFP_PLUS ∨
      ident = MLXSW_REG_MCIA_EEPROM_MODULE_INFO_ID_QSFP28 then
    Except.ok (true, false)
  else if ident = MLXSW_REG_MCIA_EEPROM_MODULE_INFO_ID_QSFP_DD ∨
      ident = MLXSW_REG_MCIA_EEPROM_MODULE_INFO_ID_QSFP_PLUS_CMIS then
    Except.ok (true, true)
  else
    Except.error (-EINVAL_errno)

/-- The function `mlxsw_env_validate_cable_ident`: one MCIA read of the first
EEPROM byte (`u8 ident = eeprom_tmp[0]`), then the switch. The status field of
the response is not looked at. -/
def mlxsw_env_validate_cable_ident {σ : Type} (dev : mlxsw_device σ) (core : mlxsw_core σ)
    (slot_index id : Nat) : mlxsw_core σ × Except Int (Bool × Bool) :=
  let mcia_pl := mlxsw_reg_mcia_pack slot_index id 0 MLXSW_REG_MCIA_PAGE0_LO_OFF 0 1
    MLXSW_REG_MCIA_I2C_ADDR_LOW
  let q := mlxsw_reg_query_mcia dev core mcia_pl
  if q.2.1 ≠ 0 then (q.1, Except.error q.2.1)
  else
    let eeprom_tmp := mlxsw_reg_mcia_eeprom_memcpy_from q.2.2
    let ident := u8 (eeprom_tmp.getD 0 0)
    (q.1, mlxsw_env_validate_cable_ident_switch ident)

/-! ## mlxsw_env_module_temp_thresholds_get -/

/-- The read of `temp_thresh.temp` after `buf[0]` and `buf[1]` were written: the
`u16` the two bytes form in the byte order of the CPU. -/
def temp_thresh_temp (cpu_big_endian : Bool) (buf0 buf1 : Nat) : Nat :=
  if cpu_big_endian then 256 * u8 buf0 + u8 buf1 else u8 buf0 + 256 * u8 buf1

/-- The function `mlxsw_env_module_temp_thresholds_get`; the result is the
error code or `*temp`. -/
def mlxsw_env_module_temp_thresholds_get {σ : Type} (cpu_big_endian : Bool)
    (dev : mlxsw_device σ) (core : mlxsw_core σ) (slot_index module off : Nat) :
    mlxsw_core σ × Except Int Int :=
  let mtmp_pl := mlxsw_reg_mtmp_pack slot_index (MLXSW_REG_MTMP_MODULE_INDEX_MIN + module)
    false false
  let t := mlxsw_reg_query_mtmp dev core mtmp_pl
  if t.2.1 ≠ 0 then (t.1, Except.error t.2.1)
  else if t.2.2.temp = 0 then (t.1, Except.ok 0)
  else
    let v := mlxsw_env_validate_cable_ident dev t.1 slot_index module
    match v.2 with
    | Except.error err => (v.1, Except.error err)
    | Except.ok (qsfp, cmis) =>
      let mcia_pl :=
        if qsfp then
          mlxsw_reg_mcia_pack slot_index module 0
            (if cmis then MLXSW_REG_MCIA_TH_PAGE_CMIS_NUM else MLXSW_REG_MCIA_TH_PAGE_NUM)
            (MLXSW_REG_MCIA_TH_PAGE_OFF + off) MLXSW_REG_MCIA_TH_ITEM_SIZE
            MLXSW_REG_MCIA_I2C_ADDR_LOW
        else
          mlxsw_reg_mcia_pack slot_index module 0 MLXSW_REG_MCIA_PAGE0_LO off
            MLXSW_REG_MCIA_TH_ITEM_SIZE MLXSW_REG_MCIA_I2C_ADDR_HIGH
      let q := mlxsw_reg_query_mcia dev v.1 mcia_pl
      if q.2.1 ≠ 0 then (q.1, Except.error q.2.1)
      else
        let eeprom_tmp := mlxsw_reg_mcia_eeprom_memcpy_from q.2.2
        let raw := temp_thresh_temp cpu_big_endian (eeprom_tmp.getD 0 0) (eeprom_tmp.getD 1 0)
        (q.1, Except.ok (s32 ((raw : Int) * 1000)))

/-! ## mlxsw_env_get_module_eeprom -/

/-- The effect of `memcpy(data + i, chunk, chunk.length)` on the buffer `data`. -/
def memcpy_at (data : List Nat) (i : Nat) (chunk : List Nat) : List Nat :=
  data.take i ++ chunk ++ data.drop (i + chunk.length)

/-- The `while (i < ee->len)` loop of `mlxsw_env_get_module_eeprom`, one
iteration per unit of fuel. `i` and `offset` are `int`; the result is the core,
the buffer and the return value. -/
def mlxsw_env_get_module_eeprom_loop {σ : Type} (dev : mlxsw_device σ)
    (slot_index module ee_len : Nat) (qsfp cmis : Bool) :
    Nat → mlxsw_core σ → Nat → Nat → List Nat → Option (mlxsw_core σ × List Nat × Int)
  | 0, core, i, _, data => if i < ee_len then none else some (core, data, 0)
  | fuel + 1, core, i, offset, data =>
    if i < ee_len then
      let r := mlxsw_env_query_module_eeprom dev core slot_index module offset (ee_len - i)
        qsfp cmis
      match r.2 with
      | Except.error err => some (r.1, data, err)
      | Except.ok (chunk, read_size) =>
        mlxsw_env_get_module_eeprom_loop dev slot_index module ee_len qsfp cmis fuel r.1
          (u32 (i + read_size)) (u32 (offset + read_size)) (memcpy_at data i chunk)
    else some (core, data, 0)

/-- The function `mlxsw_env_get_module_eeprom` for `ee->offset = ee_offset` and
`ee->len = ee_len` (both `u32`), on the caller's buffer `data`. The result is
the core, the buffer as the call leaves it and the return value; `none` when the
fuel does not suffice for the loop. -/
def mlxsw_env_get_module_eeprom {σ : Type} (dev : mlxsw_device σ) (core : mlxsw_core σ)
    (slot_index module ee_offset ee_len : Nat) (data : List Nat) (fuel : Nat) :
    Option (mlxsw_core σ × List Nat × Int) :=
  if ee_len = 0 then some (core, data, -EINVAL_errno)
  else
    let data := List.replicate ee_len 0 ++ data.drop ee_len
    let v := mlxsw_env_validate_cable_ident dev core slot_index module
    match v.2 with
    | Except.error err => some (v.1, data, err)
    | Except.ok (qsfp, cmis) =>
      mlxsw_env_get_module_eeprom_loop dev slot_index module ee_len qsfp cmis fuel v.1 0
        ee_offset data

/-! ## Reading the log -/

/-- A transaction failed: the transport reported an error, or the MCIA response
carries a non-zero status. -/
def reg_xfer.failed : reg_xfer → Bool
  | reg_xfer.mcia _ err resp => decide (err ≠ 0) || decide (resp.status ≠ 0)
  | reg_xfer.mtmp _ err _ => decide (err ≠ 0)

/-- The failure `mlxsw_env_query_module_eeprom` returns for a failed
transaction: the error of the transport, or `-EIO` for a non-zero status. -/
def reg_xfer.errno : reg_xfer → Int
  | reg_xfer.mcia _ err _ => if err ≠ 0 then err else -EIO_errno
  | reg_xfer.mtmp _ err _ => err

/-- The number of bytes a transaction of the log asks for: the size field of an
MCIA request. -/
def reg_xfer.size : reg_xfer → Nat
  | reg_xfer.mcia pl _ _ => pl.size
  | reg_xfer.mtmp _ _ _ => 0

/-! ## A simulated module

The device of the page round trip: a module of a given family whose EEPROM
holds a reference image, laid out as the memory maps of SFF-8472 (legacy),
SFF-8436/8636 (paged) and CMIS (paged, banked pages from 0x10) lay it out. -/

/-- The position in the image of the byte at in-page address `addr` of page
`page` in the address space `i2c`, for a module of the family `(qsfp, cmis)`;
`none` when the module has no byte there. Addresses below 128 are the lower
memory, which does not depend on the page. -/
def sim_logical (qsfp cmis : Bool) (i2c page addr : Nat) : Option Nat :=
  if i2c = MLXSW_REG_MCIA_I2C_ADDR_LOW then
    if addr < 128 then some addr
    else if addr < 256 then
      if qsfp then
        if cmis then
          if page < MLXSW_REG_MCIA_TH_PAGE_NUM then some (128 * page + addr)
          else if MLXSW_REG_MCIA_TH_PAGE_NUM + MLXSW_ENV_CMIS_PAGE_OFF ≤ page ∧ page < 256 then
            some (128 * (page - MLXSW_ENV_CMIS_PAGE_OFF) + addr)
          else none
        else if page < 256 then some (128 * page + addr)
        else none
      else if page = 0 then some addr
      else none
    else none
  else if i2c = MLXSW_REG_MCIA_I2C_ADDR_HIGH then
    if qsfp = false ∧ page = 0 ∧ addr < 256 then some (256 + addr) else none
  else none

/-- The byte number `k` of the answer to the request `pl`. -/
def sim_byte (image : List Nat) (qsfp cmis : Bool) (pl : mlxsw_reg_mcia) (k : Nat) : Option Nat :=
  (sim_logical qsfp cmis pl.i2c_device_address pl.page_number (pl.device_address + k)).bind
    (fun p => image[p]?)

/-- The largest image a module of the family can hold: two address spaces of
256 bytes (legacy), the lower memory and 8-bit numbered pages of 128 bytes
(paged), of which a CMIS module has the pages the remap can name. -/
def sim_image_max (qsfp cmis : Bool) : Nat :=
  if qsfp then (if cmis then 256 + 128 * 242 else 256 + 128 * 255) else 512

/-- The simulated device: it answers a request of at most 48 bytes, all of
which exist in the image, with status 0 and these bytes, and any other request
with a non-zero status. The transport never fails, and the temperature sensor
of the module reads 40000. -/
def sim_device (image : List Nat) (qsfp cmis : Bool) : mlxsw_device Unit where
  mcia := fun s pl =>
    if pl.size ≤ MLXSW_REG_MCIA_EEPROM_SIZE ∧
        ∀ k < pl.size, (sim_byte image qsfp cmis pl k).isSome = true then
      (s, 0, { status := 0,
               eeprom := (List.range pl.size).map
                 (fun k => (sim_byte image qsfp cmis pl k).getD 0) })
    else (s, 0, { status := 1, eeprom := [] })
  mtmp := fun s _ => (s, 0, { temp := 40000, max_temp := 40000 })

/-- A device that answers every request with status 0 and no data. -/
def null_device : mlxsw_device Unit where
  mcia := fun s _ => (s, 0, { status := 0, eeprom := [] })
  mtmp := fun s _ => (s, 0, { temp := 0, max_temp := 0 })

/-- The core at start: no transaction issued yet. -/
def core_init : mlxsw_core Unit := { state := (), log := [] }

/-- A paged (QSFP+) module image of 300 bytes: the identifier 0x0d, then the
bytes 0, 1, 2, ... -/
def qsfp_image : List Nat := 0x0d :: List.range 299

/-- The constant `MLXSW_THERMAL_ASIC_TEMP_NORM` (75C). -/
def MLXSW_THERMAL_ASIC_TEMP_NORM : Int := 75000

/-- The constant `MLXSW_THERMAL_ASIC_TEMP_HIGH` (85C). -/
def MLXSW_THERMAL_ASIC_TEMP_HIGH : Int := 85000

/-- The constant `MLXSW_THERMAL_ASIC_TEMP_HOT` (105C). -/
def MLXSW_THERMAL_ASIC_TEMP_HOT : Int := 105000

/-- The constant `MLXSW_THERMAL_MODULE_TEMP_NORM` (60C). -/
def MLXSW_THERMAL_MODULE_TEMP_NORM : Int := 60000

/-- The constant `MLXSW_THERMAL_MODULE_TEMP_HIGH` (70C). -/
def MLXSW_THERMAL_MODULE_TEMP_HIGH : Int := 70000

/-- The constant `MLXSW_THERMAL_MODULE_TEMP_HOT` (80C). -/
def MLXSW_THERMAL_MODULE_TEMP_HOT : Int := 80000

/-- The constant `MLXSW_THERMAL_HYSTERESIS_TEMP` (5C). -/
def MLXSW_THERMAL_HYSTERESIS_TEMP : Int := 5000

/-- The constant `MLXSW_THERMAL_MODULE_TEMP_SHIFT`. -/
def MLXSW_THERMAL_MODULE_TEMP_SHIFT : Int := MLXSW_THERMAL_HYSTERESIS_TEMP * 2

/-- The constant `MLXSW_THERMAL_TEMP_SCORE_MAX`, `GENMASK(31, 0)`. -/
def MLXSW_THERMAL_TEMP_SCORE_MAX : Nat := 4294967295

/-- The constant `MLXSW_THERMAL_MAX_STATE`. -/
def MLXSW_THERMAL_MAX_STATE : Int := 10

/-- The constant `MLXSW_THERMAL_NUM_TRIPS`, `ARRAY_SIZE(default_thermal_trips)`. -/
def MLXSW_THERMAL_NUM_TRIPS : Int := 3

/-- Modelled from the spec: `THERMAL_TRIP_ACTIVE` of `enum thermal_trip_type`
(linux/thermal.h), the kind `Active` of a trip point. -/
def THERMAL_TRIP_ACTIVE : Int := 0

/-- Modelled from the spec: `THERMAL_TRIP_HOT` of `enum thermal_trip_type`
(linux/thermal.h), the kind `Hot` of a trip point. -/
def THERMAL_TRIP_HOT : Int := 2

/-- Modelled from the spec: `enum thermal_trend` (linux/thermal.h); the spec
names `Raising` and `Stable`. -/
inductive thermal_trend where
  | THERMAL_TREND_STABLE
  | THERMAL_TREND_RAISING
  | THERMAL_TREND_DROPPING
  | THERMAL_TREND_RAISE_FULL
  | THERMAL_TREND_DROP_FULL
deriving DecidableEq, Repr

/-- Modelled from the spec: `SFP_TEMP_HIGH_ALARM` (linux/sfp.h), the offset of
the emergency threshold; the comment in `mlxsw_env_module_temp_thresholds_get`
places it at bytes 128-129 of the threshold page, which starts at 128. -/
def SFP_TEMP_HIGH_ALARM : Nat := 0

/-- Modelled from the spec: `SFP_TEMP_HIGH_WARN` (linux/sfp.h), the offset of the
critical threshold; the same comment places it at bytes 132-133. -/
def SFP_TEMP_HIGH_WARN : Nat := 4

/-! ## Trip points -/

/-- The `struct mlxsw_thermal_trip`. -/
structure mlxsw_thermal_trip where
  type : Int
  temp : Int
  hyst : Int
  min_state : Int
  max_state : Int
deriving DecidableEq, Repr

/-- An array `struct mlxsw_thermal_trip trips[MLXSW_THERMAL_NUM_TRIPS]`: the
entries `MLXSW_THERMAL_TEMP_TRIP_NORM`, `..._HIGH` and `..._HOT`. -/
structure mlxsw_thermal_trips where
  norm : mlxsw_thermal_trip
  high : mlxsw_thermal_trip
  hot : mlxsw_thermal_trip
deriving DecidableEq, Repr

/-- The entry `trips[trip]` for `0 <= trip < 3`. -/
def mlxsw_thermal_trips.get (trips : mlxsw_thermal_trips) (trip : Int) : mlxsw_thermal_trip :=
  if trip = 0 then trips.norm else if trip = 1 then trips.high else trips.hot

/-- The array after `trips[trip].temp = temp` for `0 <= trip < 3`. -/
def mlxsw_thermal_trips.set_temp (trips : mlxsw_thermal_trips) (trip temp : Int) :
    mlxsw_thermal_trips :=
  if trip = 0 then { trips with norm := { trips.norm with temp := temp } }
  else if trip = 1 then { trips with high := { trips.high with temp := temp } }
  else { trips with hot := { trips.hot with temp := temp } }

/-- The three entries in the order of the array. -/
def mlxsw_thermal_trips.toList (trips : mlxsw_thermal_trips) : List mlxsw_thermal_trip :=
  [trips.norm, trips.high, trips.hot]

/-- The temperatures of the three trips do not decrease. -/
def mlxsw_thermal_trips.ordered (trips : mlxsw_thermal_trips) : Prop :=
  trips.norm.temp ≤ trips.high.temp ∧ trips.high.temp ≤ trips.hot.temp

instance (trips : mlxsw_thermal_trips) : Decidable trips.ordered := by
  unfold mlxsw_thermal_trips.ordered
  infer_instance

/-- The table `default_thermal_trips`. -/
def default_thermal_trips : mlxsw_thermal_trips :=
  { norm := { type := THERMAL_TRIP_ACTIVE, temp := MLXSW_THERMAL_ASIC_TEMP_NORM,
              hyst := MLXSW_THERMAL_HYSTERESIS_TEMP, min_state := 0,
              max_state := Int.tdiv (4 * MLXSW_THERMAL_MAX_STATE) 10 },
    high := { type := THERMAL_TRIP_ACTIVE, temp := MLXSW_THERMAL_ASIC_TEMP_HIGH,
              hyst := MLXSW_THERMAL_HYSTERESIS_TEMP,
              min_state := Int.tdiv (4 * MLXSW_THERMAL_MAX_STATE) 10,
              max_state := MLXSW_THERMAL_MAX_STATE },
    hot := { type := THERMAL_TRIP_HOT, temp := MLXSW_THERMAL_ASIC_TEMP_HOT, hyst := 0,
             min_state := MLXSW_THERMAL_MAX_STATE, max_state := MLXSW_THERMAL_MAX_STATE } }

/-! ## The zones -/

/-- The fields of `struct mlxsw_thermal_module` the callbacks use; `parent` and
`area` are passed to the functions. -/
structure mlxsw_thermal_module where
  tzdev : Nat
  trips : mlxsw_thermal_trips
  module : Nat
  slot_index : Nat
deriving DecidableEq, Repr

/-- The fields of `struct mlxsw_thermal_area` the callbacks use. -/
structure mlxsw_thermal_area where
  tz_module_arr : List mlxsw_thermal_module
  tz_gearbox_arr : List mlxsw_thermal_module
  slot_index : Nat
  gearbox_sensor_map : List Nat
deriving DecidableEq, Repr

/-- The fields of `struct mlxsw_thermal` the zone callbacks use. -/
structure mlxsw_thermal (σ : Type) where
  core : mlxsw_core σ
  tzdev : Nat
  trips : mlxsw_thermal_trips
  main : mlxsw_thermal_area
  tz_highest_score : Nat
  tz_highest_dev : Option Nat
  initializing : Bool

/-- The function `mlxsw_thermal_module_trips_reset`. -/
def mlxsw_thermal_module_trips_reset (tz : mlxsw_thermal_module) : mlxsw_thermal_module :=
  { tz with trips :=
      { norm := { tz.trips.norm with temp := MLXSW_THERMAL_MODULE_TEMP_NORM },
        high := { tz.trips.high with temp := MLXSW_THERMAL_MODULE_TEMP_HIGH },
        hot := { tz.trips.hot with temp := MLXSW_THERMAL_MODULE_TEMP_HOT } } }

/-- The trips `mlxsw_thermal_module_init` gives a module zone: a copy of
`default_thermal_trips`, then `mlxsw_thermal_module_trips_reset`. -/
def mlxsw_thermal_module_init_trips (tz : mlxsw_thermal_module) : mlxsw_thermal_module :=
  mlxsw_thermal_module_trips_reset { tz with trips := default_thermal_trips }

/-- The function `mlxsw_thermal_module_trips_update`; the result is the core, the
zone and the return value. The `dev_warn` of the rejected update is not
modelled. -/
def mlxsw_thermal_module_trips_update {σ : Type} (cpu_big_endian : Bool)
    (dev : mlxsw_device σ) (core : mlxsw_core σ) (tz : mlxsw_thermal_module) :
    mlxsw_core σ × mlxsw_thermal_module × Int :=
  let c := mlxsw_env_module_temp_thresholds_get cpu_big_endian dev core tz.slot_index tz.module
    SFP_TEMP_HIGH_WARN
  match c.2 with
  | Except.error err => (c.1, tz, err)
  | Except.ok crit_temp =>
    let e := mlxsw_env_module_temp_thresholds_get cpu_big_endian dev c.1 tz.slot_index tz.module
      SFP_TEMP_HIGH_ALARM
    match e.2 with
    | Except.error err => (e.1, tz, err)
    | Except.ok emerg_temp =>
      if crit_temp > emerg_temp then (e.1, tz, 0)
      else
        (e.1,
          { tz with trips :=
              { norm := { tz.trips.norm with
                            temp := if crit_temp ≥ MLXSW_THERMAL_MODULE_TEMP_SHIFT then
                              crit_temp - MLXSW_THERMAL_MODULE_TEMP_SHIFT else crit_temp },
                high := { tz.trips.high with temp := crit_temp },
                hot := { tz.trips.hot with temp := emerg_temp } } },
          0)

/-! ## The score of the hottest zone -/

/-- Conversion of an `int` to `unsigned int`. -/
def u32_of_int (x : Int) : Nat := (x % 4294967296).toNat

/-- The macro `DIV_ROUND_CLOSEST(x, divisor)` (linux/kernel.h) for two `int`
operands, with the truncating division of C. -/
def DIV_ROUND_CLOSEST (x divisor : Int) : Int :=
  if decide (x > 0) = decide (divisor > 0) then
    s32 (Int.tdiv (s32 (x + Int.tdiv divisor 2)) divisor)
  else
    s32 (Int.tdiv (s32 (x - Int.tdiv divisor 2)) divisor)

/-- The `for` loop of `mlxsw_thermal_tz_score_update` from the trip `trip` on,
with the current `shift`: the value of `score` after the loop. -/
def mlxsw_thermal_tz_score_loop (temp : Int) : List mlxsw_thermal_trip → Nat → Nat
  | [], _ => MLXSW_THERMAL_TEMP_SCORE_MAX
  | trip :: rest, shift =>
    if temp < trip.temp then
      u32 (u32_of_int (DIV_ROUND_CLOSEST temp (s32 (trip.temp - temp))) * shift)
    else mlxsw_thermal_tz_score_loop temp rest (u32 (shift * 256))

/-- Lines 222 to 231 of `mlxsw_thermal_tz_score_update`: the score of a zone with
the trips `trips` at the temperature `temp`. -/
def mlxsw_thermal_tz_score (trips : mlxsw_thermal_trips) (temp : Int) : Nat :=
  mlxsw_thermal_tz_score_loop temp trips.toList 1

/-- The function `mlxsw_thermal_tz_score_update`. -/
def mlxsw_thermal_tz_score_update {σ : Type} (thermal : mlxsw_thermal σ) (tzdev : Nat)
    (trips : mlxsw_thermal_trips) (temp : Int) : mlxsw_thermal σ :=
  if mlxsw_thermal_tz_score trips temp > thermal.tz_highest_score then
    { thermal with tz_highest_score := mlxsw_thermal_tz_score trips temp,
                   tz_highest_dev := some tzdev }
  else thermal

/-! ## The callbacks of the chassis zone -/

/-- The function `mlxsw_thermal_get_temp`; the result is the error or `*p_temp`. -/
def mlxsw_thermal_get_temp {σ : Type} (dev : mlxsw_device σ) (thermal : mlxsw_thermal σ) :
    mlxsw_thermal σ × Except Int Int :=
  if thermal.initializing then (thermal, Except.ok 0)
  else
    let q := mlxsw_reg_query_mtmp dev thermal.core (mlxsw_reg_mtmp_pack 0 0 false false)
    if q.2.1 ≠ 0 then ({ thermal with core := q.1 }, Except.error q.2.1)
    else if q.2.2.temp > 0 then
      (mlxsw_thermal_tz_score_update { thermal with core := q.1 } thermal.tzdev thermal.trips
        q.2.2.temp, Except.ok q.2.2.temp)
    else ({ thermal with core := q.1 }, Except.ok q.2.2.temp)

/-- The function `mlxsw_thermal_get_trip_temp`; the result is the error or
`*p_temp`. -/
def mlxsw_thermal_get_trip_temp {σ : Type} (thermal : mlxsw_thermal σ) (trip : Int) :
    Except Int Int :=
  if trip < 0 ∨ trip ≥ MLXSW_THERMAL_NUM_TRIPS then Except.error (-EINVAL_errno)
  else Except.ok (thermal.trips.get trip).temp

/-- The function `mlxsw_thermal_set_trip_temp`; the result is the zone data and
the return value. -/
def mlxsw_thermal_set_trip_temp {σ : Type} (thermal : mlxsw_thermal σ) (trip temp : Int) :
    mlxsw_thermal σ × Int :=
  if trip < 0 ∨ trip ≥ MLXSW_THERMAL_NUM_TRIPS then (thermal, -EINVAL_errno)
  else ({ thermal with trips := thermal.trips.set_temp trip temp }, 0)

/-- The function `mlxsw_thermal_trend_get` for the zone `tzdev`; the result is
the return value and what was written to `*trend`, if anything. -/
def mlxsw_thermal_trend_get {σ : Type} (thermal : mlxsw_thermal σ) (tzdev : Nat) (trip : Int) :
    Int × Option thermal_trend :=
  if trip < 0 ∨ trip ≥ MLXSW_THERMAL_NUM_TRIPS then (-EINVAL_errno, none)
  else if some tzdev = thermal.tz_highest_dev then (1, none)
  else (0, some thermal_trend.THERMAL_TREND_STABLE)

/-! ## The callbacks of the module and gearbox zones -/

/-- The function `mlxsw_thermal_module_temp_get` for the zone `tz` of the parent
`thermal`; the result is the error or `*p_temp`. -/
def mlxsw_thermal_module_temp_get {σ : Type} (cpu_big_endian : Bool) (dev : mlxsw_device σ)
    (thermal : mlxsw_thermal σ) (tz : mlxsw_thermal_module) :
    mlxsw_thermal σ × mlxsw_thermal_module × Except Int Int :=
  if thermal.initializing then (thermal, tz, Except.ok 0)
  else
    let q := mlxsw_reg_query_mtmp dev thermal.core
      (mlxsw_reg_mtmp_pack tz.slot_index (MLXSW_REG_MTMP_MODULE_INDEX_MIN + tz.module)
        false false)
    if q.2.1 ≠ 0 then ({ thermal with core := q.1 }, tz, Except.ok 0)
    else if q.2.2.temp = 0 then ({ thermal with core := q.1 }, tz, Except.ok q.2.2.temp)
    else
      let u := mlxsw_thermal_module_trips_update cpu_big_endian dev q.1 tz
      if u.2.2 = 0 ∧ q.2.2.temp > 0 then
        (mlxsw_thermal_tz_score_update { thermal with core := u.1 } u.2.1.tzdev u.2.1.trips
          q.2.2.temp, u.2.1, Except.ok q.2.2.temp)
      else ({ thermal with core := u.1 }, u.2.1, Except.ok q.2.2.temp)

/-- The function `mlxsw_thermal_module_trip_temp_get`. -/
def mlxsw_thermal_module_trip_temp_get (tz : mlxsw_thermal_module) (trip : Int) :
    Except Int Int :=
  if trip < 0 ∨ trip ≥ MLXSW_THERMAL_NUM_TRIPS then Except.error (-EINVAL_errno)
  else Except.ok (tz.trips.get trip).temp

/-- The function `mlxsw_thermal_module_trip_temp_set`. -/
def mlxsw_thermal_module_trip_temp_set (tz : mlxsw_thermal_module) (trip temp : Int) :
    mlxsw_thermal_module × Int :=
  if trip < 0 ∨ trip ≥ MLXSW_THERMAL_NUM_TRIPS then (tz, -EINVAL_errno)
  else ({ tz with trips := tz.trips.set_temp trip temp }, 0)

/-- The function `mlxsw_thermal_module_trend_get` for the zone `tz` of the parent
`thermal`. -/
def mlxsw_thermal_module_trend_get {σ : Type} (thermal : mlxsw_thermal σ)
    (tz : mlxsw_thermal_module) (trip : Int) : Int × Option thermal_trend :=
  if trip < 0 ∨ trip ≥ MLXSW_THERMAL_NUM_TRIPS then (-EINVAL_errno, none)
  else if some tz.tzdev = thermal.tz_highest_dev then (1, none)
  else (0, some thermal_trend.THERMAL_TREND_STABLE)

/-- The function `mlxsw_thermal_gearbox_temp_get` for the zone `tz` of the parent
`thermal`, with `tz->area->gearbox_sensor_map` (a `u16` array). -/
def mlxsw_thermal_gearbox_temp_get {σ : Type} (dev : mlxsw_device σ)
    (thermal : mlxsw_thermal σ) (gearbox_sensor_map : List Nat) (tz : mlxsw_thermal_module) :
    mlxsw_thermal σ × Except Int Int :=
  if thermal.initializing then (thermal, Except.ok 0)
  else
    let index := u16 (gearbox_sensor_map.getD tz.module 0)
    let q := mlxsw_reg_query_mtmp dev thermal.core
      (mlxsw_reg_mtmp_pack tz.slot_index index false false)
    if q.2.1 ≠ 0 then ({ thermal with core := q.1 }, Except.error q.2.1)
    else if q.2.2.temp > 0 then
      (mlxsw_thermal_tz_score_update { thermal with core := q.1 } tz.tzdev tz.trips q.2.2.temp,
        Except.ok q.2.2.temp)
    else ({ thermal with core := q.1 }, Except.ok q.2.2.temp)

/-! ## The zone operations -/

/-- A callback of a thermal zone as the external governor invokes it: the chassis
zone (`mlxsw_thermal_ops`), the module zone number `i` of the main area
(`mlxsw_thermal_module_ops`) or its gearbox zone number `i`
(`mlxsw_thermal_gearbox_ops`). -/
inductive zone_op where
  | get_temp
  | get_trip_temp (trip : Int)
  | set_trip_temp (trip temp : Int)
  | trend_get (trip : Int)
  | module_temp_get (i : Nat)
  | module_trip_temp_get (i : Nat) (trip : Int)
  | module_trip_temp_set (i : Nat) (trip temp : Int)
  | module_trend_get (i : Nat) (trip : Int)
  | gearbox_temp_get (i : Nat)
  | gearbox_trip_temp_get (i : Nat) (trip : Int)
  | gearbox_trip_temp_set (i : Nat) (trip temp : Int)
  | gearbox_trend_get (i : Nat) (trip : Int)
deriving DecidableEq, Repr

/-- Modelled from the spec: the dispatch of one callback by the external
governor (the thermal core is not among the sources): the callback runs on the
zone it is registered for, and what it stores stays in the driver data. A
callback of a zone that does not exist is not invoked. -/
def zone_op.apply {σ : Type} (cpu_big_endian : Bool) (dev : mlxsw_device σ)
    (thermal : mlxsw_thermal σ) : zone_op → mlxsw_thermal σ
  | zone_op.get_temp => (mlxsw_thermal_get_temp dev thermal).1
  | zone_op.get_trip_temp _ => thermal
  | zone_op.set_trip_temp trip temp => (mlxsw_thermal_set_trip_temp thermal trip temp).1
  | zone_op.trend_get _ => thermal
  | zone_op.module_temp_get i =>
    match thermal.main.tz_module_arr[i]? with
    | none => thermal
    | some tz =>
      let r := mlxsw_thermal_module_temp_get cpu_big_endian dev thermal tz
      { r.1 with main := { r.1.main with tz_module_arr := r.1.main.tz_module_arr.set i r.2.1 } }
  | zone_op.module_trip_temp_get _ _ => thermal
  | zone_op.module_trip_temp_set i trip temp =>
    match thermal.main.tz_module_arr[i]? with
    | none => thermal
    | some tz =>
      { thermal with main := { thermal.main with
          tz_module_arr := thermal.main.tz_module_arr.set i
            (mlxsw_thermal_module_trip_temp_set tz trip temp).1 } }
  | zone_op.module_trend_get _ _ => thermal
  | zone_op.gearbox_temp_get i =>
    match thermal.main.tz_gearbox_arr[i]? with
    | none => thermal
    | some tz => (mlxsw_thermal_gearbox_temp_get dev thermal thermal.main.gearbox_sensor_map tz).1
  | zone_op.gearbox_trip_temp_get _ _ => thermal
  | zone_op.gearbox_trip_temp_set i trip temp =>
    match thermal.main.tz_gearbox_arr[i]? with
    | none => thermal
    | some tz =>
      { thermal with main := { thermal.main with
          tz_gearbox_arr := thermal.main.tz_gearbox_arr.set i
            (mlxsw_thermal_module_trip_temp_set tz trip temp).1 } }
  | zone_op.gearbox_trend_get _ _ => thermal

/-- A sequence of zone operations, one after the other. -/
def zone_ops_run {σ : Type} (cpu_big_endian : Bool) (dev : mlxsw_device σ)
    (thermal : mlxsw_thermal σ) (ops : List zone_op) : mlxsw_thermal σ :=
  ops.foldl (fun t op => zone_op.apply cpu_big_endian dev t op) thermal

/-! ## Simulated modules and zones for the examples -/

/-- A legacy (SFP) module image of 256 bytes: the identifier 0x03 and zeros; the
module has no second address space, so no thresholds. -/
def sfp_image_no_diag : List Nat := 0x03 :: List.replicate 255 0

/-- A legacy (SFP) module image of 262 bytes whose second address space starts
with the emergency threshold bytes `(emerg, 0)` (offset `SFP_TEMP_HIGH_ALARM`)
and holds the critical threshold bytes `(crit, 0)` at offset
`SFP_TEMP_HIGH_WARN`. -/
def sfp_image_thresholds (emerg crit : Nat) : List Nat :=
  0x03 :: (List.replicate 255 0 ++ [emerg, 0, 0, 0, crit, 0])

/-- The zone of module 0 of the main area, as `mlxsw_thermal_module_init` leaves
it, registered as zone 2. -/
def module_zone_0 : mlxsw_thermal_module :=
  mlxsw_thermal_module_init_trips
    { tzdev := 2, trips := default_thermal_trips, module := 0, slot_index := 0 }

/-- The driver data after `mlxsw_thermal_init` on a system with one module zone
and no gearbox: the chassis zone is zone 1, no score was observed yet. -/
def thermal_0 : mlxsw_thermal Unit :=
  { core := core_init, tzdev := 1, trips := default_thermal_trips,
    main := { tz_module_arr := [module_zone_0], tz_gearbox_arr := [], slot_index := 0,
              gearbox_sensor_map := [] },
    tz_highest_score := 0, tz_highest_dev := none, initializing := false }

/-! # mlxsw: the cooling device (core_thermal.c)

The PWM of the fans is registered as a thermal cooling device with the states 0
to `MLXSW_THERMAL_MAX_STATE`. The driver reads and writes the duty cycle through
the MFSC register; the requests above the maximal state set the dynamic minimum
of the fan speed, kept in `cooling_levels`. -/

/-! ## Constants -/

/-- The constant `MLXSW_THERMAL_MAX_DUTY`. -/
def MLXSW_THERMAL_MAX_DUTY : Int := 255

/-- The constant `MLXSW_THERMAL_SPEED_MIN`, `MLXSW_THERMAL_MAX_STATE + 2`. -/
def MLXSW_THERMAL_SPEED_MIN : Int := MLXSW_THERMAL_MAX_STATE + 2

/-- The constant `MLXSW_THERMAL_SPEED_MAX`, `MLXSW_THERMAL_MAX_STATE * 2`. -/
def MLXSW_THERMAL_SPEED_MAX : Int := MLXSW_THERMAL_MAX_STATE * 2

/-- The constant `MLXSW_THERMAL_SPEED_MIN_LEVEL` (20%). -/
def MLXSW_THERMAL_SPEED_MIN_LEVEL : Int := 2

/-- The errno value `ENODEV`. -/
def ENODEV_errno : Int := 19

/-- Conversion of an `int` to `u8`. -/
def u8_of_int (x : Int) : Nat := (x % 256).toNat

/-- Conversion of an `int` to `unsigned long` (64 bits). -/
def ulong_of_int (x : Int) : Nat := (x % 18446744073709551616).toNat

/-! ## Duty and state -/

/-- The function `mlxsw_state_to_duty`: an `int` state to the `u8` duty. -/
def mlxsw_state_to_duty (state : Int) : Nat :=
  u8_of_int (DIV_ROUND_CLOSEST (s32 (state * MLXSW_THERMAL_MAX_DUTY)) MLXSW_THERMAL_MAX_STATE)

/-- The function `mlxsw_duty_to_state`: a `u8` duty to the `int` state. -/
def mlxsw_duty_to_state (duty : Nat) : Int :=
  DIV_ROUND_CLOSEST (s32 ((u8 duty : Int) * MLXSW_THERMAL_MAX_STATE)) MLXSW_THERMAL_MAX_DUTY

/-! ## The MFSC register and the fan device -/

/-- The fields of an MFSC payload, as `mlxsw_reg_mfsc_pack` receives them. -/
structure mlxsw_reg_mfsc where
  pwm : Nat
  pwm_duty_cycle : Nat
deriving DecidableEq, Repr

/-- Modelled from the spec: the device behind `mlxsw_reg_query` and
`mlxsw_reg_write` for the fan register (core.c is not among the sources),
"`query(registerId, payload) -> (payload, status)`, `write(registerId, payload)
-> status`". A query yields the error code of the transport and the duty cycle
field of the response; a write yields the error code. -/
structure mlxsw_fan_device (σ : Type) where
  mfsc_query : σ → mlxsw_reg_mfsc → σ × Int × Nat
  mfsc_write : σ → mlxsw_reg_mfsc → σ × Int

/-- One MFSC transaction: a query with its error code and the duty cycle of the
response, or a write with its error code. -/
inductive mfsc_xfer where
  | query (pl : mlxsw_reg_mfsc) (err : Int) (duty : Nat)
  | write (pl : mlxsw_reg_mfsc) (err : Int)
deriving DecidableEq, Repr

/-- The driver's handle on the fan device: the device state and the MFSC
transactions issued so far, oldest first. -/
structure mlxsw_fan_core (σ : Type) where
  state : σ
  log : List mfsc_xfer

/-- Modelled from the spec: `mlxsw_reg_mfsc_pack` (reg.h) builds the payload for
the PWM `pwm` with the duty cycle `pwm_duty_cycle` (a `u8`). -/
def mlxsw_reg_mfsc_pack (pwm pwm_duty_cycle : Nat) : mlxsw_reg_mfsc :=
  { pwm := pwm, pwm_duty_cycle := u8 pwm_duty_cycle }

/-- Modelled from the spec: `mlxsw_reg_query(core, MLXSW_REG(mfsc), pl)`: one
MFSC query, appended to the log. -/
def mlxsw_reg_query_mfsc {σ : Type} (dev : mlxsw_fan_device σ) (core : mlxsw_fan_core σ)
    (pl : mlxsw_reg_mfsc) : mlxsw_fan_core σ × Int × Nat :=
  let r := dev.mfsc_query core.state pl
  ({ state := r.1, log := core.log ++ [mfsc_xfer.query pl r.2.1 r.2.2] }, r.2.1, r.2.2)

/-- Modelled from the spec: `mlxsw_reg_write(core, MLXSW_REG(mfsc), pl)`: one
MFSC write, appended to the log. -/
def mlxsw_reg_write_mfsc {σ : Type} (dev : mlxsw_fan_device σ) (core : mlxsw_fan_core σ)
    (pl : mlxsw_reg_mfsc) : mlxsw_fan_core σ × Int :=
  let r := dev.mfsc_write core.state pl
  ({ state := r.1, log := core.log ++ [mfsc_xfer.write pl r.2] }, r.2)

/-- The write transactions of a log. -/
def mfsc_writes (log : List mfsc_xfer) : List mlxsw_reg_mfsc :=
  log.filterMap (fun x => match x with
    | mfsc_xfer.write pl _ => some pl
    | mfsc_xfer.query _ _ _ => none)

/-! ## The cooling device -/

/-- A `struct thermal_cooling_device` as the driver sees it: its identity (the
pointer) and its `type` string. -/
structure thermal_cooling_device where
  id : Nat
  type : List Char
deriving DecidableEq, Repr

/-- The members of `struct mlxsw_thermal` that the callbacks of the cooling
device use: `core` (as far as the MFSC register goes), the array `cdevs` (`none`
for a NULL entry) and the array `cooling_levels` of `MLXSW_THERMAL_MAX_STATE + 1`
entries of type `u8`. -/
structure mlxsw_thermal_cooling (σ : Type) where
  core : mlxsw_fan_core σ
  cdevs : List (Option Nat)
  cooling_levels : List Nat

/-- The function `strnstr(s, needle, len)` as a test: `needle` occurs within the
first `len` characters of `s`. -/
def strnstr (s needle : List Char) (len : Nat) : Bool :=
  (List.range (len + 1 - needle.length)).any
    (fun k => decide (((s.take len).drop k).take needle.length = needle))

/-- The table `mlxsw_thermal_external_allowed_cdev`. -/
def mlxsw_thermal_external_allowed_cdev : List (List Char) := ["mlxreg_fan".toList]

/-- The size of `cdev->type`, `THERMAL_NAME_LENGTH`. -/
def THERMAL_NAME_LENGTH : Nat := 20

/-- The function `mlxsw_get_cooling_device_idx`. -/
def mlxsw_get_cooling_device_idx {σ : Type} (thermal : mlxsw_thermal_cooling σ)
    (cdev : thermal_cooling_device) : Int :=
  if thermal.cdevs.indexOf (some cdev.id) < thermal.cdevs.length then
    (thermal.cdevs.indexOf (some cdev.id) : Int)
  else if mlxsw_thermal_external_allowed_cdev.any
      (fun name => strnstr cdev.type name THERMAL_NAME_LENGTH) then 0
  else -ENODEV_errno

/-- The loop of `mlxsw_thermal_init` that initialises the cooling levels (lines
1210 to 1213), `for (i = 0; i < MLXSW_THERMAL_MAX_STATE; i++)`, on the array as
it stands. -/
def mlxsw_thermal_init_cooling_levels (cooling_levels : List Nat) : List Nat :=
  (List.range MLXSW_THERMAL_MAX_STATE.toNat).foldl
    (fun cl i => cl.set i (u8_of_int (max MLXSW_THERMAL_SPEED_MIN_LEVEL (i : Int))))
    cooling_levels

/-- The function `mlxsw_thermal_init` as far as the cooling device goes: the
structure is allocated zeroed (`devm_kzalloc`), the cooling devices registered
for the active PWMs are stored in `cdevs`, and the cooling levels are
initialised. -/
def mlxsw_thermal_init {σ : Type} (core : mlxsw_fan_core σ) (cdevs : List (Option Nat)) :
    mlxsw_thermal_cooling σ :=
  { core := core, cdevs := cdevs,
    cooling_levels := mlxsw_thermal_init_cooling_levels
      (List.replicate (MLXSW_THERMAL_MAX_STATE.toNat + 1) 0) }

/-- The function `mlxsw_thermal_get_cur_state`; the result is the error or
`*p_state`. -/
def mlxsw_thermal_get_cur_state {σ : Type} (dev : mlxsw_fan_device σ)
    (thermal : mlxsw_thermal_cooling σ) (cdev : thermal_cooling_device) :
    mlxsw_thermal_cooling σ × Except Int Nat :=
  let idx := mlxsw_get_cooling_device_idx thermal cdev
  if idx < 0 then (thermal, Except.error idx)
  else
    let q := mlxsw_reg_query_mfsc dev thermal.core (mlxsw_reg_mfsc_pack idx.toNat 0)
    if q.2.1 ≠ 0 then ({ thermal with core := q.1 }, Except.error q.2.1)
    else ({ thermal with core := q.1 }, Except.ok (ulong_of_int (mlxsw_duty_to_state (u8 q.2.2))))

/-- Lines 772 to 783 of `mlxsw_thermal_set_cur_state`: the validation of `state`
(an `unsigned long`) and the write of the duty of its cooling level. -/
def mlxsw_thermal_set_cur_state_write {σ : Type} (dev : mlxsw_fan_device σ)
    (thermal : mlxsw_thermal_cooling σ) (idx : Int) (state : Nat) :
    mlxsw_thermal_cooling σ × Int :=
  if (state : Int) > MLXSW_THERMAL_MAX_STATE then (thermal, -EINVAL_errno)
  else
    let state := thermal.cooling_levels.getD state 0
    let w := mlxsw_reg_write_mfsc dev thermal.core
      (mlxsw_reg_mfsc_pack idx.toNat (mlxsw_state_to_duty (s32 (state : Int))))
    ({ thermal with core := w.1 }, w.2)

/-- The loop `for (i = 0; i <= MLXSW_THERMAL_MAX_STATE; i++)
thermal->cooling_levels[i] = max(state, i)` of `mlxsw_thermal_set_cur_state`. -/
def mlxsw_thermal_set_cooling_levels (state : Nat) (cooling_levels : List Nat) : List Nat :=
  (List.range (MLXSW_THERMAL_MAX_STATE.toNat + 1)).foldl
    (fun cl i => cl.set i (u8 (max state i))) cooling_levels

/-- The function `mlxsw_thermal_set_cur_state` for the request `state` (an
`unsigned long`); the result is the driver data and the return value. -/
def mlxsw_thermal_set_cur_state {σ : Type} (dev : mlxsw_fan_device σ)
    (thermal : mlxsw_thermal_cooling σ) (cdev : thermal_cooling_device) (state : Nat) :
    mlxsw_thermal_cooling σ × Int :=
  let idx := mlxsw_get_cooling_device_idx thermal cdev
  if idx < 0 then (thermal, idx)
  else if (state : Int) ≥ MLXSW_THERMAL_SPEED_MIN ∧ (state : Int) ≤ MLXSW_THERMAL_SPEED_MAX then
    let state := state - MLXSW_THERMAL_MAX_STATE.toNat
    let thermal := { thermal with
      cooling_levels := mlxsw_thermal_set_cooling_levels state thermal.cooling_levels }
    let q := mlxsw_reg_query_mfsc dev thermal.core (mlxsw_reg_mfsc_pack idx.toNat 0)
    if q.2.1 ≠ 0 then ({ thermal with core := q.1 }, q.2.1)
    else
      let cur_state := ulong_of_int (mlxsw_duty_to_state (u8 q.2.2))
      if state < cur_state then ({ thermal with core := q.1 }, 0)
      else mlxsw_thermal_set_cur_state_write dev { thermal with core := q.1 } idx cur_state
  else mlxsw_thermal_set_cur_state_write dev thermal idx state

/-- A sequence of `mlxsw_thermal_set_cur_state` calls on the cooling device
`cdev`, one after the other, whatever they return. -/
def set_cur_state_run {σ : Type} (dev : mlxsw_fan_device σ)
    (thermal : mlxsw_thermal_cooling σ) (cdev : thermal_cooling_device) (states : List Nat) :
    mlxsw_thermal_cooling σ :=
  states.foldl (fun t state => (mlxsw_thermal_set_cur_state dev t cdev state).1) thermal

/-! ## A simulated fan for the examples -/

/-- A fan whose state is the duty cycle of its PWM: a query answers the duty
cycle, a write stores it; no transaction fails. -/
def sim_fan : mlxsw_fan_device Nat where
  mfsc_query s _ := (s, 0, s)
  mfsc_write _ pl := (pl.pwm_duty_cycle, 0)

/-- The cooling device registered for PWM 0. -/
def mlxsw_fan : thermal_cooling_device := { id := 7, type := "mlxsw_fan".toList }

/-- The driver data after `mlxsw_thermal_init` on the simulated fan running at
the duty cycle `duty`, with the cooling device of PWM 0. -/
def cooling_0 (duty : Nat) : mlxsw_thermal_cooling Nat :=
  mlxsw_thermal_init { state := duty, log := [] } [some 7, none, none, none, none]

/-- A sensor that reads 100 degrees below zero; its module memory does not
answer. -/
def cold_device : mlxsw_device Unit where
  mcia s _ := (s, 0, { status := 1, eeprom := [] })
  mtmp s _ := (s, 0, { temp := -100000, max_temp := 0 })

/-! ## Theorems -/

section theorems

variable {σ : Type}

/-- The core after `mlxsw_env_query_module_eeprom`: exactly one MCIA transaction,
the resolved one, was issued. -/
theorem query_module_eeprom_core (dev : mlxsw_device σ) (core : mlxsw_core σ)
    (slot_index module offset size : Nat) (qsfp cmis : Bool) :
    (mlxsw_env_query_module_eeprom dev core slot_index module offset size qsfp cmis).1 =
      (mlxsw_reg_query_mcia dev core
        (mlxsw_reg_mcia_pack slot_index module 0
          (mlxsw_env_query_module_eeprom_window offset size qsfp cmis).page
          (mlxsw_env_query_module_eeprom_window offset size qsfp cmis).offset
          (mlxsw_env_query_module_eeprom_window offset size qsfp cmis).size
          (mlxsw_env_query_module_eeprom_window offset size qsfp cmis).i2c_addr)).1 := by
  unfold mlxsw_env_query_module_eeprom
  simp only []
  split_ifs <;> rfl

/-- The size reported by a successful `mlxsw_env_query_module_eeprom` is the size
of the resolved transaction. -/
theorem query_module_eeprom_read_size (dev : mlxsw_device σ) (core : mlxsw_core σ)
    (slot_index module offset size : Nat) (qsfp cmis : Bool) (d : List Nat) (n : Nat)
    (h : (mlxsw_env_query_module_eeprom dev core slot_index module offset size qsfp cmis).2 =
      Except.ok (d, n)) :
    n = (mlxsw_env_query_module_eeprom_window offset size qsfp cmis).size := by
  unfold mlxsw_env_query_module_eeprom at h
  simp only [] at h
  split_ifs at h
  simp only [Except.ok.injEq, Prod.mk.injEq] at h
  exact h.2.symm

/-- The transaction issued by `mlxsw_env_query_module_eeprom`, in terms of the
resolved window: the shape every claim about the transaction is proved from. -/
theorem query_module_eeprom_issued (dev : mlxsw_device σ) (core : mlxsw_core σ)
    (slot_index module offset size : Nat) (qsfp cmis : Bool) :
    ∃ (pl : mlxsw_reg_mcia) (err : Int) (resp : mcia_resp),
      (mlxsw_env_query_module_eeprom dev core slot_index module offset size qsfp cmis).1.log =
        core.log ++ [reg_xfer.mcia pl err resp] ∧
      pl.page_number = (mlxsw_env_query_module_eeprom_window offset size qsfp cmis).page ∧
      pl.device_address = (mlxsw_env_query_module_eeprom_window offset size qsfp cmis).offset ∧
      pl.size = (mlxsw_env_query_module_eeprom_window offset size qsfp cmis).size ∧
      pl.i2c_device_address =
        (mlxsw_env_query_module_eeprom_window offset size qsfp cmis).i2c_addr ∧
      ∀ (d : List Nat) (n : Nat),
        (mlxsw_env_query_module_eeprom dev core slot_index module offset size qsfp cmis).2 =
          Except.ok (d, n) → n = pl.size := by
  rw [query_module_eeprom_core]
  exact ⟨_, _, _, rfl, rfl, rfl, rfl, rfl, fun d n h =>
    query_module_eeprom_read_size dev core slot_index module offset size qsfp cmis d n h⟩

/-- Chunk bound of the window, where the page number fits the `u8`. -/
theorem window_size_le (offset size : Nat) (qsfp cmis : Bool)
    (h : qsfp = false ∨ u16 offset < 32896) :
    (mlxsw_env_query_module_eeprom_window offset size qsfp cmis).size ≤ 48 := by
  unfold mlxsw_env_query_module_eeprom_window
  simp only [u16, u8, u16_sub, MLXSW_REG_MCIA_PAGE_GET, MLXSW_REG_MCIA_EEPROM_SIZE,
    MLXSW_REG_MCIA_EEPROM_PAGE_LENGTH, MLXSW_REG_MCIA_EEPROM_UP_PAGE_LENGTH] at *
  cases qsfp <;> simp only [Bool.false_eq_true, Bool.true_eq_false, if_false, if_true, false_or,
    true_or] at h ⊢ <;> split_ifs <;> simp only [] <;> omega

/-- The window of an offset in the lower page. -/
theorem window_lower (offset size : Nat) (qsfp cmis : Bool) (h : offset < 256) :
    (mlxsw_env_query_module_eeprom_window offset size qsfp cmis).page = 0 ∧
    (mlxsw_env_query_module_eeprom_window offset size qsfp cmis).offset = offset ∧
    (mlxsw_env_query_module_eeprom_window offset size qsfp cmis).i2c_addr =
      MLXSW_REG_MCIA_I2C_ADDR_LOW ∧
    offset + (mlxsw_env_query_module_eeprom_window offset size qsfp cmis).size ≤ 256 := by
  unfold mlxsw_env_query_module_eeprom_window
  simp only [u16, u8, u16_sub, MLXSW_REG_MCIA_PAGE_GET, MLXSW_REG_MCIA_EEPROM_SIZE,
    MLXSW_REG_MCIA_EEPROM_PAGE_LENGTH, MLXSW_REG_MCIA_EEPROM_UP_PAGE_LENGTH, MLXSW_ENV_PAGE_MAP,
    MLXSW_REG_MCIA_TH_PAGE_NUM, MLXSW_ENV_CMIS_PAGE_OFF]
  have h1 : offset % 65536 = offset := Nat.mod_eq_of_lt (by omega)
  have h2 : ¬ (offset ≥ 256) := by omega
  simp only [h1, h2, if_false]
  refine ⟨?_, trivial, trivial, ?_⟩
  · split_ifs <;> first | rfl | omega
  · split_ifs <;> omega

/-- The window of an offset in the upper pages of a paged module, where the page
number fits the `u8`. -/
theorem window_paged (offset size : Nat) (cmis : Bool) (h1 : 256 ≤ offset)
    (h2 : offset < 32896) :
    (mlxsw_env_query_module_eeprom_window offset size true cmis).page =
      (if cmis then u8 (MLXSW_ENV_PAGE_MAP ((offset - 256) / 128 + 1))
        else (offset - 256) / 128 + 1) ∧
    (mlxsw_env_query_module_eeprom_window offset size true cmis).offset =
      offset - ((offset - 256) / 128 + 1) * 128 ∧
    (mlxsw_env_query_module_eeprom_window offset size true cmis).i2c_addr =
      MLXSW_REG_MCIA_I2C_ADDR_LOW ∧
    128 ≤ (mlxsw_env_query_module_eeprom_window offset size true cmis).offset ∧
    (mlxsw_env_query_module_eeprom_window offset size true cmis).offset < 256 ∧
    (mlxsw_env_query_module_eeprom_window offset size true cmis).offset +
      (mlxsw_env_query_module_eeprom_window offset size true cmis).size ≤ 256 := by
  unfold mlxsw_env_query_module_eeprom_window
  simp only [u16, u8, u16_sub, MLXSW_REG_MCIA_PAGE_GET, MLXSW_REG_MCIA_EEPROM_SIZE,
    MLXSW_REG_MCIA_EEPROM_PAGE_LENGTH, MLXSW_REG_MCIA_EEPROM_UP_PAGE_LENGTH]
  have e1 : offset % 65536 = offset := Nat.mod_eq_of_lt (by omega)
  have e2 : ¬ (offset < 256 ∧ offset + min (size % 65536) 48 > 256) := by omega
  have e3 : offset ≥ 256 := h1
  have e4 : ((offset - 256) / 128 + 1) % 256 = (offset - 256) / 128 + 1 :=
    Nat.mod_eq_of_lt (by omega)
  have e5 : (offset + 65536 - 128 * ((offset - 256) / 128 + 1) % 65536) % 65536 =
      offset - ((offset - 256) / 128 + 1) * 128 := by omega
  simp only [e1, e2, e3, e4, e5, if_true, if_false]
  refine ⟨trivial, trivial, trivial, by omega, by omega, ?_⟩
  split_ifs <;> omega

/-- The page of the window is the page computed by the reader, remapped for a
CMIS module and stored in a `u8`. -/
theorem window_page (offset size : Nat) (qsfp cmis : Bool) :
    (mlxsw_env_query_module_eeprom_window offset size qsfp cmis).page =
      if cmis = true then u8 (MLXSW_ENV_PAGE_MAP (mlxsw_env_query_module_eeprom_page offset qsfp))
      else mlxsw_env_query_module_eeprom_page offset qsfp := by
  unfold mlxsw_env_query_module_eeprom_window mlxsw_env_query_module_eeprom_page
  simp only []
  cases qsfp <;> simp only [Bool.false_eq_true, if_false, if_true, and_false, and_true] <;>
    split_ifs <;> rfl

/-- The page computed by the reader is a `u8`. -/
theorem query_module_eeprom_page_lt (offset : Nat) (qsfp : Bool) :
    mlxsw_env_query_module_eeprom_page offset qsfp < 256 := by
  unfold mlxsw_env_query_module_eeprom_page u8
  split_ifs <;> omega

/-- The window of a request inside the image of a simulated module: it has at
least one byte, no more than requested and no more than 48, and each of its
bytes is the byte of the image the request names. -/
theorem window_sim (o r : Nat) (qsfp cmis : Bool) (hr : 1 ≤ r)
    (hmax : o + r ≤ sim_image_max qsfp cmis) :
    1 ≤ (mlxsw_env_query_module_eeprom_window o r qsfp cmis).size ∧
    (mlxsw_env_query_module_eeprom_window o r qsfp cmis).size ≤ r ∧
    (mlxsw_env_query_module_eeprom_window o r qsfp cmis).size ≤ 48 ∧
    ∀ k < (mlxsw_env_query_module_eeprom_window o r qsfp cmis).size,
      sim_logical qsfp cmis (mlxsw_env_query_module_eeprom_window o r qsfp cmis).i2c_addr
        (mlxsw_env_query_module_eeprom_window o r qsfp cmis).page
        ((mlxsw_env_query_module_eeprom_window o r qsfp cmis).offset + k) = some (o + k) := by
  have hm : sim_image_max qsfp cmis ≤ 32896 := by
    unfold sim_image_max
    split_ifs <;> omega
  have e1 : o % 65536 = o := Nat.mod_eq_of_lt (by omega)
  have e2 : r % 65536 = r := Nat.mod_eq_of_lt (by omega)
  by_cases hlow : o < 256
  · have hw : mlxsw_env_query_module_eeprom_window o r qsfp cmis =
        { page := 0, offset := o, size := if o + min r 48 > 256 then 256 - o else min r 48,
          i2c_addr := MLXSW_REG_MCIA_I2C_ADDR_LOW } := by
      unfold mlxsw_env_query_module_eeprom_window
      simp only [u16, u8, u16_sub, MLXSW_REG_MCIA_EEPROM_SIZE, MLXSW_REG_MCIA_EEPROM_PAGE_LENGTH,
        MLXSW_ENV_PAGE_MAP, MLXSW_REG_MCIA_TH_PAGE_NUM, MLXSW_ENV_CMIS_PAGE_OFF, e1, e2]
      have h2 : ¬ (o ≥ 256) := by omega
      simp only [hlow, h2, true_and, if_false]
      have h3 : (65536 + 256 - o) % 65536 = 256 - o := by omega
      have h4 : (256 + 65536 - o) % 65536 = 256 - o := by omega
      cases cmis <;> simp [h3, h4]
    rw [hw]
    simp only []
    refine ⟨by split_ifs <;> omega, by split_ifs <;> omega, by split_ifs <;> omega, ?_⟩
    intro k hk
    have hk' : o + k < 256 := by split_ifs at hk <;> omega
    unfold sim_logical
    simp only [MLXSW_REG_MCIA_TH_PAGE_NUM, MLXSW_ENV_CMIS_PAGE_OFF, if_true]
    cases qsfp <;> cases cmis <;> simp <;> omega
  · have hhigh : 256 ≤ o := by omega
    have h0 : ¬ (o < 256 ∧ o + min r 48 > 256) := by omega
    cases qsfp
    · have hm2 : o + r ≤ 512 := by
        have := hmax
        simp only [sim_image_max, Bool.false_eq_true, if_false] at this
        exact this
      have hw : mlxsw_env_query_module_eeprom_window o r false cmis =
          { page := 0, offset := o - 256, size := min r 48,
            i2c_addr := MLXSW_REG_MCIA_I2C_ADDR_HIGH } := by
        unfold mlxsw_env_query_module_eeprom_window
        simp only [u16, u8, u16_sub, MLXSW_REG_MCIA_EEPROM_SIZE,
          MLXSW_REG_MCIA_EEPROM_PAGE_LENGTH, MLXSW_ENV_PAGE_MAP, MLXSW_REG_MCIA_TH_PAGE_NUM,
          MLXSW_ENV_CMIS_PAGE_OFF, e1, e2]
        have h3 : (o + 65536 - 256 % 65536) % 65536 = o - 256 := by omega
        simp only [h0, hhigh, ge_iff_le, if_true, if_false, Bool.false_eq_true, h3]
        cases cmis <;> simp
      rw [hw]
      simp only []
      refine ⟨by omega, by omega, by omega, ?_⟩
      intro k hk
      unfold sim_logical
      simp only [MLXSW_REG_MCIA_I2C_ADDR_HIGH, MLXSW_REG_MCIA_I2C_ADDR_LOW]
      have h5 : o - 256 + k < 256 := by omega
      have h6 : 256 + (o - 256 + k) = o + k := by omega
      simp [h5, h6]
    · have hp1 : (o - 256) / 128 + 1 < 256 := by omega
      have hw : mlxsw_env_query_module_eeprom_window o r true cmis =
          { page := if cmis = true then u8 (MLXSW_ENV_PAGE_MAP ((o - 256) / 128 + 1))
              else (o - 256) / 128 + 1,
            offset := o - ((o - 256) / 128 + 1) * 128,
            size := if o - ((o - 256) / 128 + 1) * 128 + min r 48 > 256 then
                256 - (o - ((o - 256) / 128 + 1) * 128) else min r 48,
            i2c_addr := MLXSW_REG_MCIA_I2C_ADDR_LOW } := by
        unfold mlxsw_env_query_module_eeprom_window
        simp only [u16, u16_sub, MLXSW_REG_MCIA_PAGE_GET, MLXSW_REG_MCIA_EEPROM_SIZE,
          MLXSW_REG_MCIA_EEPROM_PAGE_LENGTH, MLXSW_REG_MCIA_EEPROM_UP_PAGE_LENGTH, e1, e2]
        have e4 : u8 ((o - 256) / 128 + 1) = (o - 256) / 128 + 1 := Nat.mod_eq_of_lt hp1
        have e5 : (o + 65536 - 128 * ((o - 256) / 128 + 1) % 65536) % 65536 =
            o - ((o - 256) / 128 + 1) * 128 := by omega
        have e6 : (256 + 65536 - (o - ((o - 256) / 128 + 1) * 128) % 65536) % 65536 =
            256 - (o - ((o - 256) / 128 + 1) * 128) := by omega
        simp only [h0, hhigh, ge_iff_le, if_true, if_false, e4, e5, e6]
      rw [hw]
      simp only []
      refine ⟨by split_ifs <;> omega, by split_ifs <;> omega, by split_ifs <;> omega, ?_⟩
      intro k hk
      have hk1 : 128 ≤ o - ((o - 256) / 128 + 1) * 128 + k := by omega
      have hk2 : o - ((o - 256) / 128 + 1) * 128 + k < 256 := by split_ifs at hk <;> omega
      have hk3 : 128 * ((o - 256) / 128 + 1) + (o - ((o - 256) / 128 + 1) * 128 + k) = o + k := by
        omega
      unfold sim_logical
      have hn : ¬ (o - ((o - 256) / 128 + 1) * 128 + k < 128) := by omega
      simp only [if_true, hn, if_false, hk2]
      cases cmis
      · simp only [Bool.false_eq_true, if_false, hp1, if_true, hk3]
      · have hm3 : o + r ≤ 256 + 128 * 242 := by
          have := hmax
          simp only [sim_image_max, if_true] at this
          exact this
        simp only [if_true, MLXSW_ENV_PAGE_MAP, MLXSW_REG_MCIA_TH_PAGE_NUM,
          MLXSW_ENV_CMIS_PAGE_OFF, u8]
        by_cases hp3 : (o - 256) / 128 + 1 < 3
        · have e7 : ((o - 256) / 128 + 1) % 256 = (o - 256) / 128 + 1 := Nat.mod_eq_of_lt hp1
          simp only [hp3, if_true, e7, hk3]
        · have e8 : ((o - 256) / 128 + 1 + 13) % 256 = (o - 256) / 128 + 1 + 13 :=
            Nat.mod_eq_of_lt (by omega)
          have e9 : ¬ ((o - 256) / 128 + 1 + 13 < 3) := by omega
          have e10 : 3 + 13 ≤ (o - 256) / 128 + 1 + 13 ∧ (o - 256) / 128 + 1 + 13 < 256 := by
            omega
          have e11 : (o - 256) / 128 + 1 + 13 - 13 = (o - 256) / 128 + 1 := by omega
          simp only [hp3, if_false, e8, e9, e10, and_self, if_true, e11, hk3]

/-- Bytes read one by one from consecutive positions of an image form a segment
of the image. -/
theorem range_map_segment (image : List Nat) (o n : Nat) (g : Nat → Option Nat)
    (hg : ∀ k < n, g k = image[o + k]?) (h : o + n ≤ image.length) :
    (List.range n).map (fun k => (g k).getD 0) = (image.drop o).take n := by
  apply List.ext_getElem?
  intro i
  by_cases hi : i < n
  · have h1 : o + i < image.length := by omega
    simp [List.getElem?_take, hi, List.getElem?_range, hg i hi, List.getElem?_eq_getElem h1]
  · have h2 : n ≤ i := by omega
    simp [List.getElem?_take, hi, List.getElem?_eq_none, h2]

/-- `eeprom_tmp` starts with the bytes of the response. -/
theorem memcpy_from_take (resp : mcia_resp) (n : Nat) (hn : n ≤ 48)
    (hl : resp.eeprom.length = n) :
    (mlxsw_reg_mcia_eeprom_memcpy_from resp).take n = resp.eeprom := by
  unfold mlxsw_reg_mcia_eeprom_memcpy_from MLXSW_REG_MCIA_EEPROM_SIZE
  rw [List.take_take, Nat.min_eq_left hn, List.take_append_of_le_length (by omega)]
  exact List.take_of_length_le (by omega)

/-- One chunk read from the simulated module: the transaction succeeds and
delivers the next `n` bytes of the image, `1 <= n <= r`. -/
theorem sim_query_chunk (image : List Nat) (qsfp cmis : Bool) (core : mlxsw_core Unit)
    (slot_index module o r : Nat) (hr : 1 ≤ r) (hin : o + r ≤ image.length)
    (hmax : image.length ≤ sim_image_max qsfp cmis) :
    ∃ (core' : mlxsw_core Unit) (n : Nat), 1 ≤ n ∧ n ≤ r ∧
      mlxsw_env_query_module_eeprom (sim_device image qsfp cmis) core slot_index module o r
        qsfp cmis = (core', Except.ok ((image.drop o).take n, n)) := by
  obtain ⟨w1, w2, w3, w4⟩ := window_sim o r qsfp cmis hr (by omega)
  generalize hw : mlxsw_env_query_module_eeprom_window o r qsfp cmis = w at w1 w2 w3 w4
  have hbytes : ∀ k < w.size, sim_byte image qsfp cmis
      (mlxsw_reg_mcia_pack slot_index module 0 w.page w.offset w.size w.i2c_addr) k =
        image[o + k]? := by
    intro k hk
    unfold sim_byte mlxsw_reg_mcia_pack
    simp only [w4 k hk, Option.some_bind]
  have hsome : ∀ k < w.size, (sim_byte image qsfp cmis
      (mlxsw_reg_mcia_pack slot_index module 0 w.page w.offset w.size w.i2c_addr) k).isSome =
        true := by
    intro k hk
    rw [hbytes k hk, List.getElem?_eq_getElem (by omega)]
    rfl
  have hdev : (sim_device image qsfp cmis).mcia core.state
      (mlxsw_reg_mcia_pack slot_index module 0 w.page w.offset w.size w.i2c_addr) =
        (core.state, 0, { status := 0, eeprom := (image.drop o).take w.size }) := by
    have hc : (mlxsw_reg_mcia_pack slot_index module 0 w.page w.offset w.size w.i2c_addr).size ≤
        MLXSW_REG_MCIA_EEPROM_SIZE ∧
        ∀ k < (mlxsw_reg_mcia_pack slot_index module 0 w.page w.offset w.size w.i2c_addr).size,
          (sim_byte image qsfp cmis
            (mlxsw_reg_mcia_pack slot_index module 0 w.page w.offset w.size w.i2c_addr)
              k).isSome = true := ⟨w3, hsome⟩
    unfold sim_device
    simp only []
    rw [if_pos hc]
    have hseg := range_map_segment image o w.size
      (sim_byte image qsfp cmis
        (mlxsw_reg_mcia_pack slot_index module 0 w.page w.offset w.size w.i2c_addr))
      hbytes (by omega)
    have hsz : (mlxsw_reg_mcia_pack slot_index module 0 w.page w.offset w.size w.i2c_addr).size =
        w.size := rfl
    rw [hsz, hseg]
  refine ⟨{ state := core.state, log := core.log ++
      [reg_xfer.mcia (mlxsw_reg_mcia_pack slot_index module 0 w.page w.offset w.size w.i2c_addr) 0
        { status := 0, eeprom := (image.drop o).take w.size }] }, w.size, w1, w2, ?_⟩
  unfold mlxsw_env_query_module_eeprom mlxsw_reg_query_mcia
  simp only [hw, hdev, ne_eq, not_true_eq_false, if_false]
  rw [memcpy_from_take _ w.size w3 (by simp; omega)]

/-- Storing the next chunk of a segment after the `i` bytes already stored. -/
theorem memcpy_at_segment (seg : List Nat) (i n len : Nat) (tail : List Nat)
    (h1 : i + n ≤ len) (h2 : len ≤ seg.length) :
    memcpy_at (seg.take i ++ (List.replicate (len - i) 0 ++ tail)) i ((seg.drop i).take n) =
      seg.take (i + n) ++ (List.replicate (len - (i + n)) 0 ++ tail) := by
  have hA : (seg.take i).length = i := by
    rw [List.length_take]; omega
  have hC : ((seg.drop i).take n).length = n := by
    rw [List.length_take, List.length_drop]; omega
  unfold memcpy_at
  rw [hC, List.take_left' hA, List.take_add]
  have hd : (seg.take i ++ (List.replicate (len - i) 0 ++ tail)).drop (i + n) =
      List.replicate (len - (i + n)) 0 ++ tail := by
    rw [List.drop_append_eq_append_drop, hA]
    have e1 : (seg.take i).drop (i + n) = [] := List.drop_of_length_le (by omega)
    have e2 : i + n - i = n := by omega
    rw [e1, e2, List.nil_append, List.drop_append_of_le_length (by simp; omega),
      List.drop_replicate]
    congr 2
    omega
  rw [hd]

/-- The loop of `mlxsw_env_get_module_eeprom` on the simulated module, started
with `i` bytes of the segment stored: with fuel for the bytes left it ends with
the whole segment stored and returns 0. -/
theorem sim_loop (image : List Nat) (qsfp cmis : Bool) (slot_index module ee_offset ee_len : Nat)
    (tail : List Nat) (hin : ee_offset + ee_len ≤ image.length)
    (hmax : image.length ≤ sim_image_max qsfp cmis) :
    ∀ (fuel : Nat) (core : mlxsw_core Unit) (i : Nat), i ≤ ee_len → ee_len - i ≤ fuel →
      ∃ core' : mlxsw_core Unit,
        mlxsw_env_get_module_eeprom_loop (sim_device image qsfp cmis) slot_index module ee_len
          qsfp cmis fuel core i (ee_offset + i)
          ((image.drop ee_offset).take i ++ (List.replicate (ee_len - i) 0 ++ tail)) =
        some (core', (image.drop ee_offset).take ee_len ++ tail, 0) := by
  have hm : sim_image_max qsfp cmis ≤ 32896 := by
    unfold sim_image_max
    split_ifs <;> omega
  intro fuel
  induction fuel with
  | zero =>
    intro core i hi hf
    have hie : i = ee_len := by omega
    subst hie
    unfold mlxsw_env_get_module_eeprom_loop
    simp
  | succ fuel ih =>
    intro core i hi hf
    by_cases hlt : i < ee_len
    · obtain ⟨core1, n, hn1, hn2, hq⟩ := sim_query_chunk image qsfp cmis core slot_index module
        (ee_offset + i) (ee_len - i) (by omega) (by omega) hmax
      obtain ⟨core', hrec⟩ := ih core1 (i + n) (by omega) (by omega)
      refine ⟨core', ?_⟩
      unfold mlxsw_env_get_module_eeprom_loop
      simp only [hlt, if_true, hq]
      have e1 : u32 (i + n) = i + n := Nat.mod_eq_of_lt (by omega)
      have e2 : u32 (ee_offset + i + n) = ee_offset + (i + n) := by
        unfold u32
        omega
      have e3 : (image.drop (ee_offset + i)).take n = ((image.drop ee_offset).drop i).take n := by
        rw [List.drop_drop]
      rw [e1, e2, e3, memcpy_at_segment (image.drop ee_offset) i n ee_len tail (by omega)
        (by rw [List.length_drop]; omega)]
      exact hrec
    · have hie : i = ee_len := by omega
      subst hie
      unfold mlxsw_env_get_module_eeprom_loop
      simp

/-- The identifier read on the simulated module delivers the first byte of the
image. -/
theorem sim_validate (image : List Nat) (qsfp cmis : Bool) (core : mlxsw_core Unit)
    (slot_index id : Nat) (h : 1 ≤ image.length) :
    ∃ core' : mlxsw_core Unit,
      mlxsw_env_validate_cable_ident (sim_device image qsfp cmis) core slot_index id =
        (core', mlxsw_env_validate_cable_ident_switch (u8 (image.getD 0 0))) := by
  cases image with
  | nil => simp at h
  | cons a t =>
    have hb : ∀ k < 1, sim_byte (a :: t) qsfp cmis
        (mlxsw_reg_mcia_pack slot_index id 0 MLXSW_REG_MCIA_PAGE0_LO_OFF 0 1
          MLXSW_REG_MCIA_I2C_ADDR_LOW) k = (a :: t)[0 + k]? := by
      intro k hk
      have hk0 : k = 0 := by omega
      subst hk0
      simp [sim_byte, sim_logical, mlxsw_reg_mcia_pack]
    have hdev : (sim_device (a :: t) qsfp cmis).mcia core.state
        (mlxsw_reg_mcia_pack slot_index id 0 MLXSW_REG_MCIA_PAGE0_LO_OFF 0 1
          MLXSW_REG_MCIA_I2C_ADDR_LOW) = (core.state, 0, { status := 0, eeprom := [a] }) := by
      have hc : (mlxsw_reg_mcia_pack slot_index id 0 MLXSW_REG_MCIA_PAGE0_LO_OFF 0 1
            MLXSW_REG_MCIA_I2C_ADDR_LOW).size ≤ MLXSW_REG_MCIA_EEPROM_SIZE ∧
          ∀ k < (mlxsw_reg_mcia_pack slot_index id 0 MLXSW_REG_MCIA_PAGE0_LO_OFF 0 1
            MLXSW_REG_MCIA_I2C_ADDR_LOW).size,
            (sim_byte (a :: t) qsfp cmis
              (mlxsw_reg_mcia_pack slot_index id 0 MLXSW_REG_MCIA_PAGE0_LO_OFF 0 1
                MLXSW_REG_MCIA_I2C_ADDR_LOW) k).isSome = true := by
        refine ⟨by simp [mlxsw_reg_mcia_pack, MLXSW_REG_MCIA_EEPROM_SIZE], ?_⟩
        intro k hk
        rw [hb k hk]
        have hk0 : k = 0 := by
          have : k < 1 := hk
          omega
        subst hk0
        simp
      unfold sim_device
      simp only []
      rw [if_pos hc]
      have hseg := range_map_segment (a :: t) 0 1
        (sim_byte (a :: t) qsfp cmis
          (mlxsw_reg_mcia_pack slot_index id 0 MLXSW_REG_MCIA_PAGE0_LO_OFF 0 1
            MLXSW_REG_MCIA_I2C_ADDR_LOW)) hb (by simp)
      have hsz : (mlxsw_reg_mcia_pack slot_index id 0 MLXSW_REG_MCIA_PAGE0_LO_OFF 0 1
          MLXSW_REG_MCIA_I2C_ADDR_LOW).size = 1 := rfl
      rw [hsz, hseg]
      rfl
    refine ⟨{ state := core.state, log := core.log ++
      [reg_xfer.mcia (mlxsw_reg_mcia_pack slot_index id 0 MLXSW_REG_MCIA_PAGE0_LO_OFF 0 1
        MLXSW_REG_MCIA_I2C_ADDR_LOW) 0 { status := 0, eeprom := [a] }] }, ?_⟩
    unfold mlxsw_env_validate_cable_ident mlxsw_reg_query_mcia
    simp only [hdev, ne_eq, not_true_eq_false, if_false]
    rfl

/-- The identifier read appends one transaction to the log. -/
theorem validate_cable_ident_log (dev : mlxsw_device σ) (core : mlxsw_core σ)
    (slot_index id : Nat) :
    ∃ x : reg_xfer, (mlxsw_env_validate_cable_ident dev core slot_index id).1.log =
      core.log ++ [x] := by
  unfold mlxsw_env_validate_cable_ident
  simp only []
  split_ifs <;> exact ⟨_, rfl⟩

/-- A failing chunk read: its transaction failed and the error is the failure
of that transaction. -/
theorem query_module_eeprom_error (dev : mlxsw_device σ) (core : mlxsw_core σ)
    (slot_index module offset size : Nat) (qsfp cmis : Bool) (e : Int)
    (h : (mlxsw_env_query_module_eeprom dev core slot_index module offset size qsfp cmis).2 =
      Except.error e) :
    ∃ x : reg_xfer,
      (mlxsw_env_query_module_eeprom dev core slot_index module offset size qsfp cmis).1.log =
        core.log ++ [x] ∧ x.failed = true ∧ e = x.errno ∧ e ≠ 0 := by
  rw [query_module_eeprom_core]
  unfold mlxsw_env_query_module_eeprom at h
  simp only [] at h
  refine ⟨_, rfl, ?_⟩
  split_ifs at h with h1 h2
  · simp only [Except.error.injEq] at h
    have h1' : (dev.mcia core.state (mlxsw_reg_mcia_pack slot_index module 0
        (mlxsw_env_query_module_eeprom_window offset size qsfp cmis).page
        (mlxsw_env_query_module_eeprom_window offset size qsfp cmis).offset
        (mlxsw_env_query_module_eeprom_window offset size qsfp cmis).size
        (mlxsw_env_query_module_eeprom_window offset size qsfp cmis).i2c_addr)).2.1 ≠ 0 := h1
    refine ⟨?_, ?_, ?_⟩
    · simp [reg_xfer.failed, h1']
    · simp only [reg_xfer.errno, if_pos h1']
      exact h.symm
    · rw [← h]
      exact h1
  · simp only [Except.error.injEq] at h
    have h1' : (dev.mcia core.state (mlxsw_reg_mcia_pack slot_index module 0
        (mlxsw_env_query_module_eeprom_window offset size qsfp cmis).page
        (mlxsw_env_query_module_eeprom_window offset size qsfp cmis).offset
        (mlxsw_env_query_module_eeprom_window offset size qsfp cmis).size
        (mlxsw_env_query_module_eeprom_window offset size qsfp cmis).i2c_addr)).2.1 = 0 :=
      not_not.mp h1
    have h2' : (dev.mcia core.state (mlxsw_reg_mcia_pack slot_index module 0
        (mlxsw_env_query_module_eeprom_window offset size qsfp cmis).page
        (mlxsw_env_query_module_eeprom_window offset size qsfp cmis).offset
        (mlxsw_env_query_module_eeprom_window offset size qsfp cmis).size
        (mlxsw_env_query_module_eeprom_window offset size qsfp cmis).i2c_addr)).2.2.status ≠ 0 :=
      h2
    refine ⟨?_, ?_, ?_⟩
    · simp [reg_xfer.failed, h2']
    · simp only [reg_xfer.errno, h1', ne_eq, not_true_eq_false, if_false]
      exact h.symm
    · rw [← h]
      decide

/-- A successful chunk read: its transaction did not fail. -/
theorem query_module_eeprom_ok (dev : mlxsw_device σ) (core : mlxsw_core σ)
    (slot_index module offset size : Nat) (qsfp cmis : Bool) (r : List Nat × Nat)
    (h : (mlxsw_env_query_module_eeprom dev core slot_index module offset size qsfp cmis).2 =
      Except.ok r) :
    ∃ x : reg_xfer,
      (mlxsw_env_query_module_eeprom dev core slot_index module offset size qsfp cmis).1.log =
        core.log ++ [x] ∧ x.failed = false := by
  rw [query_module_eeprom_core]
  unfold mlxsw_env_query_module_eeprom at h
  simp only [] at h
  refine ⟨_, rfl, ?_⟩
  split_ifs at h with h1 h2
  have h1' : (dev.mcia core.state (mlxsw_reg_mcia_pack slot_index module 0
      (mlxsw_env_query_module_eeprom_window offset size qsfp cmis).page
      (mlxsw_env_query_module_eeprom_window offset size qsfp cmis).offset
      (mlxsw_env_query_module_eeprom_window offset size qsfp cmis).size
      (mlxsw_env_query_module_eeprom_window offset size qsfp cmis).i2c_addr)).2.1 = 0 :=
    not_not.mp h1
  have h2' : (dev.mcia core.state (mlxsw_reg_mcia_pack slot_index module 0
      (mlxsw_env_query_module_eeprom_window offset size qsfp cmis).page
      (mlxsw_env_query_module_eeprom_window offset size qsfp cmis).offset
      (mlxsw_env_query_module_eeprom_window offset size qsfp cmis).size
      (mlxsw_env_query_module_eeprom_window offset size qsfp cmis).i2c_addr)).2.2.status = 0 :=
    not_not.mp h2
  simp [reg_xfer.failed, h1', h2']

/-- The loop of `mlxsw_env_get_module_eeprom` stops at the first failed
transaction: a failed transaction is the last one the loop issued, and the loop
returns its failure. -/
theorem get_module_eeprom_loop_abort (dev : mlxsw_device σ)
    (slot_index module ee_len : Nat) (qsfp cmis : Bool) :
    ∀ (fuel : Nat) (core : mlxsw_core σ) (i offset : Nat) (data : List Nat)
      (core' : mlxsw_core σ) (data' : List Nat) (ret : Int),
      mlxsw_env_get_module_eeprom_loop dev slot_index module ee_len qsfp cmis fuel core i offset
        data = some (core', data', ret) →
      ∃ new : List reg_xfer, core'.log = core.log ++ new ∧
        ∀ (k : Nat) (x : reg_xfer), new[k]? = some x → x.failed = true →
          k + 1 = new.length ∧ ret = x.errno ∧ ret ≠ 0 := by
  intro fuel
  induction fuel with
  | zero =>
    intro core i offset data core' data' ret h
    unfold mlxsw_env_get_module_eeprom_loop at h
    split_ifs at h
    simp only [Option.some.injEq, Prod.mk.injEq] at h
    refine ⟨[], by rw [← h.1]; simp, ?_⟩
    intro k x hx
    simp at hx
  | succ fuel ih =>
    intro core i offset data core' data' ret h
    unfold mlxsw_env_get_module_eeprom_loop at h
    split_ifs at h with hlt
    · simp only [] at h
      split at h
      · rename_i err herr
        simp only [Option.some.injEq, Prod.mk.injEq] at h
        obtain ⟨x, hlog, hf, he, hne⟩ := query_module_eeprom_error dev core slot_index module
          offset (ee_len - i) qsfp cmis err herr
        refine ⟨[x], by rw [← h.1]; exact hlog, ?_⟩
        intro k y hy hfy
        cases k with
        | zero =>
          simp only [List.getElem?_cons_zero, Option.some.injEq] at hy
          subst hy
          refine ⟨rfl, ?_, ?_⟩
          · rw [← h.2.2]; exact he
          · rw [← h.2.2]; exact hne
        | succ k => simp at hy
      · rename_i chunk read_size hok
        obtain ⟨x, hlog, hf⟩ := query_module_eeprom_ok dev core slot_index module
          offset (ee_len - i) qsfp cmis (chunk, read_size) hok
        obtain ⟨new, hnew, hall⟩ := ih _ _ _ _ core' data' ret h
        refine ⟨x :: new, by rw [hnew, hlog]; simp, ?_⟩
        intro k y hy hfy
        cases k with
        | zero =>
          simp only [List.getElem?_cons_zero, Option.some.injEq] at hy
          subst hy
          rw [hf] at hfy
          exact absurd hfy (by decide)
        | succ k =>
          simp only [List.getElem?_cons_succ] at hy
          obtain ⟨a1, a2, a3⟩ := hall k y hy hfy
          refine ⟨by simp [a1], a2, a3⟩
    · simp only [Option.some.injEq, Prod.mk.injEq] at h
      refine ⟨[], by rw [← h.1]; simp, ?_⟩
      intro k x hx
      simp at hx

/-! ## The claims -/

/-- C1: page round trip. For a simulated module of any family (legacy, paged,
paged CMIS: the family its identifier byte names) whose EEPROM holds a reference
image no longer than the family can address, every start offset and every
length `len >= 1` inside the image, `mlxsw_env_get_module_eeprom` with fuel for
`len` iterations returns 0 and has filled the first `len` bytes of the buffer
with `image[offset .. offset + len)`; what lies behind them is untouched. -/
theorem C1_page_round_trip (image : List Nat) (qsfp cmis : Bool) (core : mlxsw_core Unit)
    (slot_index module ee_offset ee_len : Nat) (data : List Nat) (fuel : Nat)
    (hfam : mlxsw_env_validate_cable_ident_switch (u8 (image.getD 0 0)) = Except.ok (qsfp, cmis))
    (hmax : image.length ≤ sim_image_max qsfp cmis)
    (hlen : 1 ≤ ee_len) (hin : ee_offset + ee_len ≤ image.length) (hfuel : ee_len ≤ fuel) :
    ∃ core' : mlxsw_core Unit,
      mlxsw_env_get_module_eeprom (sim_device image qsfp cmis) core slot_index module ee_offset
        ee_len data fuel =
      some (core', (image.drop ee_offset).take ee_len ++ data.drop ee_len, 0) := by
  obtain ⟨core1, hv⟩ := sim_validate image qsfp cmis core slot_index module (by omega)
  obtain ⟨core', hl⟩ := sim_loop image qsfp cmis slot_index module ee_offset ee_len
    (data.drop ee_len) hin hmax fuel core1 0 (by omega) (by omega)
  refine ⟨core', ?_⟩
  unfold mlxsw_env_get_module_eeprom
  have hne : ¬ (ee_len = 0) := by omega
  simp only [hne, if_false, hv, hfam]
  simpa using hl

/-- C1 (witness): 20 bytes from offset 250 of a 300-byte image of a paged
module, across the boundary between the lower page and page 1. -/
theorem C1_page_round_trip_witness :
    (mlxsw_env_validate_cable_ident_switch (u8 (qsfp_image.getD 0 0)) = Except.ok (true, false) ∧
      qsfp_image.length ≤ sim_image_max true false ∧ 1 ≤ 20 ∧ 250 + 20 ≤ qsfp_image.length ∧
      20 ≤ 20) ∧
    ∃ core' : mlxsw_core Unit,
      mlxsw_env_get_module_eeprom (sim_device qsfp_image true false) core_init 0 0 250 20
        (List.replicate 20 255) 20 =
      some (core', (qsfp_image.drop 250).take 20 ++ (List.replicate 20 255).drop 20, 0) :=
  ⟨⟨by rfl, by simp [qsfp_image, sim_image_max], by decide, by simp [qsfp_image], by decide⟩,
    C1_page_round_trip qsfp_image true false core_init 0 0 250 20 (List.replicate 20 255) 20
      (by rfl) (by simp [qsfp_image, sim_image_max]) (by decide) (by simp [qsfp_image])
      (by decide)⟩

/-- C2 (the claim as stated fails): for a paged module and the 16-bit offset
32896 the page number 256 does not fit the `u8`, the in-page offset stays 32896
and the size clipped "at the page end" wraps to 32896, far above 48. -/
theorem C2_chunk_size_counterexample :
    (mlxsw_env_query_module_eeprom null_device core_init 0 0 32896 1 true false).2 =
        Except.ok (List.replicate 48 0, 32896) ∧
    (mlxsw_env_query_module_eeprom null_device core_init 0 0 32896 1 true false).1.log =
        [reg_xfer.mcia (mlxsw_reg_mcia_pack 0 0 0 0 32896 32896 MLXSW_REG_MCIA_I2C_ADDR_LOW) 0
          { status := 0, eeprom := [] }] ∧
    ¬ (32896 ≤ MLXSW_REG_MCIA_EEPROM_SIZE) := by
  refine ⟨by rfl, by rfl, by decide⟩

/-- C2 (amended): for a legacy module and every offset, and for a paged module
(CMIS or not) and every offset below 32896, whatever the requested size, the
size `mlxsw_env_query_module_eeprom` places in the transaction and reports as
the read size is at most 48. -/
theorem C2_chunk_size_bound (dev : mlxsw_device σ) (core : mlxsw_core σ)
    (slot_index module offset size : Nat) (qsfp cmis : Bool)
    (h : qsfp = false ∨ offset < 32896) :
    ∃ (pl : mlxsw_reg_mcia) (err : Int) (resp : mcia_resp),
      (mlxsw_env_query_module_eeprom dev core slot_index module offset size qsfp cmis).1.log =
        core.log ++ [reg_xfer.mcia pl err resp] ∧
      pl.size ≤ MLXSW_REG_MCIA_EEPROM_SIZE ∧
      ∀ (d : List Nat) (n : Nat),
        (mlxsw_env_query_module_eeprom dev core slot_index module offset size qsfp cmis).2 =
          Except.ok (d, n) → n = pl.size := by
  obtain ⟨pl, err, resp, hlog, -, -, hsize, -, hread⟩ :=
    query_module_eeprom_issued dev core slot_index module offset size qsfp cmis
  refine ⟨pl, err, resp, hlog, ?_, hread⟩
  rw [hsize]
  apply window_size_le
  rcases h with h | h
  · exact Or.inl h
  · right
    unfold u16
    omega

/-- C2 (witness): a paged module, offset 640, requested size 48. -/
theorem C2_chunk_size_bound_witness :
    (true = false ∨ 640 < 32896) ∧
    ∃ (pl : mlxsw_reg_mcia) (err : Int) (resp : mcia_resp),
      (mlxsw_env_query_module_eeprom null_device core_init 0 0 640 48 true false).1.log =
        core_init.log ++ [reg_xfer.mcia pl err resp] ∧
      pl.size ≤ MLXSW_REG_MCIA_EEPROM_SIZE ∧
      ∀ (d : List Nat) (n : Nat),
        (mlxsw_env_query_module_eeprom null_device core_init 0 0 640 48 true false).2 =
          Except.ok (d, n) → n = pl.size :=
  ⟨Or.inr (by decide),
    C2_chunk_size_bound null_device core_init 0 0 640 48 true false (Or.inr (by decide))⟩

/-- C3: for every logical offset below 256 and every requested size, the
transaction of `mlxsw_env_query_module_eeprom` stays inside the lower page:
primary address space, page 0, offset unchanged, and offset + size <= 256; the
size is also the read size reported. -/
theorem C3_lower_page_boundary (dev : mlxsw_device σ) (core : mlxsw_core σ)
    (slot_index module offset size : Nat) (qsfp cmis : Bool)
    (h : offset < MLXSW_REG_MCIA_EEPROM_PAGE_LENGTH) :
    ∃ (pl : mlxsw_reg_mcia) (err : Int) (resp : mcia_resp),
      (mlxsw_env_query_module_eeprom dev core slot_index module offset size qsfp cmis).1.log =
        core.log ++ [reg_xfer.mcia pl err resp] ∧
      pl.i2c_device_address = MLXSW_REG_MCIA_I2C_ADDR_LOW ∧
      pl.page_number = 0 ∧
      pl.device_address = offset ∧
      offset + pl.size ≤ MLXSW_REG_MCIA_EEPROM_PAGE_LENGTH ∧
      ∀ (d : List Nat) (n : Nat),
        (mlxsw_env_query_module_eeprom dev core slot_index module offset size qsfp cmis).2 =
          Except.ok (d, n) → n = pl.size := by
  obtain ⟨pl, err, resp, hlog, hpage, hoff, hsize, hi2c, hread⟩ :=
    query_module_eeprom_issued dev core slot_index module offset size qsfp cmis
  obtain ⟨w1, w2, w3, w4⟩ := window_lower offset size qsfp cmis h
  refine ⟨pl, err, resp, hlog, ?_, ?_, ?_, ?_, hread⟩
  · rw [hi2c, w3]
  · rw [hpage, w1]
  · rw [hoff, w2]
  · rw [hsize]
    exact w4

/-- C3 (witness): offset 240 and requested size 48 on a paged module. -/
theorem C3_lower_page_boundary_witness :
    240 < MLXSW_REG_MCIA_EEPROM_PAGE_LENGTH ∧
    ∃ (pl : mlxsw_reg_mcia) (err : Int) (resp : mcia_resp),
      (mlxsw_env_query_module_eeprom null_device core_init 0 0 240 48 true false).1.log =
        core_init.log ++ [reg_xfer.mcia pl err resp] ∧
      pl.i2c_device_address = MLXSW_REG_MCIA_I2C_ADDR_LOW ∧
      pl.page_number = 0 ∧
      pl.device_address = 240 ∧
      240 + pl.size ≤ MLXSW_REG_MCIA_EEPROM_PAGE_LENGTH ∧
      ∀ (d : List Nat) (n : Nat),
        (mlxsw_env_query_module_eeprom null_device core_init 0 0 240 48 true false).2 =
          Except.ok (d, n) → n = pl.size :=
  ⟨by decide, C3_lower_page_boundary null_device core_init 0 0 240 48 true false (by decide)⟩

/-- C4 (the claim as stated fails): for a paged module and the first upper-page
offset 256 the transaction carries page 1 and in-page offset 128, not page
256 div 128 = 2 and in-page offset 0. -/
theorem C4_paged_address_counterexample :
    ∃ (pl : mlxsw_reg_mcia) (err : Int) (resp : mcia_resp),
      (mlxsw_env_query_module_eeprom null_device core_init 0 0 256 1 true false).1.log =
        [reg_xfer.mcia pl err resp] ∧
      pl.page_number = 1 ∧ pl.device_address = 128 ∧
      pl.page_number ≠ 256 / MLXSW_REG_MCIA_EEPROM_UP_PAGE_LENGTH ∧
      pl.device_address ≠
        256 - (256 / MLXSW_REG_MCIA_EEPROM_UP_PAGE_LENGTH) * MLXSW_REG_MCIA_EEPROM_UP_PAGE_LENGTH :=
  ⟨mlxsw_reg_mcia_pack 0 0 0 1 128 1 MLXSW_REG_MCIA_I2C_ADDR_LOW, 0, { status := 0, eeprom := [] },
    by rfl, by rfl, by rfl, by decide, by decide⟩

/-- C4 (amended): for a paged module and every logical offset in the upper-page
region whose page number fits the 8-bit page (256 <= offset < 32896), the page
before the CMIS remap is p = (offset - 256) div 128 + 1 = offset div 128 - 1,
the page sent is p (remapped through `MLXSW_ENV_PAGE_MAP` for a CMIS module),
and the in-page offset is offset - p * 128. -/
theorem C4_paged_address (dev : mlxsw_device σ) (core : mlxsw_core σ)
    (slot_index module offset size : Nat) (cmis : Bool)
    (h1 : MLXSW_REG_MCIA_EEPROM_PAGE_LENGTH ≤ offset) (h2 : offset < 32896) :
    ∃ (pl : mlxsw_reg_mcia) (err : Int) (resp : mcia_resp),
      (mlxsw_env_query_module_eeprom dev core slot_index module offset size true cmis).1.log =
        core.log ++ [reg_xfer.mcia pl err resp] ∧
      mlxsw_env_query_module_eeprom_page offset true =
        (offset - MLXSW_REG_MCIA_EEPROM_PAGE_LENGTH) / MLXSW_REG_MCIA_EEPROM_UP_PAGE_LENGTH + 1 ∧
      mlxsw_env_query_module_eeprom_page offset true =
        offset / MLXSW_REG_MCIA_EEPROM_UP_PAGE_LENGTH - 1 ∧
      pl.page_number =
        (if cmis = true then u8 (MLXSW_ENV_PAGE_MAP (mlxsw_env_query_module_eeprom_page offset true))
          else mlxsw_env_query_module_eeprom_page offset true) ∧
      pl.device_address =
        offset - mlxsw_env_query_module_eeprom_page offset true *
          MLXSW_REG_MCIA_EEPROM_UP_PAGE_LENGTH ∧
      pl.i2c_device_address = MLXSW_REG_MCIA_I2C_ADDR_LOW := by
  obtain ⟨pl, err, resp, hlog, hpage, hoff, -, hi2c, -⟩ :=
    query_module_eeprom_issued dev core slot_index module offset size true cmis
  have h1' : 256 ≤ offset := h1
  obtain ⟨-, w2, w3, -, -, -⟩ := window_paged offset size cmis h1' h2
  have hp : mlxsw_env_query_module_eeprom_page offset true = (offset - 256) / 128 + 1 := by
    unfold mlxsw_env_query_module_eeprom_page u16 u8 MLXSW_REG_MCIA_PAGE_GET
    simp only [MLXSW_REG_MCIA_EEPROM_PAGE_LENGTH, MLXSW_REG_MCIA_EEPROM_UP_PAGE_LENGTH]
    have e1 : offset % 65536 = offset := Nat.mod_eq_of_lt (by omega)
    rw [e1, if_pos ⟨h1', trivial⟩]
    exact Nat.mod_eq_of_lt (by omega)
  refine ⟨pl, err, resp, hlog, ?_, ?_, ?_, ?_, ?_⟩
  · exact hp
  · rw [hp]
    simp only [MLXSW_REG_MCIA_EEPROM_UP_PAGE_LENGTH]
    omega
  · rw [hpage, window_page]
  · rw [hoff, w2, hp]
    rfl
  · rw [hi2c, w3]

/-- C4 (witness): offset 600 of a paged non-CMIS module is byte 216 of page 3. -/
theorem C4_paged_address_witness :
    (MLXSW_REG_MCIA_EEPROM_PAGE_LENGTH ≤ 600 ∧ 600 < 32896) ∧
    ∃ (pl : mlxsw_reg_mcia) (err : Int) (resp : mcia_resp),
      (mlxsw_env_query_module_eeprom null_device core_init 0 0 600 40 true false).1.log =
        core_init.log ++ [reg_xfer.mcia pl err resp] ∧
      mlxsw_env_query_module_eeprom_page 600 true =
        (600 - MLXSW_REG_MCIA_EEPROM_PAGE_LENGTH) / MLXSW_REG_MCIA_EEPROM_UP_PAGE_LENGTH + 1 ∧
      mlxsw_env_query_module_eeprom_page 600 true =
        600 / MLXSW_REG_MCIA_EEPROM_UP_PAGE_LENGTH - 1 ∧
      pl.page_number =
        (if false = true then u8 (MLXSW_ENV_PAGE_MAP (mlxsw_env_query_module_eeprom_page 600 true))
          else mlxsw_env_query_module_eeprom_page 600 true) ∧
      pl.device_address =
        600 - mlxsw_env_query_module_eeprom_page 600 true *
          MLXSW_REG_MCIA_EEPROM_UP_PAGE_LENGTH ∧
      pl.i2c_device_address = MLXSW_REG_MCIA_I2C_ADDR_LOW :=
  ⟨⟨by decide, by decide⟩,
    C4_paged_address null_device core_init 0 0 600 40 false (by decide) (by decide)⟩

/-- C5 (the claim as stated fails): for a CMIS module and offset 31232 the
reader computes page 243, which is not below the threshold 3, and the page sent
is 0, not 243 + 0x0d = 256: the page is a `u8`. -/
theorem C5_cmis_remap_counterexample :
    ∃ (pl : mlxsw_reg_mcia) (err : Int) (resp : mcia_resp),
      (mlxsw_env_query_module_eeprom null_device core_init 0 0 31232 1 true true).1.log =
        [reg_xfer.mcia pl err resp] ∧
      mlxsw_env_query_module_eeprom_page 31232 true = 243 ∧
      MLXSW_REG_MCIA_TH_PAGE_NUM ≤ 243 ∧
      pl.page_number = 0 ∧
      pl.page_number ≠ 243 + MLXSW_ENV_CMIS_PAGE_OFF :=
  ⟨mlxsw_reg_mcia_pack 0 0 0 0 128 1 MLXSW_REG_MCIA_I2C_ADDR_LOW, 0, { status := 0, eeprom := [] },
    by rfl, by rfl, by decide, by rfl, by decide⟩

/-- C5 (amended): with p the page number computed by the reader, the page sent
for a CMIS module is p when p is below the threshold `MLXSW_REG_MCIA_TH_PAGE_NUM`,
p + 0x0d when p is at or above it and p + 0x0d fits the 8-bit page number
(p <= 242), and p + 0x0d - 256 beyond; for a non-CMIS module the page is sent
unchanged. -/
theorem C5_cmis_remap (dev : mlxsw_device σ) (core : mlxsw_core σ)
    (slot_index module offset size : Nat) (qsfp cmis : Bool) :
    ∃ (pl : mlxsw_reg_mcia) (err : Int) (resp : mcia_resp),
      (mlxsw_env_query_module_eeprom dev core slot_index module offset size qsfp cmis).1.log =
        core.log ++ [reg_xfer.mcia pl err resp] ∧
      pl.page_number =
        (if cmis = true then
          (if mlxsw_env_query_module_eeprom_page offset qsfp < MLXSW_REG_MCIA_TH_PAGE_NUM then
            mlxsw_env_query_module_eeprom_page offset qsfp
          else if mlxsw_env_query_module_eeprom_page offset qsfp ≤ 242 then
            mlxsw_env_query_module_eeprom_page offset qsfp + MLXSW_ENV_CMIS_PAGE_OFF
          else mlxsw_env_query_module_eeprom_page offset qsfp + MLXSW_ENV_CMIS_PAGE_OFF - 256)
        else mlxsw_env_query_module_eeprom_page offset qsfp) := by
  obtain ⟨pl, err, resp, hlog, hpage, -, -, -, -⟩ :=
    query_module_eeprom_issued dev core slot_index module offset size qsfp cmis
  refine ⟨pl, err, resp, hlog, ?_⟩
  rw [hpage, window_page]
  have hlt := query_module_eeprom_page_lt offset qsfp
  generalize mlxsw_env_query_module_eeprom_page offset qsfp = p at hlt ⊢
  unfold MLXSW_ENV_PAGE_MAP u8
  simp only [MLXSW_REG_MCIA_TH_PAGE_NUM, MLXSW_ENV_CMIS_PAGE_OFF]
  split_ifs <;> omega

/-- C6 (the claim as stated fails): for a paged module and the 16-bit offset
65535 the in-page offset of the transaction is 33023, outside [128, 256), and
in-page offset + size = 65792 is far beyond 256. -/
theorem C6_end_of_page_counterexample :
    ∃ (pl : mlxsw_reg_mcia) (err : Int) (resp : mcia_resp),
      (mlxsw_env_query_module_eeprom null_device core_init 0 0 65535 1 true false).1.log =
        [reg_xfer.mcia pl err resp] ∧
      pl.device_address = 33023 ∧ pl.size = 32769 ∧
      ¬ (pl.device_address < MLXSW_REG_MCIA_EEPROM_PAGE_LENGTH) ∧
      ¬ (pl.device_address + pl.size ≤ MLXSW_REG_MCIA_EEPROM_PAGE_LENGTH) :=
  ⟨mlxsw_reg_mcia_pack 0 0 0 254 33023 32769 MLXSW_REG_MCIA_I2C_ADDR_LOW, 0,
    { status := 0, eeprom := [] }, by rfl, by rfl, by rfl, by decide, by decide⟩

/-- C6 (amended): for a paged module and every logical offset in the upper-page
region whose page number fits the 8-bit page (256 <= offset < 32896), the
transaction never reads past the end of the addressed page: the in-page offset
lies in [128, 256) and in-page offset + size <= 256; the size is also the read
size reported. -/
theorem C6_end_of_page (dev : mlxsw_device σ) (core : mlxsw_core σ)
    (slot_index module offset size : Nat) (cmis : Bool)
    (h1 : MLXSW_REG_MCIA_EEPROM_PAGE_LENGTH ≤ offset) (h2 : offset < 32896) :
    ∃ (pl : mlxsw_reg_mcia) (err : Int) (resp : mcia_resp),
      (mlxsw_env_query_module_eeprom dev core slot_index module offset size true cmis).1.log =
        core.log ++ [reg_xfer.mcia pl err resp] ∧
      MLXSW_REG_MCIA_EEPROM_UP_PAGE_LENGTH ≤ pl.device_address ∧
      pl.device_address < MLXSW_REG_MCIA_EEPROM_PAGE_LENGTH ∧
      pl.device_address + pl.size ≤ MLXSW_REG_MCIA_EEPROM_PAGE_LENGTH ∧
      ∀ (d : List Nat) (n : Nat),
        (mlxsw_env_query_module_eeprom dev core slot_index module offset size true cmis).2 =
          Except.ok (d, n) → n = pl.size := by
  obtain ⟨pl, err, resp, hlog, -, hoff, hsize, -, hread⟩ :=
    query_module_eeprom_issued dev core slot_index module offset size true cmis
  obtain ⟨-, -, -, w4, w5, w6⟩ := window_paged offset size cmis h1 h2
  refine ⟨pl, err, resp, hlog, ?_, ?_, ?_, hread⟩
  · rw [hoff]
    exact w4
  · rw [hoff]
    exact w5
  · rw [hoff, hsize]
    exact w6

/-- C6 (witness): offset 600 and requested size 48 on a paged module: byte 216
of page 3, clipped to 40 bytes. -/
theorem C6_end_of_page_witness :
    (MLXSW_REG_MCIA_EEPROM_PAGE_LENGTH ≤ 600 ∧ 600 < 32896) ∧
    ∃ (pl : mlxsw_reg_mcia) (err : Int) (resp : mcia_resp),
      (mlxsw_env_query_module_eeprom null_device core_init 0 0 600 48 true false).1.log =
        core_init.log ++ [reg_xfer.mcia pl err resp] ∧
      MLXSW_REG_MCIA_EEPROM_UP_PAGE_LENGTH ≤ pl.device_address ∧
      pl.device_address < MLXSW_REG_MCIA_EEPROM_PAGE_LENGTH ∧
      pl.device_address + pl.size ≤ MLXSW_REG_MCIA_EEPROM_PAGE_LENGTH ∧
      ∀ (d : List Nat) (n : Nat),
        (mlxsw_env_query_module_eeprom null_device core_init 0 0 600 48 true false).2 =
          Except.ok (d, n) → n = pl.size :=
  ⟨⟨by decide, by decide⟩,
    C6_end_of_page null_device core_init 0 0 600 48 false (by decide) (by decide)⟩

/-- C7: `mlxsw_env_get_module_eeprom` called with `ee->len == 0` returns
`-EINVAL` whatever the module, the offset and the fuel; the core is unchanged (no
transaction was issued, the module was not classified) and the buffer is
untouched. -/
theorem C7_zero_length_rejected (dev : mlxsw_device σ) (core : mlxsw_core σ)
    (slot_index module ee_offset : Nat) (data : List Nat) (fuel : Nat) :
    mlxsw_env_get_module_eeprom dev core slot_index module ee_offset 0 data fuel =
      some (core, data, -EINVAL_errno) := by
  unfold mlxsw_env_get_module_eeprom
  rfl

/-- C8: bulk abort. (1) In a run of `mlxsw_env_get_module_eeprom` that returns,
every chunk transaction that failed (transport error, or a non-zero response
status) is the last transaction issued, and the run returns the failure of that
transaction (the transport error, `-EIO` for a status), which is not 0: the
operation does not report success on a partly filled buffer. In the log the
identifier read has index 0 and the chunk transactions follow. (2) And the run
does return: at whatever point of the loop a chunk read fails, the loop returns
that failure in this very iteration, having issued that transaction only and
stored nothing more. -/
theorem C8_bulk_abort (dev : mlxsw_device σ) (core : mlxsw_core σ)
    (slot_index module ee_offset ee_len : Nat) (data : List Nat) (fuel : Nat) :
    (∀ (core' : mlxsw_core σ) (data' : List Nat) (ret : Int),
      mlxsw_env_get_module_eeprom dev core slot_index module ee_offset ee_len data fuel =
        some (core', data', ret) →
      ∃ new : List reg_xfer, core'.log = core.log ++ new ∧
        ∀ (k : Nat) (x : reg_xfer), 1 ≤ k → new[k]? = some x → x.failed = true →
          k + 1 = new.length ∧ ret = x.errno ∧ ret ≠ 0) ∧
    (∀ (c : mlxsw_core σ) (i offset : Nat) (buf : List Nat) (qsfp cmis : Bool) (e : Int),
      i < ee_len →
      (mlxsw_env_query_module_eeprom dev c slot_index module offset (ee_len - i) qsfp cmis).2 =
        Except.error e →
      mlxsw_env_get_module_eeprom_loop dev slot_index module ee_len qsfp cmis (fuel + 1) c i
        offset buf =
      some ((mlxsw_env_query_module_eeprom dev c slot_index module offset (ee_len - i) qsfp
        cmis).1, buf, e) ∧
      ∃ x : reg_xfer,
        (mlxsw_env_query_module_eeprom dev c slot_index module offset (ee_len - i) qsfp
          cmis).1.log = c.log ++ [x] ∧ x.failed = true ∧ e = x.errno ∧ e ≠ 0) := by
  constructor
  · intro core' data' ret h
    unfold mlxsw_env_get_module_eeprom at h
    split_ifs at h with h0
    · simp only [Option.some.injEq, Prod.mk.injEq] at h
      refine ⟨[], by rw [← h.1]; simp, ?_⟩
      intro k x _ hx
      simp at hx
    · simp only [] at h
      obtain ⟨x0, hx0⟩ := validate_cable_ident_log dev core slot_index module
      split at h
      · simp only [Option.some.injEq, Prod.mk.injEq] at h
        refine ⟨[x0], by rw [← h.1]; exact hx0, ?_⟩
        intro k x hk hx
        cases k with
        | zero => omega
        | succ k => simp at hx
      · obtain ⟨new, hnew, hall⟩ := get_module_eeprom_loop_abort dev slot_index module ee_len
          _ _ fuel _ _ _ _ core' data' ret h
        refine ⟨x0 :: new, by rw [hnew, hx0]; simp, ?_⟩
        intro k x hk hx hf
        cases k with
        | zero => omega
        | succ k =>
          simp only [List.getElem?_cons_succ] at hx
          obtain ⟨a1, a2, a3⟩ := hall k x hx hf
          exact ⟨by simp [a1], a2, a3⟩
  · intro c i offset buf qsfp cmis e hi he
    refine ⟨?_, query_module_eeprom_error dev c slot_index module offset (ee_len - i) qsfp cmis
      e he⟩
    unfold mlxsw_env_get_module_eeprom_loop
    simp only [hi, if_true, he]

/-- C8 (witness): two bytes asked of a module whose image has one: the chunk
transaction is answered with a non-zero status, it is the last transaction and
the run returns `-EIO`. -/
theorem C8_bulk_abort_witness :
    mlxsw_env_get_module_eeprom (sim_device [0x0d] true false) core_init 0 0 0 2 [9, 9] 5 =
      some ({ state := (), log := [
          reg_xfer.mcia (mlxsw_reg_mcia_pack 0 0 0 MLXSW_REG_MCIA_PAGE0_LO_OFF 0 1
            MLXSW_REG_MCIA_I2C_ADDR_LOW) 0 { status := 0, eeprom := [0x0d] },
          reg_xfer.mcia (mlxsw_reg_mcia_pack 0 0 0 0 0 2 MLXSW_REG_MCIA_I2C_ADDR_LOW) 0
            { status := 1, eeprom := [] }] }, [0, 0], -EIO_errno) ∧
    ∃ new : List reg_xfer,
      [reg_xfer.mcia (mlxsw_reg_mcia_pack 0 0 0 MLXSW_REG_MCIA_PAGE0_LO_OFF 0 1
          MLXSW_REG_MCIA_I2C_ADDR_LOW) 0 { status := 0, eeprom := [0x0d] },
        reg_xfer.mcia (mlxsw_reg_mcia_pack 0 0 0 0 0 2 MLXSW_REG_MCIA_I2C_ADDR_LOW) 0
          { status := 1, eeprom := [] }] = core_init.log ++ new ∧
      ∀ (k : Nat) (x : reg_xfer), 1 ≤ k → new[k]? = some x → x.failed = true →
        k + 1 = new.length ∧ -EIO_errno = x.errno ∧ -EIO_errno ≠ 0 :=
  ⟨by rfl,
    (C8_bulk_abort (sim_device [0x0d] true false) core_init 0 0 0 2 [9, 9] 5).1 _ _ _ (by rfl)⟩

/-- C9: when the identifier read goes through, `mlxsw_env_validate_cable_ident`
has issued exactly that one-byte read and succeeds if and only if the first
EEPROM byte is one of the seven supported identifiers; SFP and SFP-DD give
(qsfp, cmis) = (false, false), QSFP, QSFP+ and QSFP28 give (true, false), QSFP-DD
and QSFP+CMIS give (true, true), every other byte gives `-EINVAL`; so cmis
implies qsfp. -/
theorem C9_module_classification (dev : mlxsw_device σ) (core : mlxsw_core σ)
    (slot_index id ident : Nat) (s : σ) (resp : mcia_resp)
    (hq : dev.mcia core.state (mlxsw_reg_mcia_pack slot_index id 0 MLXSW_REG_MCIA_PAGE0_LO_OFF 0 1
      MLXSW_REG_MCIA_I2C_ADDR_LOW) = (s, 0, resp))
    (hid : ident = u8 ((mlxsw_reg_mcia_eeprom_memcpy_from resp).getD 0 0)) :
    (mlxsw_env_validate_cable_ident dev core slot_index id).1.log =
      core.log ++ [reg_xfer.mcia (mlxsw_reg_mcia_pack slot_index id 0
        MLXSW_REG_MCIA_PAGE0_LO_OFF 0 1 MLXSW_REG_MCIA_I2C_ADDR_LOW) 0 resp] ∧
    ((∃ qc : Bool × Bool,
        (mlxsw_env_validate_cable_ident dev core slot_index id).2 = Except.ok qc) ↔
      ident ∈ [MLXSW_REG_MCIA_EEPROM_MODULE_INFO_ID_SFP,
        MLXSW_REG_MCIA_EEPROM_MODULE_INFO_ID_SFP_DD,
        MLXSW_REG_MCIA_EEPROM_MODULE_INFO_ID_QSFP,
        MLXSW_REG_MCIA_EEPROM_MODULE_INFO_ID_QSFP_PLUS,
        MLXSW_REG_MCIA_EEPROM_MODULE_INFO_ID_QSFP28,
        MLXSW_REG_MCIA_EEPROM_MODULE_INFO_ID_QSFP_DD,
        MLXSW_REG_MCIA_EEPROM_MODULE_INFO_ID_QSFP_PLUS_CMIS]) ∧
    (ident ∈ [MLXSW_REG_MCIA_EEPROM_MODULE_INFO_ID_SFP,
        MLXSW_REG_MCIA_EEPROM_MODULE_INFO_ID_SFP_DD] →
      (mlxsw_env_validate_cable_ident dev core slot_index id).2 = Except.ok (false, false)) ∧
    (ident ∈ [MLXSW_REG_MCIA_EEPROM_MODULE_INFO_ID_QSFP,
        MLXSW_REG_MCIA_EEPROM_MODULE_INFO_ID_QSFP_PLUS,
        MLXSW_REG_MCIA_EEPROM_MODULE_INFO_ID_QSFP28] →
      (mlxsw_env_validate_cable_ident dev core slot_index id).2 = Except.ok (true, false)) ∧
    (ident ∈ [MLXSW_REG_MCIA_EEPROM_MODULE_INFO_ID_QSFP_DD,
        MLXSW_REG_MCIA_EEPROM_MODULE_INFO_ID_QSFP_PLUS_CMIS] →
      (mlxsw_env_validate_cable_ident dev core slot_index id).2 = Except.ok (true, true)) ∧
    (ident ∉ [MLXSW_REG_MCIA_EEPROM_MODULE_INFO_ID_SFP,
        MLXSW_REG_MCIA_EEPROM_MODULE_INFO_ID_SFP_DD,
        MLXSW_REG_MCIA_EEPROM_MODULE_INFO_ID_QSFP,
        MLXSW_REG_MCIA_EEPROM_MODULE_INFO_ID_QSFP_PLUS,
        MLXSW_REG_MCIA_EEPROM_MODULE_INFO_ID_QSFP28,
        MLXSW_REG_MCIA_EEPROM_MODULE_INFO_ID_QSFP_DD,
        MLXSW_REG_MCIA_EEPROM_MODULE_INFO_ID_QSFP_PLUS_CMIS] →
      (mlxsw_env_validate_cable_ident dev core slot_index id).2 =
        Except.error (-EINVAL_errno)) ∧
    (∀ qsfp cmis : Bool,
      (mlxsw_env_validate_cable_ident dev core slot_index id).2 = Except.ok (qsfp, cmis) →
        cmis = true → qsfp = true) := by
  have hv : mlxsw_env_validate_cable_ident dev core slot_index id =
      ({ state := s, log := core.log ++ [reg_xfer.mcia (mlxsw_reg_mcia_pack slot_index id 0
          MLXSW_REG_MCIA_PAGE0_LO_OFF 0 1 MLXSW_REG_MCIA_I2C_ADDR_LOW) 0 resp] },
        mlxsw_env_validate_cable_ident_switch ident) := by
    unfold mlxsw_env_validate_cable_ident mlxsw_reg_query_mcia
    simp only [hq, ne_eq, not_true_eq_false, if_false, hid]
  rw [hv]
  simp only [mlxsw_env_validate_cable_ident_switch,
    MLXSW_REG_MCIA_EEPROM_MODULE_INFO_ID_SFP, MLXSW_REG_MCIA_EEPROM_MODULE_INFO_ID_SFP_DD,
    MLXSW_REG_MCIA_EEPROM_MODULE_INFO_ID_QSFP, MLXSW_REG_MCIA_EEPROM_MODULE_INFO_ID_QSFP_PLUS,
    MLXSW_REG_MCIA_EEPROM_MODULE_INFO_ID_QSFP28, MLXSW_REG_MCIA_EEPROM_MODULE_INFO_ID_QSFP_DD,
    MLXSW_REG_MCIA_EEPROM_MODULE_INFO_ID_QSFP_PLUS_CMIS, List.mem_cons, List.mem_singleton,
    List.not_mem_nil, or_false]
  refine ⟨trivial, ?_, ?_, ?_, ?_, ?_, ?_⟩
  · constructor
    · rintro ⟨qc, h⟩
      split_ifs at h <;> omega
    · intro h
      split_ifs
      · exact ⟨_, rfl⟩
      · exact ⟨_, rfl⟩
      · exact ⟨_, rfl⟩
      · exfalso; omega
  · intro h
    rw [if_pos h]
  · intro h
    rw [if_neg (by omega), if_pos h]
  · intro h
    rw [if_neg (by omega), if_neg (by omega), if_pos h]
  · intro h
    rw [if_neg (by omega), if_neg (by omega), if_neg (by omega)]
  · intro qsfp cmis h hc
    split_ifs at h <;> simp_all

/-- C9 (witness): a module whose first EEPROM byte is 0x18 (QSFP-DD). -/
theorem C9_module_classification_witness :
    ((sim_device [0x18] true true).mcia core_init.state
        (mlxsw_reg_mcia_pack 0 0 0 MLXSW_REG_MCIA_PAGE0_LO_OFF 0 1 MLXSW_REG_MCIA_I2C_ADDR_LOW) =
      ((), 0, { status := 0, eeprom := [0x18] }) ∧
     0x18 = u8 ((mlxsw_reg_mcia_eeprom_memcpy_from { status := 0, eeprom := [0x18] }).getD 0 0)) ∧
    (mlxsw_env_validate_cable_ident (sim_device [0x18] true true) core_init 0 0).2 =
      Except.ok (true, true) :=
  ⟨⟨by rfl, by rfl⟩,
    (C9_module_classification (sim_device [0x18] true true) core_init 0 0 0x18 ()
      { status := 0, eeprom := [0x18] } (by rfl) (by rfl)).2.2.2.2.1
      (by simp [MLXSW_REG_MCIA_EEPROM_MODULE_INFO_ID_QSFP_DD])⟩

set_option maxRecDepth 100000 in
/-- C11 (the code at the failing input): a legacy module without the second
address space answers the threshold read with status 1 and no data;
`mlxsw_env_module_temp_thresholds_get` does not look at the status and returns
the threshold 0 as a success, where `mlxsw_env_query_module_eeprom` returns
`-EIO` for the very same transaction. -/
theorem C11_threshold_status_ignored :
    mlxsw_env_module_temp_thresholds_get false (sim_device sfp_image_no_diag false false)
        core_init 0 0 SFP_TEMP_HIGH_ALARM =
      ({ state := (), log := [
          reg_xfer.mtmp (mlxsw_reg_mtmp_pack 0 MLXSW_REG_MTMP_MODULE_INDEX_MIN false false) 0
            { temp := 40000, max_temp := 40000 },
          reg_xfer.mcia (mlxsw_reg_mcia_pack 0 0 0 MLXSW_REG_MCIA_PAGE0_LO_OFF 0 1
            MLXSW_REG_MCIA_I2C_ADDR_LOW) 0 { status := 0, eeprom := [0x03] },
          reg_xfer.mcia (mlxsw_reg_mcia_pack 0 0 0 MLXSW_REG_MCIA_PAGE0_LO 0
            MLXSW_REG_MCIA_TH_ITEM_SIZE MLXSW_REG_MCIA_I2C_ADDR_HIGH) 0
            { status := 1, eeprom := [] }] }, Except.ok 0) ∧
    mlxsw_env_query_module_eeprom (sim_device sfp_image_no_diag false false) core_init 0 0 256
        MLXSW_REG_MCIA_TH_ITEM_SIZE false false =
      ({ state := (), log := [
          reg_xfer.mcia (mlxsw_reg_mcia_pack 0 0 0 MLXSW_REG_MCIA_PAGE0_LO 0
            MLXSW_REG_MCIA_TH_ITEM_SIZE MLXSW_REG_MCIA_I2C_ADDR_HIGH) 0
            { status := 1, eeprom := [] }] }, Except.error (-EIO_errno)) :=
  ⟨by rfl, by rfl⟩

set_option maxRecDepth 100000 in
/-- C12 (the claim as stated fails): a module with the thresholds crit 10000 and
emerg 20000: crit - 2 * HYSTERESIS is 0, which is non-positive, and the Normal
trip is set to 0, not to crit itself. -/
theorem C12_trip_derivation_counterexample :
    (mlxsw_env_module_temp_thresholds_get false
        (sim_device (sfp_image_thresholds 20 10) false false) core_init 0 0
        SFP_TEMP_HIGH_WARN).2 = Except.ok 10000 ∧
    (mlxsw_env_module_temp_thresholds_get false
        (sim_device (sfp_image_thresholds 20 10) false false) core_init 0 0
        SFP_TEMP_HIGH_ALARM).2 = Except.ok 20000 ∧
    (10000 : Int) - 2 * MLXSW_THERMAL_HYSTERESIS_TEMP ≤ 0 ∧
    (mlxsw_thermal_module_trips_update false
        (sim_device (sfp_image_thresholds 20 10) false false) core_init
        module_zone_0).2.1.trips.norm.temp = 0 ∧
    (mlxsw_thermal_module_trips_update false
        (sim_device (sfp_image_thresholds 20 10) false false) core_init
        module_zone_0).2.1.trips.norm.temp ≠ 10000 :=
  ⟨by rfl, by rfl, by decide, by rfl, by decide⟩

/-- C12 (amended): when the two threshold reads of
`mlxsw_thermal_module_trips_update` deliver critTemp <= emergTemp, the update
returns 0 and sets High = critTemp, Hot = emergTemp and Normal = critTemp -
2 * HYSTERESIS when that is not negative (>= 0), Normal = critTemp itself when it
is negative; nothing else of the zone changes. -/
theorem C12_trip_derivation (cpu_big_endian : Bool) (dev : mlxsw_device σ)
    (core core1 core2 : mlxsw_core σ) (tz : mlxsw_thermal_module) (crit_temp emerg_temp : Int)
    (h1 : mlxsw_env_module_temp_thresholds_get cpu_big_endian dev core tz.slot_index tz.module
      SFP_TEMP_HIGH_WARN = (core1, Except.ok crit_temp))
    (h2 : mlxsw_env_module_temp_thresholds_get cpu_big_endian dev core1 tz.slot_index tz.module
      SFP_TEMP_HIGH_ALARM = (core2, Except.ok emerg_temp))
    (hle : crit_temp ≤ emerg_temp) :
    mlxsw_thermal_module_trips_update cpu_big_endian dev core tz =
      (core2,
        { tz with trips :=
            { norm := { tz.trips.norm with
                          temp := if 0 ≤ crit_temp - 2 * MLXSW_THERMAL_HYSTERESIS_TEMP then
                            crit_temp - 2 * MLXSW_THERMAL_HYSTERESIS_TEMP else crit_temp },
              high := { tz.trips.high with temp := crit_temp },
              hot := { tz.trips.hot with temp := emerg_temp } } },
        0) := by
  unfold mlxsw_thermal_module_trips_update
  simp only [h1, h2]
  have hn : ¬ (crit_temp > emerg_temp) := by omega
  rw [if_neg hn]
  have hc : (crit_temp ≥ MLXSW_THERMAL_MODULE_TEMP_SHIFT) ↔
      (0 ≤ crit_temp - 2 * MLXSW_THERMAL_HYSTERESIS_TEMP) := by
    simp only [MLXSW_THERMAL_MODULE_TEMP_SHIFT, MLXSW_THERMAL_HYSTERESIS_TEMP]
    omega
  have hs : crit_temp - MLXSW_THERMAL_MODULE_TEMP_SHIFT =
      crit_temp - 2 * MLXSW_THERMAL_HYSTERESIS_TEMP := by
    simp only [MLXSW_THERMAL_MODULE_TEMP_SHIFT, MLXSW_THERMAL_HYSTERESIS_TEMP]
    omega
  simp only [hc, hs]

set_option maxRecDepth 100000 in
/-- C12 (witness): the thresholds crit 70000 and emerg 80000 give the trips
60000, 70000 and 80000. -/
theorem C12_trip_derivation_witness :
    (mlxsw_thermal_module_trips_update false
        (sim_device (sfp_image_thresholds 80 70) false false) core_init
        module_zone_0).2.1.trips.norm.temp = 60000 ∧
    (mlxsw_thermal_module_trips_update false
        (sim_device (sfp_image_thresholds 80 70) false false) core_init
        module_zone_0).2.1.trips.high.temp = 70000 ∧
    (mlxsw_thermal_module_trips_update false
        (sim_device (sfp_image_thresholds 80 70) false false) core_init
        module_zone_0).2.1.trips.hot.temp = 80000 := by
  have h := C12_trip_derivation false (sim_device (sfp_image_thresholds 80 70) false false)
    core_init
    (mlxsw_env_module_temp_thresholds_get false
      (sim_device (sfp_image_thresholds 80 70) false false) core_init 0 0 SFP_TEMP_HIGH_WARN).1
    (mlxsw_env_module_temp_thresholds_get false
      (sim_device (sfp_image_thresholds 80 70) false false)
      (mlxsw_env_module_temp_thresholds_get false
        (sim_device (sfp_image_thresholds 80 70) false false) core_init 0 0
        SFP_TEMP_HIGH_WARN).1 0 0 SFP_TEMP_HIGH_ALARM).1
    module_zone_0 70000 80000 (by rfl) (by rfl) (by decide)
  rw [h]
  exact ⟨by rfl, by rfl, by rfl⟩

/-- C13: threshold rejection. For a module zone outside the initialization
phase whose sensor reads a non-zero temperature and whose threshold reads
deliver critTemp > emergTemp, `mlxsw_thermal_module_trips_update` returns 0 and
leaves the zone, its three trips included, exactly as it was, and
`mlxsw_thermal_module_temp_get` succeeds with the raw reading and the same
unchanged zone: no error is surfaced. -/
theorem C13_threshold_rejection (cpu_big_endian : Bool) (dev : mlxsw_device σ)
    (thermal : mlxsw_thermal σ) (tz : mlxsw_thermal_module) (s1 : σ) (resp : mtmp_resp)
    (core2 core3 : mlxsw_core σ) (crit_temp emerg_temp : Int)
    (hinit : thermal.initializing = false)
    (hq : dev.mtmp thermal.core.state (mlxsw_reg_mtmp_pack tz.slot_index
      (MLXSW_REG_MTMP_MODULE_INDEX_MIN + tz.module) false false) = (s1, 0, resp))
    (hne : resp.temp ≠ 0)
    (h1 : mlxsw_env_module_temp_thresholds_get cpu_big_endian dev
      { state := s1, log := thermal.core.log ++ [reg_xfer.mtmp (mlxsw_reg_mtmp_pack tz.slot_index
        (MLXSW_REG_MTMP_MODULE_INDEX_MIN + tz.module) false false) 0 resp] }
      tz.slot_index tz.module SFP_TEMP_HIGH_WARN = (core2, Except.ok crit_temp))
    (h2 : mlxsw_env_module_temp_thresholds_get cpu_big_endian dev core2 tz.slot_index tz.module
      SFP_TEMP_HIGH_ALARM = (core3, Except.ok emerg_temp))
    (hgt : crit_temp > emerg_temp) :
    mlxsw_thermal_module_trips_update cpu_big_endian dev
      { state := s1, log := thermal.core.log ++ [reg_xfer.mtmp (mlxsw_reg_mtmp_pack tz.slot_index
        (MLXSW_REG_MTMP_MODULE_INDEX_MIN + tz.module) false false) 0 resp] } tz =
      (core3, tz, 0) ∧
    (mlxsw_thermal_module_temp_get cpu_big_endian dev thermal tz).2.1 = tz ∧
    (mlxsw_thermal_module_temp_get cpu_big_endian dev thermal tz).2.2 = Except.ok resp.temp := by
  have hu : mlxsw_thermal_module_trips_update cpu_big_endian dev
      { state := s1, log := thermal.core.log ++ [reg_xfer.mtmp (mlxsw_reg_mtmp_pack tz.slot_index
        (MLXSW_REG_MTMP_MODULE_INDEX_MIN + tz.module) false false) 0 resp] } tz =
      (core3, tz, 0) := by
    unfold mlxsw_thermal_module_trips_update
    simp only [h1, h2, hgt, if_true]
  refine ⟨hu, ?_, ?_⟩
  · unfold mlxsw_thermal_module_temp_get mlxsw_reg_query_mtmp
    simp only [hinit, hq, hu, hne, Bool.false_eq_true, if_false, ne_eq, not_true_eq_false]
    split_ifs <;> rfl
  · unfold mlxsw_thermal_module_temp_get mlxsw_reg_query_mtmp
    simp only [hinit, hq, hu, hne, Bool.false_eq_true, if_false, ne_eq, not_true_eq_false]
    split_ifs <;> rfl

set_option maxRecDepth 100000 in
/-- C13 (witness): a module with the thresholds crit 80000 and emerg 70000 and
the live temperature 40000: the trips stay 60000, 70000 and 80000 and the
reading 40000 is returned. -/
theorem C13_threshold_rejection_witness :
    (mlxsw_thermal_module_temp_get false (sim_device (sfp_image_thresholds 70 80) false false)
      thermal_0 module_zone_0).2.1 = module_zone_0 ∧
    (mlxsw_thermal_module_temp_get false (sim_device (sfp_image_thresholds 70 80) false false)
      thermal_0 module_zone_0).2.2 = Except.ok 40000 ∧
    module_zone_0.trips.norm.temp = 60000 ∧ module_zone_0.trips.high.temp = 70000 ∧
    module_zone_0.trips.hot.temp = 80000 :=
  ⟨(C13_threshold_rejection false (sim_device (sfp_image_thresholds 70 80) false false)
      thermal_0 module_zone_0 () { temp := 40000, max_temp := 40000 }
      (mlxsw_env_module_temp_thresholds_get false
        (sim_device (sfp_image_thresholds 70 80) false false)
        { state := (), log := thermal_0.core.log ++ [reg_xfer.mtmp (mlxsw_reg_mtmp_pack 0
          (MLXSW_REG_MTMP_MODULE_INDEX_MIN + 0) false false) 0
          { temp := 40000, max_temp := 40000 }] } 0 0 SFP_TEMP_HIGH_WARN).1
      (mlxsw_env_module_temp_thresholds_get false
        (sim_device (sfp_image_thresholds 70 80) false false)
        (mlxsw_env_module_temp_thresholds_get false
          (sim_device (sfp_image_thresholds 70 80) false false)
          { state := (), log := thermal_0.core.log ++ [reg_xfer.mtmp (mlxsw_reg_mtmp_pack 0
            (MLXSW_REG_MTMP_MODULE_INDEX_MIN + 0) false false) 0
            { temp := 40000, max_temp := 40000 }] } 0 0 SFP_TEMP_HIGH_WARN).1
        0 0 SFP_TEMP_HIGH_ALARM).1
      80000 70000 (by rfl) (by rfl) (by decide) (by rfl) (by rfl) (by decide)).2.1,
    (C13_threshold_rejection false (sim_device (sfp_image_thresholds 70 80) false false)
      thermal_0 module_zone_0 () { temp := 40000, max_temp := 40000 }
      (mlxsw_env_module_temp_thresholds_get false
        (sim_device (sfp_image_thresholds 70 80) false false)
        { state := (), log := thermal_0.core.log ++ [reg_xfer.mtmp (mlxsw_reg_mtmp_pack 0
          (MLXSW_REG_MTMP_MODULE_INDEX_MIN + 0) false false) 0
          { temp := 40000, max_temp := 40000 }] } 0 0 SFP_TEMP_HIGH_WARN).1
      (mlxsw_env_module_temp_thresholds_get false
        (sim_device (sfp_image_thresholds 70 80) false false)
        (mlxsw_env_module_temp_thresholds_get false
          (sim_device (sfp_image_thresholds 70 80) false false)
          { state := (), log := thermal_0.core.log ++ [reg_xfer.mtmp (mlxsw_reg_mtmp_pack 0
            (MLXSW_REG_MTMP_MODULE_INDEX_MIN + 0) false false) 0
            { temp := 40000, max_temp := 40000 }] } 0 0 SFP_TEMP_HIGH_WARN).1
        0 0 SFP_TEMP_HIGH_ALARM).1
      80000 70000 (by rfl) (by rfl) (by decide) (by rfl) (by rfl) (by decide)).2.2,
    by rfl, by rfl, by rfl⟩

/-- The trips after `mlxsw_thermal_module_trips_update` are the old ones, or do
not decrease. -/
theorem module_trips_update_ordered (cpu_big_endian : Bool) (dev : mlxsw_device σ)
    (core : mlxsw_core σ) (tz : mlxsw_thermal_module) :
    (mlxsw_thermal_module_trips_update cpu_big_endian dev core tz).2.1 = tz ∨
    (mlxsw_thermal_module_trips_update cpu_big_endian dev core tz).2.1.trips.ordered := by
  unfold mlxsw_thermal_module_trips_update
  simp only []
  split
  · exact Or.inl rfl
  · split
    · exact Or.inl rfl
    · rename_i crit_temp _ _ emerg_temp _
      by_cases h : crit_temp > emerg_temp
      · rw [if_pos h]
        exact Or.inl rfl
      · rw [if_neg h]
        right
        simp only [mlxsw_thermal_trips.ordered, MLXSW_THERMAL_MODULE_TEMP_SHIFT,
          MLXSW_THERMAL_HYSTERESIS_TEMP]
        constructor
        · split_ifs <;> omega
        · omega

/-- The zone after `mlxsw_thermal_module_temp_get` is the old one, or has trips
that do not decrease. -/
theorem module_temp_get_ordered (cpu_big_endian : Bool) (dev : mlxsw_device σ)
    (thermal : mlxsw_thermal σ) (tz : mlxsw_thermal_module) :
    (mlxsw_thermal_module_temp_get cpu_big_endian dev thermal tz).2.1 = tz ∨
    (mlxsw_thermal_module_temp_get cpu_big_endian dev thermal tz).2.1.trips.ordered := by
  unfold mlxsw_thermal_module_temp_get
  simp only []
  split_ifs
  · exact Or.inl rfl
  · exact Or.inl rfl
  · exact Or.inl rfl
  · exact module_trips_update_ordered cpu_big_endian dev _ tz
  · exact module_trips_update_ordered cpu_big_endian dev _ tz

/-- C14 (the claim as stated fails): `mlxsw_thermal_set_trip_temp` on the
ordered default trips 75000, 85000, 105000 with trip 0 and temperature 200000
returns 0 and stores it: the trips are then 200000, 85000, 105000. -/
theorem C14_trip_ordering_counterexample :
    thermal_0.trips.ordered ∧
    (mlxsw_thermal_set_trip_temp thermal_0 0 200000).2 = 0 ∧
    (mlxsw_thermal_set_trip_temp thermal_0 0 200000).1.trips.norm.temp = 200000 ∧
    (mlxsw_thermal_set_trip_temp thermal_0 0 200000).1.trips.high.temp = 85000 ∧
    ¬ (mlxsw_thermal_set_trip_temp thermal_0 0 200000).1.trips.ordered := by
  refine ⟨by decide, by rfl, by rfl, by rfl, by decide⟩

/-- C14 (amended): Normal.temp <= High.temp <= Hot.temp holds for the initial
trips of every zone kind (the default table, and the module trips after
`mlxsw_thermal_module_init`), and the module trip recomputation keeps it: the
trips after `mlxsw_thermal_module_trips_update` and after
`mlxsw_thermal_module_temp_get` are ordered whenever they were, an update with
critTemp > emergTemp being rejected with the previous trips retained. setTrip
checks the index only: for a valid index it stores any temperature and returns
0, on every zone kind. -/
theorem C14_trip_ordering (cpu_big_endian : Bool) (dev : mlxsw_device σ)
    (thermal : mlxsw_thermal σ) (core : mlxsw_core σ) (tz : mlxsw_thermal_module)
    (trip temp : Int) :
    default_thermal_trips.ordered ∧
    (mlxsw_thermal_module_init_trips tz).trips.ordered ∧
    (tz.trips.ordered →
      (mlxsw_thermal_module_trips_update cpu_big_endian dev core tz).2.1.trips.ordered) ∧
    (tz.trips.ordered →
      (mlxsw_thermal_module_temp_get cpu_big_endian dev thermal tz).2.1.trips.ordered) ∧
    (0 ≤ trip ∧ trip < 3 →
      (mlxsw_thermal_set_trip_temp thermal trip temp).2 = 0 ∧
      ((mlxsw_thermal_set_trip_temp thermal trip temp).1.trips.get trip).temp = temp ∧
      (mlxsw_thermal_module_trip_temp_set tz trip temp).2 = 0 ∧
      ((mlxsw_thermal_module_trip_temp_set tz trip temp).1.trips.get trip).temp = temp) := by
  refine ⟨by decide, ?_, ?_, ?_, ?_⟩
  · simp only [mlxsw_thermal_module_init_trips, mlxsw_thermal_module_trips_reset,
      mlxsw_thermal_trips.ordered, MLXSW_THERMAL_MODULE_TEMP_NORM,
      MLXSW_THERMAL_MODULE_TEMP_HIGH, MLXSW_THERMAL_MODULE_TEMP_HOT]
    omega
  · intro h
    rcases module_trips_update_ordered cpu_big_endian dev core tz with h1 | h1
    · rw [h1]; exact h
    · exact h1
  · intro h
    rcases module_temp_get_ordered cpu_big_endian dev thermal tz with h1 | h1
    · rw [h1]; exact h
    · exact h1
  · rintro ⟨h0, h3⟩
    have hv : ¬ (trip < 0 ∨ trip ≥ MLXSW_THERMAL_NUM_TRIPS) := by
      simp only [MLXSW_THERMAL_NUM_TRIPS]
      omega
    unfold mlxsw_thermal_set_trip_temp mlxsw_thermal_module_trip_temp_set
    simp only [hv, if_false, mlxsw_thermal_trips.set_temp, mlxsw_thermal_trips.get]
    have hc : trip = 0 ∨ trip = 1 ∨ trip = 2 := by omega
    rcases hc with hc | hc | hc <;> subst hc <;> simp

/-- C14 (witness): the module zone of the examples and a valid trip index. -/
theorem C14_trip_ordering_witness :
    module_zone_0.trips.ordered ∧ ((0 : Int) ≤ 1 ∧ (1 : Int) < 3) ∧
    (mlxsw_thermal_module_temp_get false (sim_device (sfp_image_thresholds 80 70) false false)
      thermal_0 module_zone_0).2.1.trips.ordered ∧
    (mlxsw_thermal_set_trip_temp thermal_0 1 90000).2 = 0 :=
  ⟨by decide, by decide,
    (C14_trip_ordering false (sim_device (sfp_image_thresholds 80 70) false false) thermal_0
      core_init module_zone_0 1 90000).2.2.2.1 (by decide),
    ((C14_trip_ordering false (sim_device (sfp_image_thresholds 80 70) false false) thermal_0
      core_init module_zone_0 1 90000).2.2.2.2 (by decide)).1⟩

/-- Storing a temperature in `trips[trip]` changes the temperature of that
entry and nothing else of the array. -/
theorem trips_set_temp_get (trips : mlxsw_thermal_trips) (trip temp : Int)
    (h0 : 0 ≤ trip) (h3 : trip < 3) :
    (trips.set_temp trip temp).get trip = { trips.get trip with temp := temp } ∧
    ∀ j : Int, 0 ≤ j → j < 3 → j ≠ trip → (trips.set_temp trip temp).get j = trips.get j := by
  have hc : trip = 0 ∨ trip = 1 ∨ trip = 2 := by omega
  constructor
  · rcases hc with hc | hc | hc <;> subst hc <;>
      simp [mlxsw_thermal_trips.set_temp, mlxsw_thermal_trips.get]
  · intro j hj0 hj3 hne
    have hj : j = 0 ∨ j = 1 ∨ j = 2 := by omega
    rcases hc with hc | hc | hc <;> subst hc <;> rcases hj with hj | hj | hj <;> subst hj <;>
      first
      | exact absurd rfl hne
      | simp [mlxsw_thermal_trips.set_temp, mlxsw_thermal_trips.get]

/-- C15: for the chassis zone (`mlxsw_thermal_get_trip_temp`,
`mlxsw_thermal_set_trip_temp`) and for the module and gearbox zones
(`mlxsw_thermal_module_trip_temp_get`, `mlxsw_thermal_module_trip_temp_set`),
getTrip and setTrip return `-EINVAL` if and only if the index is outside [0, 3);
on that error nothing is changed; for a valid index getTrip delivers the
temperature of trip i, and setTrip returns 0 and changes the temperature of
trip i only. -/
theorem C15_trip_index_validation (thermal : mlxsw_thermal σ) (tz : mlxsw_thermal_module)
    (trip temp : Int) :
    (mlxsw_thermal_get_trip_temp thermal trip = Except.error (-EINVAL_errno) ↔
      (trip < 0 ∨ 3 ≤ trip)) ∧
    (mlxsw_thermal_module_trip_temp_get tz trip = Except.error (-EINVAL_errno) ↔
      (trip < 0 ∨ 3 ≤ trip)) ∧
    ((mlxsw_thermal_set_trip_temp thermal trip temp).2 = -EINVAL_errno ↔
      (trip < 0 ∨ 3 ≤ trip)) ∧
    ((mlxsw_thermal_module_trip_temp_set tz trip temp).2 = -EINVAL_errno ↔
      (trip < 0 ∨ 3 ≤ trip)) ∧
    ((trip < 0 ∨ 3 ≤ trip) →
      (mlxsw_thermal_set_trip_temp thermal trip temp).1 = thermal ∧
      (mlxsw_thermal_module_trip_temp_set tz trip temp).1 = tz) ∧
    ((0 ≤ trip ∧ trip < 3) →
      mlxsw_thermal_get_trip_temp thermal trip = Except.ok (thermal.trips.get trip).temp ∧
      mlxsw_thermal_module_trip_temp_get tz trip = Except.ok (tz.trips.get trip).temp ∧
      mlxsw_thermal_set_trip_temp thermal trip temp =
        ({ thermal with trips := thermal.trips.set_temp trip temp }, 0) ∧
      mlxsw_thermal_module_trip_temp_set tz trip temp =
        ({ tz with trips := tz.trips.set_temp trip temp }, 0) ∧
      (∀ trips : mlxsw_thermal_trips,
        (trips.set_temp trip temp).get trip = { trips.get trip with temp := temp } ∧
        ∀ j : Int, 0 ≤ j → j < 3 → j ≠ trip →
          (trips.set_temp trip temp).get j = trips.get j)) := by
  unfold mlxsw_thermal_get_trip_temp mlxsw_thermal_module_trip_temp_get
    mlxsw_thermal_set_trip_temp mlxsw_thermal_module_trip_temp_set
  simp only [MLXSW_THERMAL_NUM_TRIPS, EINVAL_errno]
  by_cases hv : trip < 0 ∨ trip ≥ 3
  · have hv' : trip < 0 ∨ 3 ≤ trip := hv
    simp only [hv, if_true, hv', true_iff, iff_true, true_implies]
    refine ⟨trivial, trivial, trivial, trivial, ⟨trivial, trivial⟩, ?_⟩
    intro h
    omega
  · have hv' : ¬ (trip < 0 ∨ 3 ≤ trip) := hv
    simp only [hv, if_false, hv', iff_false, false_implies]
    refine ⟨by simp, by simp, by decide, by decide, trivial, ?_⟩
    intro h
    refine ⟨trivial, trivial, trivial, trivial, ?_⟩
    intro trips
    exact trips_set_temp_get trips trip temp h.1 h.2

/-- C15 (witness): trip 1 of the chassis zone of the examples is set to 90000;
the other two trips keep their temperatures. -/
theorem C15_trip_index_validation_witness :
    ((0 : Int) ≤ 1 ∧ (1 : Int) < 3) ∧
    mlxsw_thermal_get_trip_temp thermal_0 1 = Except.ok 85000 ∧
    (mlxsw_thermal_set_trip_temp thermal_0 1 90000).2 = 0 ∧
    (mlxsw_thermal_set_trip_temp thermal_0 1 90000).1.trips.norm.temp = 75000 ∧
    (mlxsw_thermal_set_trip_temp thermal_0 1 90000).1.trips.high.temp = 90000 ∧
    (mlxsw_thermal_set_trip_temp thermal_0 1 90000).1.trips.hot.temp = 105000 := by
  have h := (C15_trip_index_validation thermal_0 module_zone_0 1 90000).2.2.2.2.2 (by decide)
  refine ⟨by decide, ?_, ?_, ?_, ?_, ?_⟩
  · rw [h.1]; rfl
  · rw [h.2.2.1]
  · rw [h.2.2.1]; rfl
  · rw [h.2.2.1]; rfl
  · rw [h.2.2.1]; rfl

/-- C16 (the claim as stated fails): after the chassis zone of the examples has
read 40000 it is the hottest zone, and its getTrend returns 1 and writes no
trend: it neither succeeds nor reports Raising. -/
theorem C16_trend_counterexample :
    (mlxsw_thermal_get_temp (sim_device [] false false) thermal_0).1.tz_highest_dev =
      some thermal_0.tzdev ∧
    mlxsw_thermal_trend_get (mlxsw_thermal_get_temp (sim_device [] false false) thermal_0).1
      thermal_0.tzdev 0 = (1, none) ∧
    mlxsw_thermal_trend_get (mlxsw_thermal_get_temp (sim_device [] false false) thermal_0).1
      thermal_0.tzdev 0 ≠ (0, some thermal_trend.THERMAL_TREND_RAISING) := by
  refine ⟨by rfl, by rfl, by decide⟩

/-- C16 (amended): for every zone and every valid trip index, getTrend returns 1
and writes no trend if and only if the zone is `tz_highest_dev` (the thermal core
then derives the trend of the hottest zone from its temperatures); for every
other zone it returns 0 and reports Stable; it never reports Raising. -/
theorem C16_trend (thermal : mlxsw_thermal σ) (tz : mlxsw_thermal_module) (tzdev : Nat)
    (trip : Int) (h0 : 0 ≤ trip) (h3 : trip < 3) :
    (mlxsw_thermal_trend_get thermal tzdev trip = (1, none) ↔
      thermal.tz_highest_dev = some tzdev) ∧
    (thermal.tz_highest_dev ≠ some tzdev →
      mlxsw_thermal_trend_get thermal tzdev trip =
        (0, some thermal_trend.THERMAL_TREND_STABLE)) ∧
    (mlxsw_thermal_module_trend_get thermal tz trip = (1, none) ↔
      thermal.tz_highest_dev = some tz.tzdev) ∧
    (thermal.tz_highest_dev ≠ some tz.tzdev →
      mlxsw_thermal_module_trend_get thermal tz trip =
        (0, some thermal_trend.THERMAL_TREND_STABLE)) ∧
    (mlxsw_thermal_trend_get thermal tzdev trip).2 ≠
      some thermal_trend.THERMAL_TREND_RAISING ∧
    (mlxsw_thermal_module_trend_get thermal tz trip).2 ≠
      some thermal_trend.THERMAL_TREND_RAISING := by
  have hv : ¬ (trip < 0 ∨ trip ≥ MLXSW_THERMAL_NUM_TRIPS) := by
    simp only [MLXSW_THERMAL_NUM_TRIPS]
    omega
  unfold mlxsw_thermal_trend_get mlxsw_thermal_module_trend_get
  simp only [hv, if_false]
  refine ⟨?_, ?_, ?_, ?_, ?_, ?_⟩
  · by_cases h : some tzdev = thermal.tz_highest_dev
    · simp [h]
    · have h' : ¬ thermal.tz_highest_dev = some tzdev := fun e => h e.symm
      simp [h, h']
  · intro h
    have h' : ¬ some tzdev = thermal.tz_highest_dev := fun e => h e.symm
    simp [h']
  · by_cases h : some tz.tzdev = thermal.tz_highest_dev
    · simp [h]
    · have h' : ¬ thermal.tz_highest_dev = some tz.tzdev := fun e => h e.symm
      simp [h, h']
  · intro h
    have h' : ¬ some tz.tzdev = thermal.tz_highest_dev := fun e => h e.symm
    simp [h']
  · split_ifs <;> simp
  · split_ifs <;> simp

/-- C16 (witness): with the chassis zone (zone 1) the hottest, its getTrend
returns 1 and getTrend of the module zone (zone 2) reports Stable. -/
theorem C16_trend_witness :
    ((0 : Int) ≤ 0 ∧ (0 : Int) < 3) ∧
    mlxsw_thermal_trend_get (mlxsw_thermal_get_temp (sim_device [] false false) thermal_0).1
      1 0 = (1, none) ∧
    mlxsw_thermal_module_trend_get
      (mlxsw_thermal_get_temp (sim_device [] false false) thermal_0).1 module_zone_0 0 =
      (0, some thermal_trend.THERMAL_TREND_STABLE) :=
  ⟨by decide,
    (C16_trend (mlxsw_thermal_get_temp (sim_device [] false false) thermal_0).1 module_zone_0
      1 0 (by decide) (by decide)).1.mpr (by rfl),
    (C16_trend (mlxsw_thermal_get_temp (sim_device [] false false) thermal_0).1 module_zone_0
      1 0 (by decide) (by decide)).2.2.2.1 (by decide)⟩

/-- The macro `DIV_ROUND_CLOSEST` on positive operands whose sum is an `int`:
the result is the nearest integer `q` to `x / d` (half up), also as
`unsigned int`. -/
theorem div_round_closest_pos (x d : Int) (hx : 0 < x) (hd : 0 < d)
    (hsum : x + d < 2147483648) :
    ∃ q : Nat, DIV_ROUND_CLOSEST x d = (q : Int) ∧ u32_of_int (DIV_ROUND_CLOSEST x d) = q ∧
      (2 * (q : Int) - 1) * d ≤ 2 * x ∧ 2 * x < (2 * (q : Int) + 1) * d := by
  have hd2 : Int.tdiv d 2 = d / 2 := Int.tdiv_eq_ediv (by omega) (by omega)
  have he1 : 0 ≤ d / 2 := by omega
  have he2 : 2 * (d / 2) ≤ d := by omega
  have he3 : d ≤ 2 * (d / 2) + 1 := by omega
  have hs1 : s32 (x + d / 2) = x + d / 2 := by
    unfold s32
    omega
  have hq0 : 0 ≤ (x + d / 2) / d := Int.ediv_nonneg (by omega) (by omega)
  have hq1 : (x + d / 2) / d ≤ x + d / 2 := Int.ediv_le_self d (by omega)
  have hq2 : (x + d / 2) / d * d ≤ x + d / 2 := Int.ediv_mul_le _ (by omega)
  have hq3 : x + d / 2 < ((x + d / 2) / d + 1) * d := Int.lt_ediv_add_one_mul_self _ hd
  have hdr : DIV_ROUND_CLOSEST x d = (x + d / 2) / d := by
    unfold DIV_ROUND_CLOSEST
    have hb : decide (x > 0) = decide (d > 0) := by simp [hx, hd]
    rw [if_pos hb, hd2, hs1, Int.tdiv_eq_ediv (by omega) (by omega)]
    unfold s32
    omega
  refine ⟨((x + d / 2) / d).toNat, ?_, ?_, ?_, ?_⟩
  · rw [hdr, Int.toNat_of_nonneg hq0]
  · rw [hdr]
    unfold u32_of_int
    congr 1
    omega
  · rw [Int.toNat_of_nonneg hq0]
    nlinarith
  · rw [Int.toNat_of_nonneg hq0]
    nlinarith

/-- The score of the first trip above the temperature: the loop from that trip
on. -/
theorem tz_score_loop_below (temp : Int) (trip : mlxsw_thermal_trip)
    (rest : List mlxsw_thermal_trip) (shift : Nat) (hpos : 0 < temp) (hlt : temp < trip.temp)
    (hint : trip.temp < 2147483648) :
    ∃ q : Nat, (2 * (q : Int) - 1) * (trip.temp - temp) ≤ 2 * temp ∧
      2 * temp < (2 * (q : Int) + 1) * (trip.temp - temp) ∧
      mlxsw_thermal_tz_score_loop temp (trip :: rest) shift = (q * shift) % 4294967296 := by
  have hs : s32 (trip.temp - temp) = trip.temp - temp := by
    unfold s32
    omega
  obtain ⟨q, -, hq2, hq3, hq4⟩ := div_round_closest_pos temp (trip.temp - temp) hpos
    (by omega) (by omega)
  refine ⟨q, hq3, hq4, ?_⟩
  unfold mlxsw_thermal_tz_score_loop
  rw [if_pos hlt, hs, hq2]
  rfl

/-- The score at a temperature that no trip exceeds. -/
theorem tz_score_max (trips : mlxsw_thermal_trips) (temp : Int)
    (h1 : trips.norm.temp ≤ temp) (h2 : trips.high.temp ≤ temp) (h3 : trips.hot.temp ≤ temp) :
    mlxsw_thermal_tz_score trips temp = MLXSW_THERMAL_TEMP_SCORE_MAX := by
  unfold mlxsw_thermal_tz_score mlxsw_thermal_trips.toList
  simp only [mlxsw_thermal_tz_score_loop]
  rw [if_neg (by omega), if_neg (by omega), if_neg (by omega)]

/-- C17 (the claim as stated fails): the chassis trips after setTrip(0, 200000)
are 200000, 85000, 105000; at the temperature 110000, which is positive and not
below the Hot trip, the score is 1 and not the maximum. -/
theorem C17_score_at_hot_counterexample :
    (mlxsw_thermal_set_trip_temp thermal_0 0 200000).1.trips.hot.temp = 105000 ∧
    (0 : Int) < 110000 ∧
    (mlxsw_thermal_set_trip_temp thermal_0 0 200000).1.trips.hot.temp ≤ 110000 ∧
    mlxsw_thermal_tz_score (mlxsw_thermal_set_trip_temp thermal_0 0 200000).1.trips 110000 = 1 ∧
    mlxsw_thermal_tz_score (mlxsw_thermal_set_trip_temp thermal_0 0 200000).1.trips 110000 ≠
      2 ^ 32 - 1 := by
  refine ⟨by rfl, by decide, by decide, by rfl, by decide⟩

/-- C17 (amended): for three trips whose temperatures do not decrease (Normal <=
High <= Hot), or whose Normal and High temperatures do not exceed the observed
temperature either, and every observed temperature temp >= Hot.temp, the score
computed by `mlxsw_thermal_tz_score_update` is the maximum 2^32 - 1; when it
exceeds `tz_highest_score` it is stored with the zone. -/
theorem C17_score_at_hot (thermal : mlxsw_thermal σ) (tzdev : Nat) (trips : mlxsw_thermal_trips)
    (temp : Int) (hhot : trips.hot.temp ≤ temp)
    (hord : trips.ordered ∨ (trips.norm.temp ≤ temp ∧ trips.high.temp ≤ temp)) :
    mlxsw_thermal_tz_score trips temp = 2 ^ 32 - 1 ∧
    (thermal.tz_highest_score < 2 ^ 32 - 1 →
      (mlxsw_thermal_tz_score_update thermal tzdev trips temp).tz_highest_score = 2 ^ 32 - 1 ∧
      (mlxsw_thermal_tz_score_update thermal tzdev trips temp).tz_highest_dev = some tzdev) := by
  have hs : mlxsw_thermal_tz_score trips temp = 2 ^ 32 - 1 := by
    rcases hord with ho | ho
    · unfold mlxsw_thermal_trips.ordered at ho
      exact tz_score_max trips temp (by omega) (by omega) hhot
    · exact tz_score_max trips temp ho.1 ho.2 hhot
  refine ⟨hs, ?_⟩
  intro hlt
  unfold mlxsw_thermal_tz_score_update
  rw [hs, if_pos hlt]
  exact ⟨rfl, rfl⟩

/-- C17 (witness): the default chassis trips at their Hot temperature 105000. -/
theorem C17_score_at_hot_witness :
    (default_thermal_trips.hot.temp ≤ 105000 ∧ default_thermal_trips.ordered) ∧
    mlxsw_thermal_tz_score default_thermal_trips 105000 = 2 ^ 32 - 1 :=
  ⟨⟨by decide, by decide⟩,
    (C17_score_at_hot thermal_0 1 default_thermal_trips 105000 (by decide)
      (Or.inl (by decide))).1⟩

/-- C18 (the claim as stated fails): with the default chassis trips and the
temperature 104999 the first trip above is Hot (k = 2) and
round(104999 / 1) * 256^2 = 6881214464 exceeds 2^32 - 1; the score is that
product modulo 2^32, 2586247168: it wraps, it does not saturate. -/
theorem C18_score_below_hot_counterexample :
    default_thermal_trips.norm.temp ≤ 104999 ∧ default_thermal_trips.high.temp ≤ 104999 ∧
    (104999 : Int) < default_thermal_trips.hot.temp ∧
    mlxsw_thermal_tz_score default_thermal_trips 104999 = 2586247168 ∧
    mlxsw_thermal_tz_score default_thermal_trips 104999 = (104999 * 256 ^ 2) % 2 ^ 32 ∧
    2 ^ 32 - 1 < 104999 * 256 ^ 2 ∧
    mlxsw_thermal_tz_score default_thermal_trips 104999 ≠ 2 ^ 32 - 1 := by
  refine ⟨by decide, by decide, by decide, by rfl, by rfl, by decide, by decide⟩

/-- C18 (amended): for every observed temperature temp > 0 and the first trip,
of index k (0 = Normal, 1 = High, 2 = Hot), such that temp < trip.temp, the
score computed by `mlxsw_thermal_tz_score_update` is q * 256^k reduced modulo
2^32 (`unsigned int` arithmetic), where q is temp / (trip.temp - temp) rounded
to the nearest integer, half up; it is q * 256^k itself whenever that is below
2^32. No saturation is applied. -/
theorem C18_score_below_hot (trips : mlxsw_thermal_trips) (temp : Int) (k : Nat)
    (trip : mlxsw_thermal_trip) (hpos : 0 < temp)
    (hk : trips.toList[k]? = some trip) (hlt : temp < trip.temp)
    (hfirst : ∀ (j : Nat) (t : mlxsw_thermal_trip), j < k → trips.toList[j]? = some t →
      t.temp ≤ temp)
    (hint : trip.temp < 2147483648) :
    ∃ q : Nat, (2 * (q : Int) - 1) * (trip.temp - temp) ≤ 2 * temp ∧
      2 * temp < (2 * (q : Int) + 1) * (trip.temp - temp) ∧
      mlxsw_thermal_tz_score trips temp = (q * 256 ^ k) % 2 ^ 32 ∧
      (q * 256 ^ k < 2 ^ 32 → mlxsw_thermal_tz_score trips temp = q * 256 ^ k) := by
  have hmain : ∃ q : Nat, (2 * (q : Int) - 1) * (trip.temp - temp) ≤ 2 * temp ∧
      2 * temp < (2 * (q : Int) + 1) * (trip.temp - temp) ∧
      mlxsw_thermal_tz_score trips temp = (q * 256 ^ k) % 2 ^ 32 := by
    unfold mlxsw_thermal_tz_score
    unfold mlxsw_thermal_trips.toList at hk hfirst ⊢
    match k, hk, hfirst with
    | 0, hk, _ =>
      simp only [List.getElem?_cons_zero, Option.some.injEq] at hk
      obtain ⟨q, a1, a2, a3⟩ := tz_score_loop_below temp trip [trips.high, trips.hot] 1 hpos hlt
        hint
      refine ⟨q, a1, a2, ?_⟩
      rw [hk, a3]
      simp
    | 1, hk, hfirst =>
      simp only [List.getElem?_cons_succ, List.getElem?_cons_zero, Option.some.injEq] at hk
      have h0 := hfirst 0 trips.norm (by omega) (by simp)
      obtain ⟨q, a1, a2, a3⟩ := tz_score_loop_below temp trip [trips.hot] (u32 (1 * 256)) hpos
        hlt hint
      refine ⟨q, a1, a2, ?_⟩
      rw [mlxsw_thermal_tz_score_loop, if_neg (by omega), hk, a3]
      rfl
    | 2, hk, hfirst =>
      simp only [List.getElem?_cons_succ, List.getElem?_cons_zero, Option.some.injEq] at hk
      have h0 := hfirst 0 trips.norm (by omega) (by simp)
      have h1 := hfirst 1 trips.high (by omega) (by simp)
      obtain ⟨q, a1, a2, a3⟩ := tz_score_loop_below temp trip [] (u32 (u32 (1 * 256) * 256))
        hpos hlt hint
      refine ⟨q, a1, a2, ?_⟩
      rw [mlxsw_thermal_tz_score_loop, if_neg (by omega), mlxsw_thermal_tz_score_loop,
        if_neg (by omega), hk, a3]
      rfl
    | k + 3, hk, _ =>
      simp at hk
  obtain ⟨q, a1, a2, a3⟩ := hmain
  refine ⟨q, a1, a2, a3, ?_⟩
  intro hsmall
  rw [a3]
  exact Nat.mod_eq_of_lt hsmall

/-- C18 (witness): the default chassis trips at 80000: the first trip above is
High (k = 1), 80000 / 5000 = 16, and the score is 16 * 256. -/
theorem C18_score_below_hot_witness :
    ((0 : Int) < 80000 ∧ default_thermal_trips.toList[1]? = some default_thermal_trips.high ∧
      (80000 : Int) < default_thermal_trips.high.temp ∧
      default_thermal_trips.high.temp < 2147483648) ∧
    ∃ q : Nat, (2 * (q : Int) - 1) * (default_thermal_trips.high.temp - 80000) ≤ 2 * 80000 ∧
      2 * 80000 < (2 * (q : Int) + 1) * (default_thermal_trips.high.temp - 80000) ∧
      mlxsw_thermal_tz_score default_thermal_trips 80000 = (q * 256 ^ 1) % 2 ^ 32 ∧
      (q * 256 ^ 1 < 2 ^ 32 → mlxsw_thermal_tz_score default_thermal_trips 80000 = q * 256 ^ 1) :=
  ⟨⟨by decide, by rfl, by decide, by decide⟩,
    C18_score_below_hot default_thermal_trips 80000 1 default_thermal_trips.high (by decide)
      (by rfl) (by decide)
      (by
        intro j t hj ht
        have hj0 : j = 0 := by omega
        subst hj0
        simp only [mlxsw_thermal_trips.toList, List.getElem?_cons_zero, Option.some.injEq] at ht
        rw [← ht]
        decide)
      (by decide)⟩

/-- One score update: the highest score does not decrease, and the hottest zone
changes only with a strictly larger score. -/
theorem tz_score_update_arbiter (thermal : mlxsw_thermal σ) (tzdev : Nat)
    (trips : mlxsw_thermal_trips) (temp : Int) :
    thermal.tz_highest_score ≤
      (mlxsw_thermal_tz_score_update thermal tzdev trips temp).tz_highest_score ∧
    ((mlxsw_thermal_tz_score_update thermal tzdev trips temp).tz_highest_dev ≠
        thermal.tz_highest_dev →
      thermal.tz_highest_score <
        (mlxsw_thermal_tz_score_update thermal tzdev trips temp).tz_highest_score) := by
  unfold mlxsw_thermal_tz_score_update
  split_ifs with h
  · exact ⟨Nat.le_of_lt h, fun _ => h⟩
  · exact ⟨Nat.le_refl _, fun hne => absurd rfl hne⟩

/-- One score update on driver data with the same highest score and hottest
zone as `thermal`. -/
theorem tz_score_update_arbiter_of (thermal t : mlxsw_thermal σ)
    (h1 : t.tz_highest_score = thermal.tz_highest_score)
    (h2 : t.tz_highest_dev = thermal.tz_highest_dev) (tzdev : Nat)
    (trips : mlxsw_thermal_trips) (temp : Int) :
    thermal.tz_highest_score ≤
      (mlxsw_thermal_tz_score_update t tzdev trips temp).tz_highest_score ∧
    ((mlxsw_thermal_tz_score_update t tzdev trips temp).tz_highest_dev ≠
        thermal.tz_highest_dev →
      thermal.tz_highest_score <
        (mlxsw_thermal_tz_score_update t tzdev trips temp).tz_highest_score) := by
  rw [← h1, ← h2]
  exact tz_score_update_arbiter t tzdev trips temp

/-- One zone operation: the highest score does not decrease, and the hottest
zone changes only with a strictly larger score. -/
theorem zone_op_apply_arbiter (cpu_big_endian : Bool) (dev : mlxsw_device σ)
    (thermal : mlxsw_thermal σ) (op : zone_op) :
    thermal.tz_highest_score ≤ (zone_op.apply cpu_big_endian dev thermal op).tz_highest_score ∧
    ((zone_op.apply cpu_big_endian dev thermal op).tz_highest_dev ≠ thermal.tz_highest_dev →
      thermal.tz_highest_score <
        (zone_op.apply cpu_big_endian dev thermal op).tz_highest_score) := by
  have hrefl : ∀ t : mlxsw_thermal σ, t.tz_highest_score = thermal.tz_highest_score →
      t.tz_highest_dev = thermal.tz_highest_dev →
      thermal.tz_highest_score ≤ t.tz_highest_score ∧
      (t.tz_highest_dev ≠ thermal.tz_highest_dev →
        thermal.tz_highest_score < t.tz_highest_score) := by
    intro t h1 h2
    exact ⟨Nat.le_of_eq h1.symm, fun hne => absurd h2 hne⟩
  cases op with
  | get_temp =>
    simp only [zone_op.apply, mlxsw_thermal_get_temp]
    split_ifs
    · exact hrefl _ rfl rfl
    · exact hrefl _ rfl rfl
    · dsimp only
      refine tz_score_update_arbiter_of thermal _ ?_ ?_ _ _ _ <;> rfl
    · exact hrefl _ rfl rfl
  | get_trip_temp trip => exact hrefl _ rfl rfl
  | set_trip_temp trip temp =>
    simp only [zone_op.apply, mlxsw_thermal_set_trip_temp]
    split_ifs <;> exact hrefl _ rfl rfl
  | trend_get trip => exact hrefl _ rfl rfl
  | module_temp_get i =>
    simp only [zone_op.apply]
    split
    · exact hrefl _ rfl rfl
    · simp only [mlxsw_thermal_module_temp_get]
      split_ifs
      · exact hrefl _ rfl rfl
      · exact hrefl _ rfl rfl
      · exact hrefl _ rfl rfl
      · dsimp only
        refine tz_score_update_arbiter_of thermal _ ?_ ?_ _ _ _ <;> rfl
      · exact hrefl _ rfl rfl
  | module_trip_temp_get i trip => exact hrefl _ rfl rfl
  | module_trip_temp_set i trip temp =>
    simp only [zone_op.apply]
    split <;> exact hrefl _ rfl rfl
  | module_trend_get i trip => exact hrefl _ rfl rfl
  | gearbox_temp_get i =>
    simp only [zone_op.apply]
    split
    · exact hrefl _ rfl rfl
    · simp only [mlxsw_thermal_gearbox_temp_get]
      split_ifs
      · exact hrefl _ rfl rfl
      · exact hrefl _ rfl rfl
      · dsimp only
        refine tz_score_update_arbiter_of thermal _ ?_ ?_ _ _ _ <;> rfl
      · exact hrefl _ rfl rfl
  | gearbox_trip_temp_get i trip => exact hrefl _ rfl rfl
  | gearbox_trip_temp_set i trip temp =>
    simp only [zone_op.apply]
    split <;> exact hrefl _ rfl rfl
  | gearbox_trend_get i trip => exact hrefl _ rfl rfl

/-- A sequence of zone operations: the highest score does not decrease, and the
hottest zone changes only with a strictly larger score. -/
theorem zone_ops_run_arbiter (cpu_big_endian : Bool) (dev : mlxsw_device σ)
    (ops : List zone_op) :
    ∀ thermal : mlxsw_thermal σ,
      thermal.tz_highest_score ≤
        (zone_ops_run cpu_big_endian dev thermal ops).tz_highest_score ∧
      ((zone_ops_run cpu_big_endian dev thermal ops).tz_highest_dev ≠ thermal.tz_highest_dev →
        thermal.tz_highest_score <
          (zone_ops_run cpu_big_endian dev thermal ops).tz_highest_score) := by
  induction ops with
  | nil =>
    intro thermal
    exact ⟨Nat.le_refl _, fun hne => absurd rfl hne⟩
  | cons op rest ih =>
    intro thermal
    obtain ⟨a1, a2⟩ := zone_op_apply_arbiter cpu_big_endian dev thermal op
    obtain ⟨b1, b2⟩ := ih (zone_op.apply cpu_big_endian dev thermal op)
    have hrun : zone_ops_run cpu_big_endian dev thermal (op :: rest) =
        zone_ops_run cpu_big_endian dev (zone_op.apply cpu_big_endian dev thermal op) rest := rfl
    rw [hrun]
    refine ⟨Nat.le_trans a1 b1, ?_⟩
    intro hne
    by_cases hmid : (zone_op.apply cpu_big_endian dev thermal op).tz_highest_dev =
        thermal.tz_highest_dev
    · rw [hmid] at b2
      exact Nat.lt_of_le_of_lt a1 (b2 hne)
    · exact Nat.lt_of_lt_of_le (a2 hmid) b1

/-- C19: one score update with the computed score s stores (s, observing zone)
as (`tz_highest_score`, `tz_highest_dev`) if s exceeds `tz_highest_score` and
otherwise leaves the driver data unchanged; over every sequence of zone
operations `tz_highest_score` never decreases and `tz_highest_dev` differs from
its first value only when `tz_highest_score` is strictly larger than at first. -/
theorem C19_arbiter_no_decay (cpu_big_endian : Bool) (dev : mlxsw_device σ)
    (thermal : mlxsw_thermal σ) (tzdev : Nat) (trips : mlxsw_thermal_trips) (temp : Int)
    (ops : List zone_op) :
    (mlxsw_thermal_tz_score trips temp > thermal.tz_highest_score →
      mlxsw_thermal_tz_score_update thermal tzdev trips temp =
        { thermal with tz_highest_score := mlxsw_thermal_tz_score trips temp,
                       tz_highest_dev := some tzdev }) ∧
    (¬ mlxsw_thermal_tz_score trips temp > thermal.tz_highest_score →
      mlxsw_thermal_tz_score_update thermal tzdev trips temp = thermal) ∧
    thermal.tz_highest_score ≤
      (zone_ops_run cpu_big_endian dev thermal ops).tz_highest_score ∧
    ((zone_ops_run cpu_big_endian dev thermal ops).tz_highest_dev ≠ thermal.tz_highest_dev →
      thermal.tz_highest_score <
        (zone_ops_run cpu_big_endian dev thermal ops).tz_highest_score) := by
  refine ⟨?_, ?_, zone_ops_run_arbiter cpu_big_endian dev ops thermal⟩
  · intro h
    unfold mlxsw_thermal_tz_score_update
    rw [if_pos h]
  · intro h
    unfold mlxsw_thermal_tz_score_update
    rw [if_neg h]

/-- C19 (witness): the chassis zone read at 40000 with nothing observed before:
the score 1 is stored with zone 1; a later run of zone operations that changes
the hottest zone ends with a strictly larger highest score. -/
theorem C19_arbiter_no_decay_witness :
    mlxsw_thermal_tz_score default_thermal_trips 40000 > thermal_0.tz_highest_score ∧
    (mlxsw_thermal_tz_score_update thermal_0 1 default_thermal_trips 40000).tz_highest_dev =
      some 1 ∧
    (mlxsw_thermal_tz_score_update thermal_0 1 default_thermal_trips 40000).tz_highest_score =
      1 :=
  ⟨by decide,
    by rw [(C19_arbiter_no_decay false (sim_device [] false false) thermal_0 1
      default_thermal_trips 40000 []).1 (by decide)],
    by rw [(C19_arbiter_no_decay false (sim_device [] false false) thermal_0 1
      default_thermal_trips 40000 []).1 (by decide)]; rfl⟩

/-- A score update at a temperature that no trip of the zone exceeds: the zone
becomes the hottest zone with the score 2^32 - 1 if the highest score was below
it, and the update changes nothing otherwise; the trend callbacks after the
update. -/
theorem tz_score_update_at_hot (b : mlxsw_thermal σ) (z other : Nat)
    (tzs tzo : mlxsw_thermal_module) (trips : mlxsw_thermal_trips) (temp trip : Int)
    (h0 : 0 ≤ trip) (h3 : trip < 3)
    (hn : trips.norm.temp ≤ temp) (hh : trips.high.temp ≤ temp) (hhot : trips.hot.temp ≤ temp) :
    (b.tz_highest_score < 2 ^ 32 - 1 →
      (mlxsw_thermal_tz_score_update b z trips temp).tz_highest_dev = some z ∧
      (mlxsw_thermal_tz_score_update b z trips temp).tz_highest_score = 2 ^ 32 - 1 ∧
      mlxsw_thermal_trend_get (mlxsw_thermal_tz_score_update b z trips temp) z trip =
        (1, none) ∧
      (tzs.tzdev = z →
        mlxsw_thermal_module_trend_get (mlxsw_thermal_tz_score_update b z trips temp) tzs trip =
          (1, none)) ∧
      (other ≠ z →
        mlxsw_thermal_trend_get (mlxsw_thermal_tz_score_update b z trips temp) other trip =
          (0, some thermal_trend.THERMAL_TREND_STABLE)) ∧
      (tzo.tzdev ≠ z →
        mlxsw_thermal_module_trend_get (mlxsw_thermal_tz_score_update b z trips temp) tzo trip =
          (0, some thermal_trend.THERMAL_TREND_STABLE))) ∧
    (2 ^ 32 - 1 ≤ b.tz_highest_score →
      mlxsw_thermal_tz_score_update b z trips temp = b) := by
  have hs : mlxsw_thermal_tz_score trips temp = 2 ^ 32 - 1 := tz_score_max trips temp hn hh hhot
  have hv : ¬ (trip < 0 ∨ trip ≥ MLXSW_THERMAL_NUM_TRIPS) := by
    simp only [MLXSW_THERMAL_NUM_TRIPS]
    omega
  constructor
  · intro hlt
    have hu : mlxsw_thermal_tz_score_update b z trips temp =
        { b with tz_highest_score := mlxsw_thermal_tz_score trips temp,
                 tz_highest_dev := some z } := by
      unfold mlxsw_thermal_tz_score_update
      rw [if_pos (by rw [hs]; exact hlt)]
    rw [hu]
    refine ⟨rfl, hs, ?_, ?_, ?_, ?_⟩
    · unfold mlxsw_thermal_trend_get
      rw [if_neg hv, if_pos rfl]
    · intro he
      unfold mlxsw_thermal_module_trend_get
      rw [if_neg hv, if_pos (by rw [he])]
    · intro hne
      unfold mlxsw_thermal_trend_get
      rw [if_neg hv, if_neg (fun e => hne (Option.some.inj e))]
    · intro hne
      unfold mlxsw_thermal_module_trend_get
      rw [if_neg hv, if_neg (fun e => hne (Option.some.inj e))]
  · intro hge
    unfold mlxsw_thermal_tz_score_update
    rw [if_neg (by rw [hs]; omega)]

/-- The chassis zone outside the initialization phase: a positive reading is
returned and passed to the score update. -/
theorem get_temp_fed (dev : mlxsw_device σ) (thermal : mlxsw_thermal σ)
    (core1 : mlxsw_core σ) (resp : mtmp_resp) (hinit : thermal.initializing = false)
    (hq : mlxsw_reg_query_mtmp dev thermal.core (mlxsw_reg_mtmp_pack 0 0 false false) =
      (core1, 0, resp))
    (hpos : 0 < resp.temp) :
    mlxsw_thermal_get_temp dev thermal =
      (mlxsw_thermal_tz_score_update { thermal with core := core1 } thermal.tzdev thermal.trips
        resp.temp, Except.ok resp.temp) := by
  have hi : ¬ thermal.initializing = true := by
    rw [hinit]
    decide
  unfold mlxsw_thermal_get_temp
  dsimp only
  rw [if_neg hi, hq]
  dsimp only
  rw [if_neg (by decide), if_pos hpos]

/-- A gearbox zone outside the initialization phase: a positive reading is
returned and passed to the score update. -/
theorem gearbox_temp_get_fed (dev : mlxsw_device σ) (thermal : mlxsw_thermal σ)
    (tz : mlxsw_thermal_module) (core1 : mlxsw_core σ) (resp : mtmp_resp)
    (hinit : thermal.initializing = false)
    (hq : mlxsw_reg_query_mtmp dev thermal.core
      (mlxsw_reg_mtmp_pack tz.slot_index
        (u16 (thermal.main.gearbox_sensor_map.getD tz.module 0)) false false) =
      (core1, 0, resp))
    (hpos : 0 < resp.temp) :
    mlxsw_thermal_gearbox_temp_get dev thermal thermal.main.gearbox_sensor_map tz =
      (mlxsw_thermal_tz_score_update { thermal with core := core1 } tz.tzdev tz.trips resp.temp,
        Except.ok resp.temp) := by
  have hi : ¬ thermal.initializing = true := by
    rw [hinit]
    decide
  unfold mlxsw_thermal_gearbox_temp_get
  dsimp only
  rw [if_neg hi, hq]
  dsimp only
  rw [if_neg (by decide), if_pos hpos]

/-- A module zone outside the initialization phase whose trip update succeeded:
a positive reading is returned and passed to the score update, with the trips as
updated. -/
theorem module_temp_get_fed (cpu_big_endian : Bool) (dev : mlxsw_device σ)
    (thermal : mlxsw_thermal σ) (tz tz2 : mlxsw_thermal_module) (core1 core2 : mlxsw_core σ)
    (resp : mtmp_resp) (hinit : thermal.initializing = false)
    (hq : mlxsw_reg_query_mtmp dev thermal.core
      (mlxsw_reg_mtmp_pack tz.slot_index (MLXSW_REG_MTMP_MODULE_INDEX_MIN + tz.module)
        false false) = (core1, 0, resp))
    (hu : mlxsw_thermal_module_trips_update cpu_big_endian dev core1 tz = (core2, tz2, 0))
    (hpos : 0 < resp.temp) :
    mlxsw_thermal_module_temp_get cpu_big_endian dev thermal tz =
      (mlxsw_thermal_tz_score_update { thermal with core := core2 } tz2.tzdev tz2.trips
        resp.temp, tz2, Except.ok resp.temp) := by
  have hi : ¬ thermal.initializing = true := by
    rw [hinit]
    decide
  unfold mlxsw_thermal_module_temp_get
  dsimp only
  rw [if_neg hi, hq]
  dsimp only
  rw [if_neg (by decide), if_neg (by omega), hu]
  dsimp only
  rw [if_pos ⟨rfl, hpos⟩]

/-- The trip update of a module zone changes its trips only: the zone keeps its
thermal zone device. -/
theorem module_trips_update_tzdev (cpu_big_endian : Bool) (dev : mlxsw_device σ)
    (core : mlxsw_core σ) (tz : mlxsw_thermal_module) :
    (mlxsw_thermal_module_trips_update cpu_big_endian dev core tz).2.1.tzdev = tz.tzdev := by
  unfold mlxsw_thermal_module_trips_update
  dsimp only
  split
  · rfl
  · split
    · rfl
    · split_ifs <;> rfl

set_option maxRecDepth 100000 in
/-- C20 (the claim as stated fails): the module zone 2 (thresholds 20000 and
30000) reads 40000 and becomes the hottest zone with the maximum score; the
chassis trips are then set to 20000, 30000, 40000. The chassis zone 1 now reads
40000, its Hot trip temperature, and computes the maximum score as well, which
is not above the stored one: zone 2 stays the hottest zone, the trend callback
of the chassis zone reports Stable and that of zone 2 returns 1 without a
trend. -/
theorem C20_arbitration_counterexample :
    (zone_ops_run false (sim_device (sfp_image_thresholds 30 20) false false) thermal_0
      [zone_op.module_temp_get 0, zone_op.set_trip_temp 0 20000,
       zone_op.set_trip_temp 1 30000, zone_op.set_trip_temp 2 40000]).trips.hot.temp = 40000 ∧
    (mlxsw_thermal_get_temp (sim_device (sfp_image_thresholds 30 20) false false)
      (zone_ops_run false (sim_device (sfp_image_thresholds 30 20) false false) thermal_0
        [zone_op.module_temp_get 0, zone_op.set_trip_temp 0 20000,
         zone_op.set_trip_temp 1 30000, zone_op.set_trip_temp 2 40000])).2 =
      Except.ok 40000 ∧
    (mlxsw_thermal_get_temp (sim_device (sfp_image_thresholds 30 20) false false)
      (zone_ops_run false (sim_device (sfp_image_thresholds 30 20) false false) thermal_0
        [zone_op.module_temp_get 0, zone_op.set_trip_temp 0 20000,
         zone_op.set_trip_temp 1 30000, zone_op.set_trip_temp 2 40000])).1.tz_highest_dev =
      some 2 ∧
    mlxsw_thermal_trend_get
      (mlxsw_thermal_get_temp (sim_device (sfp_image_thresholds 30 20) false false)
        (zone_ops_run false (sim_device (sfp_image_thresholds 30 20) false false) thermal_0
          [zone_op.module_temp_get 0, zone_op.set_trip_temp 0 20000,
           zone_op.set_trip_temp 1 30000, zone_op.set_trip_temp 2 40000])).1 1 2 =
      (0, some thermal_trend.THERMAL_TREND_STABLE) ∧
    mlxsw_thermal_module_trend_get
      (mlxsw_thermal_get_temp (sim_device (sfp_image_thresholds 30 20) false false)
        (zone_ops_run false (sim_device (sfp_image_thresholds 30 20) false false) thermal_0
          [zone_op.module_temp_get 0, zone_op.set_trip_temp 0 20000,
           zone_op.set_trip_temp 1 30000, zone_op.set_trip_temp 2 40000])).1 module_zone_0 2 =
      (1, none) := by
  refine ⟨by rfl, by rfl, by rfl, by rfl, by rfl⟩

set_option maxHeartbeats 800000 in
/-- C20 (amended): outside the initialization phase, when the temperature read
of a zone succeeds with a positive reading equal to the Hot trip temperature of
the zone (for a module zone: when its trip update succeeded too, and the reading
equals the Hot trip temperature as updated), and the Normal and High trip
temperatures do not exceed the Hot one, getTemperature returns the reading, and
if the highest score was below 2^32 - 1 the zone becomes `tz_highest_dev` with
the score 2^32 - 1: afterwards its trend callback returns 1 without writing a
trend and the trend callback of every other zone returns 0 and reports Stable.
If the highest score was 2^32 - 1 already, the highest score and the hottest
zone stay as they were. Stated for the chassis zone, a gearbox zone and a module
zone. -/
theorem C20_arbitration (cpu_big_endian : Bool) (dev : mlxsw_device σ)
    (thermal : mlxsw_thermal σ) (tz tzo : mlxsw_thermal_module) (other : Nat) (trip : Int)
    (hinit : thermal.initializing = false) (h0 : 0 ≤ trip) (h3 : trip < 3) :
    (∀ (core1 : mlxsw_core σ) (resp : mtmp_resp),
      mlxsw_reg_query_mtmp dev thermal.core (mlxsw_reg_mtmp_pack 0 0 false false) =
        (core1, 0, resp) →
      resp.temp = thermal.trips.hot.temp → 0 < resp.temp →
      thermal.trips.norm.temp ≤ thermal.trips.hot.temp →
      thermal.trips.high.temp ≤ thermal.trips.hot.temp →
      (mlxsw_thermal_get_temp dev thermal).2 = Except.ok thermal.trips.hot.temp ∧
      (thermal.tz_highest_score < 2 ^ 32 - 1 →
        (mlxsw_thermal_get_temp dev thermal).1.tz_highest_dev = some thermal.tzdev ∧
        (mlxsw_thermal_get_temp dev thermal).1.tz_highest_score = 2 ^ 32 - 1 ∧
        mlxsw_thermal_trend_get (mlxsw_thermal_get_temp dev thermal).1 thermal.tzdev trip =
          (1, none) ∧
        (other ≠ thermal.tzdev →
          mlxsw_thermal_trend_get (mlxsw_thermal_get_temp dev thermal).1 other trip =
            (0, some thermal_trend.THERMAL_TREND_STABLE)) ∧
        (tzo.tzdev ≠ thermal.tzdev →
          mlxsw_thermal_module_trend_get (mlxsw_thermal_get_temp dev thermal).1 tzo trip =
            (0, some thermal_trend.THERMAL_TREND_STABLE))) ∧
      (2 ^ 32 - 1 ≤ thermal.tz_highest_score →
        (mlxsw_thermal_get_temp dev thermal).1.tz_highest_score = thermal.tz_highest_score ∧
        (mlxsw_thermal_get_temp dev thermal).1.tz_highest_dev = thermal.tz_highest_dev)) ∧
    (∀ (core1 : mlxsw_core σ) (resp : mtmp_resp),
      mlxsw_reg_query_mtmp dev thermal.core
        (mlxsw_reg_mtmp_pack tz.slot_index
          (u16 (thermal.main.gearbox_sensor_map.getD tz.module 0)) false false) =
        (core1, 0, resp) →
      resp.temp = tz.trips.hot.temp → 0 < resp.temp →
      tz.trips.norm.temp ≤ tz.trips.hot.temp → tz.trips.high.temp ≤ tz.trips.hot.temp →
      (mlxsw_thermal_gearbox_temp_get dev thermal thermal.main.gearbox_sensor_map tz).2 =
        Except.ok tz.trips.hot.temp ∧
      (thermal.tz_highest_score < 2 ^ 32 - 1 →
        (mlxsw_thermal_gearbox_temp_get dev thermal thermal.main.gearbox_sensor_map
          tz).1.tz_highest_dev = some tz.tzdev ∧
        (mlxsw_thermal_gearbox_temp_get dev thermal thermal.main.gearbox_sensor_map
          tz).1.tz_highest_score = 2 ^ 32 - 1 ∧
        mlxsw_thermal_module_trend_get
          (mlxsw_thermal_gearbox_temp_get dev thermal thermal.main.gearbox_sensor_map tz).1
          tz trip = (1, none) ∧
        (other ≠ tz.tzdev →
          mlxsw_thermal_trend_get
            (mlxsw_thermal_gearbox_temp_get dev thermal thermal.main.gearbox_sensor_map tz).1
            other trip = (0, some thermal_trend.THERMAL_TREND_STABLE)) ∧
        (tzo.tzdev ≠ tz.tzdev →
          mlxsw_thermal_module_trend_get
            (mlxsw_thermal_gearbox_temp_get dev thermal thermal.main.gearbox_sensor_map tz).1
            tzo trip = (0, some thermal_trend.THERMAL_TREND_STABLE))) ∧
      (2 ^ 32 - 1 ≤ thermal.tz_highest_score →
        (mlxsw_thermal_gearbox_temp_get dev thermal thermal.main.gearbox_sensor_map
          tz).1.tz_highest_score = thermal.tz_highest_score ∧
        (mlxsw_thermal_gearbox_temp_get dev thermal thermal.main.gearbox_sensor_map
          tz).1.tz_highest_dev = thermal.tz_highest_dev)) ∧
    (∀ (core1 core2 : mlxsw_core σ) (resp : mtmp_resp) (tz2 : mlxsw_thermal_module),
      mlxsw_reg_query_mtmp dev thermal.core
        (mlxsw_reg_mtmp_pack tz.slot_index (MLXSW_REG_MTMP_MODULE_INDEX_MIN + tz.module)
          false false) = (core1, 0, resp) →
      mlxsw_thermal_module_trips_update cpu_big_endian dev core1 tz = (core2, tz2, 0) →
      resp.temp = tz2.trips.hot.temp → 0 < resp.temp →
      tz2.trips.norm.temp ≤ tz2.trips.hot.temp → tz2.trips.high.temp ≤ tz2.trips.hot.temp →
      (mlxsw_thermal_module_temp_get cpu_big_endian dev thermal tz).2 =
        (tz2, Except.ok tz2.trips.hot.temp) ∧
      tz2.tzdev = tz.tzdev ∧
      (thermal.tz_highest_score < 2 ^ 32 - 1 →
        (mlxsw_thermal_module_temp_get cpu_big_endian dev thermal tz).1.tz_highest_dev =
          some tz.tzdev ∧
        (mlxsw_thermal_module_temp_get cpu_big_endian dev thermal tz).1.tz_highest_score =
          2 ^ 32 - 1 ∧
        mlxsw_thermal_module_trend_get
          (mlxsw_thermal_module_temp_get cpu_big_endian dev thermal tz).1 tz2 trip =
          (1, none) ∧
        (other ≠ tz.tzdev →
          mlxsw_thermal_trend_get
            (mlxsw_thermal_module_temp_get cpu_big_endian dev thermal tz).1 other trip =
            (0, some thermal_trend.THERMAL_TREND_STABLE)) ∧
        (tzo.tzdev ≠ tz.tzdev →
          mlxsw_thermal_module_trend_get
            (mlxsw_thermal_module_temp_get cpu_big_endian dev thermal tz).1 tzo trip =
            (0, some thermal_trend.THERMAL_TREND_STABLE))) ∧
      (2 ^ 32 - 1 ≤ thermal.tz_highest_score →
        (mlxsw_thermal_module_temp_get cpu_big_endian dev thermal tz).1.tz_highest_score =
          thermal.tz_highest_score ∧
        (mlxsw_thermal_module_temp_get cpu_big_endian dev thermal tz).1.tz_highest_dev =
          thermal.tz_highest_dev)) := by
  refine ⟨?_, ?_, ?_⟩
  · intro core1 resp hq ht hpos hn hh
    rw [get_temp_fed dev thermal core1 resp hinit hq hpos, ht]
    obtain ⟨a, b⟩ := tz_score_update_at_hot { thermal with core := core1 } thermal.tzdev other
      tzo tzo thermal.trips thermal.trips.hot.temp trip h0 h3 hn hh (Int.le_refl _)
    refine ⟨rfl, ?_, ?_⟩
    · intro hlt
      obtain ⟨a1, a2, a3, -, a5, a6⟩ := a hlt
      exact ⟨a1, a2, a3, a5, a6⟩
    · intro hge
      dsimp only
      rw [b hge]
      exact ⟨rfl, rfl⟩
  · intro core1 resp hq ht hpos hn hh
    rw [gearbox_temp_get_fed dev thermal tz core1 resp hinit hq hpos, ht]
    obtain ⟨a, b⟩ := tz_score_update_at_hot { thermal with core := core1 } tz.tzdev other
      tz tzo tz.trips tz.trips.hot.temp trip h0 h3 hn hh (Int.le_refl _)
    refine ⟨rfl, ?_, ?_⟩
    · intro hlt
      obtain ⟨a1, a2, -, a4, a5, a6⟩ := a hlt
      exact ⟨a1, a2, a4 rfl, a5, a6⟩
    · intro hge
      dsimp only
      rw [b hge]
      exact ⟨rfl, rfl⟩
  · intro core1 core2 resp tz2 hq hu ht hpos hn hh
    have hz : tz2.tzdev = tz.tzdev := by
      have := module_trips_update_tzdev cpu_big_endian dev core1 tz
      rw [hu] at this
      exact this
    rw [module_temp_get_fed cpu_big_endian dev thermal tz tz2 core1 core2 resp hinit hq hu hpos,
      ht, hz]
    obtain ⟨a, b⟩ := tz_score_update_at_hot { thermal with core := core2 } tz.tzdev other
      tz2 tzo tz2.trips tz2.trips.hot.temp trip h0 h3 hn hh (Int.le_refl _)
    refine ⟨rfl, rfl, ?_, ?_⟩
    · intro hlt
      obtain ⟨a1, a2, -, a4, a5, a6⟩ := a hlt
      exact ⟨a1, a2, a4 hz, a5, a6⟩
    · intro hge
      dsimp only
      rw [b hge]
      exact ⟨rfl, rfl⟩

set_option maxRecDepth 100000 in
/-- C20 (witness): the chassis zone 1 with the trips set to 20000, 30000, 40000
reads 40000 with nothing observed before: it becomes the hottest zone and its
trend callback returns 1 without a trend. The module zone 2 with the thresholds
30000 and 40000 reads 40000: its trips become 20000, 30000, 40000 and it becomes
the hottest zone, the trend callback of the chassis zone reporting Stable. -/
theorem C20_arbitration_witness :
    ((zone_ops_run false (sim_device [] false false) thermal_0
        [zone_op.set_trip_temp 0 20000, zone_op.set_trip_temp 1 30000,
         zone_op.set_trip_temp 2 40000]).initializing = false ∧
      (zone_ops_run false (sim_device [] false false) thermal_0
        [zone_op.set_trip_temp 0 20000, zone_op.set_trip_temp 1 30000,
         zone_op.set_trip_temp 2 40000]).trips.hot.temp = 40000 ∧
      (zone_ops_run false (sim_device [] false false) thermal_0
        [zone_op.set_trip_temp 0 20000, zone_op.set_trip_temp 1 30000,
         zone_op.set_trip_temp 2 40000]).tz_highest_score < 2 ^ 32 - 1) ∧
    ((mlxsw_thermal_get_temp (sim_device [] false false)
        (zone_ops_run false (sim_device [] false false) thermal_0
          [zone_op.set_trip_temp 0 20000, zone_op.set_trip_temp 1 30000,
           zone_op.set_trip_temp 2 40000])).1.tz_highest_dev = some 1 ∧
      mlxsw_thermal_trend_get
        (mlxsw_thermal_get_temp (sim_device [] false false)
          (zone_ops_run false (sim_device [] false false) thermal_0
            [zone_op.set_trip_temp 0 20000, zone_op.set_trip_temp 1 30000,
             zone_op.set_trip_temp 2 40000])).1 1 2 = (1, none)) ∧
    (mlxsw_thermal_module_temp_get false (sim_device (sfp_image_thresholds 40 30) false false)
        thermal_0 module_zone_0).1.tz_highest_dev = some 2 ∧
    mlxsw_thermal_trend_get
      (mlxsw_thermal_module_temp_get false (sim_device (sfp_image_thresholds 40 30) false false)
        thermal_0 module_zone_0).1 1 2 = (0, some thermal_trend.THERMAL_TREND_STABLE) :=
  ⟨⟨by rfl, by rfl, by decide⟩,
    ⟨(((C20_arbitration false (sim_device [] false false)
        (zone_ops_run false (sim_device [] false false) thermal_0
          [zone_op.set_trip_temp 0 20000, zone_op.set_trip_temp 1 30000,
           zone_op.set_trip_temp 2 40000]) module_zone_0 module_zone_0 2 2 (by rfl)
        (by decide) (by decide)).1 _ _ (by rfl) (by rfl) (by decide) (by decide)
        (by decide)).2.1 (by decide)).1,
      (((C20_arbitration false (sim_device [] false false)
        (zone_ops_run false (sim_device [] false false) thermal_0
          [zone_op.set_trip_temp 0 20000, zone_op.set_trip_temp 1 30000,
           zone_op.set_trip_temp 2 40000]) module_zone_0 module_zone_0 2 2 (by rfl)
        (by decide) (by decide)).1 _ _ (by rfl) (by rfl) (by decide) (by decide)
        (by decide)).2.1 (by decide)).2.2.1⟩,
    (((C20_arbitration false (sim_device (sfp_image_thresholds 40 30) false false) thermal_0
        module_zone_0 module_zone_0 1 2 (by rfl) (by decide) (by decide)).2.2 _ _ _ _
        (by rfl) (by rfl) (by rfl) (by decide) (by decide) (by decide)).2.2.1
        (by decide)).1,
    (((C20_arbitration false (sim_device (sfp_image_thresholds 40 30) false false) thermal_0
        module_zone_0 module_zone_0 1 2 (by rfl) (by decide) (by decide)).2.2 _ _ _ _
        (by rfl) (by rfl) (by rfl) (by decide) (by decide) (by decide)).2.2.1
        (by decide)).2.2.2.1 (by decide)⟩

/-- The write part of `mlxsw_thermal_set_cur_state` leaves the cooling levels and
the cooling devices as they are. -/
theorem set_cur_state_write_levels (dev : mlxsw_fan_device σ)
    (thermal : mlxsw_thermal_cooling σ) (idx : Int) (state : Nat) :
    (mlxsw_thermal_set_cur_state_write dev thermal idx state).1.cooling_levels =
      thermal.cooling_levels ∧
    (mlxsw_thermal_set_cur_state_write dev thermal idx state).1.cdevs = thermal.cdevs := by
  unfold mlxsw_thermal_set_cur_state_write
  split_ifs
  · exact ⟨rfl, rfl⟩
  · exact ⟨rfl, rfl⟩

/-- The loop over the cooling levels on an array of 11 entries. -/
theorem set_cooling_levels_eq (state : Nat) (cl : List Nat) (hlen : cl.length = 11)
    (hs : state ≤ 10) :
    mlxsw_thermal_set_cooling_levels state cl = (List.range 11).map (fun i => max state i) := by
  match cl, hlen with
  | [a0, a1, a2, a3, a4, a5, a6, a7, a8, a9, a10], _ =>
    interval_cases state <;> rfl

/-- The cooling levels after `mlxsw_thermal_set_cur_state` on a recognised
cooling device: rewritten by a request of 12 to 20, kept by any other. -/
theorem set_cur_state_levels (dev : mlxsw_fan_device σ) (thermal : mlxsw_thermal_cooling σ)
    (cdev : thermal_cooling_device) (state : Nat)
    (hidx : 0 ≤ mlxsw_get_cooling_device_idx thermal cdev) :
    (mlxsw_thermal_set_cur_state dev thermal cdev state).1.cooling_levels =
      (if 12 ≤ state ∧ state ≤ 20 then
        mlxsw_thermal_set_cooling_levels (state - 10) thermal.cooling_levels
      else thermal.cooling_levels) ∧
    (mlxsw_thermal_set_cur_state dev thermal cdev state).1.cdevs = thermal.cdevs := by
  unfold mlxsw_thermal_set_cur_state
  simp only [MLXSW_THERMAL_SPEED_MIN, MLXSW_THERMAL_SPEED_MAX, MLXSW_THERMAL_MAX_STATE]
  rw [if_neg (by omega)]
  by_cases h : 12 ≤ state ∧ state ≤ 20
  · rw [if_pos (by omega), if_pos h]
    split_ifs
    · exact ⟨rfl, rfl⟩
    · exact ⟨rfl, rfl⟩
    · exact ⟨(set_cur_state_write_levels dev _ _ _).1, (set_cur_state_write_levels dev _ _ _).2⟩
  · rw [if_neg (by omega), if_neg h]
    exact set_cur_state_write_levels dev thermal _ state

/-- C21: duty/state round trip. For every state s in [0, 10] the duty
`mlxsw_state_to_duty s` is the nearest integer to s * 255 / 10, the state
`mlxsw_duty_to_state` of that duty is the nearest integer to duty * 10 / 255,
and it is s itself, so it differs from s by at most 1. -/
theorem C21_duty_state_round_trip (s : Int) (h0 : 0 ≤ s) (h10 : s ≤ 10) :
    (s * 255 - 5 ≤ 10 * (mlxsw_state_to_duty s : Int) ∧
      10 * (mlxsw_state_to_duty s : Int) ≤ s * 255 + 5) ∧
    (2 * ((mlxsw_state_to_duty s : Int) * 10) - 255 ≤
        2 * 255 * mlxsw_duty_to_state (mlxsw_state_to_duty s) ∧
      2 * 255 * mlxsw_duty_to_state (mlxsw_state_to_duty s) ≤
        2 * ((mlxsw_state_to_duty s : Int) * 10) + 255) ∧
    mlxsw_duty_to_state (mlxsw_state_to_duty s) = s ∧
    s - 1 ≤ mlxsw_duty_to_state (mlxsw_state_to_duty s) ∧
    mlxsw_duty_to_state (mlxsw_state_to_duty s) ≤ s + 1 := by
  interval_cases s <;> decide

/-- C21 (witness): the state 7 has the duty 179, which converts back to 7. -/
theorem C21_duty_state_round_trip_witness :
    ((0 : Int) ≤ 7 ∧ (7 : Int) ≤ 10) ∧ mlxsw_state_to_duty 7 = 179 ∧
    mlxsw_duty_to_state (mlxsw_state_to_duty 7) = 7 :=
  ⟨⟨by decide, by decide⟩, by decide, (C21_duty_state_round_trip 7 (by decide) (by decide)).2.2.1⟩

/-- C22: floor table. For every request r in [12, 20] on a recognised cooling
device, after `mlxsw_thermal_set_cur_state` the cooling level of every state i
in [0, 10] is max(r - 10, i), whether the duty read that follows succeeds or
not. -/
theorem C22_floor_table (dev : mlxsw_fan_device σ) (thermal : mlxsw_thermal_cooling σ)
    (cdev : thermal_cooling_device) (r : Nat)
    (hidx : 0 ≤ mlxsw_get_cooling_device_idx thermal cdev)
    (hlen : thermal.cooling_levels.length = 11) (h12 : 12 ≤ r) (h20 : r ≤ 20) :
    (mlxsw_thermal_set_cur_state dev thermal cdev r).1.cooling_levels =
      (List.range 11).map (fun i => max (r - 10) i) ∧
    ∀ i : Nat, i ≤ 10 →
      (mlxsw_thermal_set_cur_state dev thermal cdev r).1.cooling_levels[i]? =
        some (max (r - 10) i) := by
  have h := (set_cur_state_levels dev thermal cdev r hidx).1
  rw [if_pos ⟨h12, h20⟩, set_cooling_levels_eq (r - 10) _ hlen (by omega)] at h
  refine ⟨h, ?_⟩
  intro i hi
  rw [h]
  interval_cases i <;> rfl

/-- C22 (witness): on the simulated fan at the duty 150 after initialisation,
the request 16 gives the cooling levels 6, 6, 6, 6, 6, 6, 6, 7, 8, 9, 10 and the
request 14 gives 4, 4, 4, 4, 4, 5, 6, 7, 8, 9, 10. -/
theorem C22_floor_table_witness :
    (0 ≤ mlxsw_get_cooling_device_idx (cooling_0 150) mlxsw_fan ∧
      (cooling_0 150).cooling_levels.length = 11) ∧
    (mlxsw_thermal_set_cur_state sim_fan (cooling_0 150) mlxsw_fan 16).1.cooling_levels =
      [6, 6, 6, 6, 6, 6, 6, 7, 8, 9, 10] ∧
    (mlxsw_thermal_set_cur_state sim_fan (cooling_0 150) mlxsw_fan 14).1.cooling_levels =
      [4, 4, 4, 4, 4, 5, 6, 7, 8, 9, 10] :=
  ⟨⟨by decide, by rfl⟩,
    (C22_floor_table sim_fan (cooling_0 150) mlxsw_fan 16 (by decide) (by rfl) (by decide)
      (by decide)).1,
    (C22_floor_table sim_fan (cooling_0 150) mlxsw_fan 14 (by decide) (by rfl) (by decide)
      (by decide)).1⟩

/-- The state of a duty cycle is between 0 and 10. -/
theorem duty_to_state_range (duty : Nat) :
    ∃ q : Nat, mlxsw_duty_to_state duty = (q : Int) ∧ q ≤ 10 ∧
      ulong_of_int (mlxsw_duty_to_state duty) = q := by
  have hu : u8 duty < 256 := by
    unfold u8
    omega
  have key : ∀ d : Nat, d < 256 → ∃ q : Nat,
      DIV_ROUND_CLOSEST (s32 ((d : Int) * MLXSW_THERMAL_MAX_STATE)) MLXSW_THERMAL_MAX_DUTY =
        (q : Int) ∧ q ≤ 10 := by
    intro d hd
    have hs : s32 ((d : Int) * MLXSW_THERMAL_MAX_STATE) = (d : Int) * 10 := by
      unfold s32 MLXSW_THERMAL_MAX_STATE
      omega
    rw [hs]
    by_cases h0 : d = 0
    · subst h0
      exact ⟨0, by decide, by omega⟩
    · obtain ⟨q, hq1, -, hq3, -⟩ := div_round_closest_pos ((d : Int) * 10) 255 (by omega)
        (by omega) (by omega)
      refine ⟨q, ?_, ?_⟩
      · unfold MLXSW_THERMAL_MAX_DUTY
        exact hq1
      · omega
  obtain ⟨q, hq, hle⟩ := key (u8 duty) hu
  refine ⟨q, hq, hle, ?_⟩
  unfold mlxsw_duty_to_state
  rw [hq]
  unfold ulong_of_int
  have : ((q : Int) % 18446744073709551616) = (q : Int) := by omega
  rw [this]
  exact Int.toNat_ofNat q

/-- The cooling level of a state not above the floor, in the table a floor
request writes. -/
theorem floor_table_getD (f cur : Nat) (hf : f ≤ 10) (hc : cur ≤ f) :
    ((List.range 11).map (fun i => max f i)).getD cur 0 = f := by
  interval_cases f <;> interval_cases cur <;> rfl

/-- A floor request on a recognised cooling device whose duty read succeeds:
with the current state above the floor it returns 0 after the read; otherwise it
writes the duty of the floor and returns the result of the write. -/
theorem set_cur_state_floor (dev : mlxsw_fan_device σ) (thermal : mlxsw_thermal_cooling σ)
    (cdev : thermal_cooling_device) (r : Nat)
    (hidx : 0 ≤ mlxsw_get_cooling_device_idx thermal cdev)
    (hlen : thermal.cooling_levels.length = 11) (h12 : 12 ≤ r) (h20 : r ≤ 20)
    (hq : (mlxsw_reg_query_mfsc dev thermal.core
      (mlxsw_reg_mfsc_pack (mlxsw_get_cooling_device_idx thermal cdev).toNat 0)).2.1 = 0) :
    ((r : Int) - 10 < mlxsw_duty_to_state (u8 (mlxsw_reg_query_mfsc dev thermal.core
        (mlxsw_reg_mfsc_pack (mlxsw_get_cooling_device_idx thermal cdev).toNat 0)).2.2) →
      mlxsw_thermal_set_cur_state dev thermal cdev r =
        ({ thermal with
            cooling_levels := (List.range 11).map (fun i => max (r - 10) i),
            core := (mlxsw_reg_query_mfsc dev thermal.core
              (mlxsw_reg_mfsc_pack (mlxsw_get_cooling_device_idx thermal cdev).toNat 0)).1 },
          0)) ∧
    (mlxsw_duty_to_state (u8 (mlxsw_reg_query_mfsc dev thermal.core
        (mlxsw_reg_mfsc_pack (mlxsw_get_cooling_device_idx thermal cdev).toNat 0)).2.2) ≤
        (r : Int) - 10 →
      mlxsw_thermal_set_cur_state dev thermal cdev r =
        ({ thermal with
            cooling_levels := (List.range 11).map (fun i => max (r - 10) i),
            core := (mlxsw_reg_write_mfsc dev (mlxsw_reg_query_mfsc dev thermal.core
                (mlxsw_reg_mfsc_pack (mlxsw_get_cooling_device_idx thermal cdev).toNat 0)).1
              (mlxsw_reg_mfsc_pack (mlxsw_get_cooling_device_idx thermal cdev).toNat
                (mlxsw_state_to_duty ((r : Int) - 10)))).1 },
          (mlxsw_reg_write_mfsc dev (mlxsw_reg_query_mfsc dev thermal.core
              (mlxsw_reg_mfsc_pack (mlxsw_get_cooling_device_idx thermal cdev).toNat 0)).1
            (mlxsw_reg_mfsc_pack (mlxsw_get_cooling_device_idx thermal cdev).toNat
              (mlxsw_state_to_duty ((r : Int) - 10)))).2)) := by
  obtain ⟨c, hc1, hc2, hc3⟩ := duty_to_state_range (u8 (mlxsw_reg_query_mfsc dev thermal.core
    (mlxsw_reg_mfsc_pack (mlxsw_get_cooling_device_idx thermal cdev).toNat 0)).2.2)
  have hunf : mlxsw_thermal_set_cur_state dev thermal cdev r =
      if r - 10 < c then
        ({ thermal with
            cooling_levels := (List.range 11).map (fun i => max (r - 10) i),
            core := (mlxsw_reg_query_mfsc dev thermal.core
              (mlxsw_reg_mfsc_pack (mlxsw_get_cooling_device_idx thermal cdev).toNat 0)).1 }, 0)
      else mlxsw_thermal_set_cur_state_write dev
        { thermal with
            cooling_levels := (List.range 11).map (fun i => max (r - 10) i),
            core := (mlxsw_reg_query_mfsc dev thermal.core
              (mlxsw_reg_mfsc_pack (mlxsw_get_cooling_device_idx thermal cdev).toNat 0)).1 }
        (mlxsw_get_cooling_device_idx thermal cdev) c := by
    unfold mlxsw_thermal_set_cur_state
    simp only [MLXSW_THERMAL_SPEED_MIN, MLXSW_THERMAL_SPEED_MAX, MLXSW_THERMAL_MAX_STATE]
    rw [if_neg (by omega), if_pos (by omega)]
    have h10 : (10 : Int).toNat = 10 := rfl
    rw [h10, set_cooling_levels_eq (r - 10) _ hlen (by omega)]
    have hq2 : ¬ (mlxsw_reg_query_mfsc dev thermal.core
      (mlxsw_reg_mfsc_pack (mlxsw_get_cooling_device_idx thermal cdev).toNat 0)).2.1 ≠ 0 :=
      not_not.mpr hq
    simp only [hq2, if_false, hc3]
  rw [hunf, hc1]
  constructor
  · intro hlt
    rw [if_pos (by omega)]
  · intro hle
    rw [if_neg (by omega)]
    unfold mlxsw_thermal_set_cur_state_write
    simp only [MLXSW_THERMAL_MAX_STATE]
    rw [if_neg (by omega)]
    have hg : ((List.range 11).map (fun i => max (r - 10) i)).getD c 0 = r - 10 :=
      floor_table_getD (r - 10) c (by omega) (by omega)
    simp only [hg]
    have hs : s32 ((r - 10 : Nat) : Int) = (r : Int) - 10 := by
      unfold s32
      omega
    rw [hs]

/-- A query adds no write to the log. -/
theorem mfsc_writes_query (dev : mlxsw_fan_device σ) (core : mlxsw_fan_core σ)
    (pl : mlxsw_reg_mfsc) :
    mfsc_writes (mlxsw_reg_query_mfsc dev core pl).1.log = mfsc_writes core.log := by
  simp [mlxsw_reg_query_mfsc, mfsc_writes, List.filterMap_append]

/-- A write adds its payload to the writes of the log. -/
theorem mfsc_writes_write (dev : mlxsw_fan_device σ) (core : mlxsw_fan_core σ)
    (pl : mlxsw_reg_mfsc) :
    mfsc_writes (mlxsw_reg_write_mfsc dev core pl).1.log = mfsc_writes core.log ++ [pl] := by
  simp [mlxsw_reg_write_mfsc, mfsc_writes, List.filterMap_append]

/-- C23 (the claim as stated fails): the simulated fan runs at the duty 150,
which is the state 6. The request 16 asks for the floor 6: the current state is
not below the floor, the call returns 0, and yet it has written the duty 153 to
the PWM. -/
theorem C23_floor_stop_counterexample :
    mlxsw_duty_to_state 150 = 6 ∧ (16 : Int) - 10 ≤ mlxsw_duty_to_state 150 ∧
    (mlxsw_thermal_set_cur_state sim_fan (cooling_0 150) mlxsw_fan 16).2 = 0 ∧
    (mlxsw_thermal_set_cur_state sim_fan (cooling_0 150) mlxsw_fan 16).1.core.log =
      [mfsc_xfer.query { pwm := 0, pwm_duty_cycle := 0 } 0 150,
       mfsc_xfer.write { pwm := 0, pwm_duty_cycle := 153 } 0] ∧
    (mlxsw_thermal_set_cur_state sim_fan (cooling_0 150) mlxsw_fan 16).1.core.state = 153 := by
  refine ⟨by decide, by decide, by rfl, by rfl, by rfl⟩

/-- C23 (amended): for every floor request r in [12, 20] on a recognised cooling
device whose duty read succeeds, with floor = r - 10 and currentState the state
of the duty read: if currentState > floor, `mlxsw_thermal_set_cur_state` returns
0 and has written no duty; if currentState <= floor (equality included) it
writes the duty of the floor and returns the result of that write. -/
theorem C23_floor_stop (dev : mlxsw_fan_device σ) (thermal : mlxsw_thermal_cooling σ)
    (cdev : thermal_cooling_device) (r : Nat)
    (hidx : 0 ≤ mlxsw_get_cooling_device_idx thermal cdev)
    (hlen : thermal.cooling_levels.length = 11) (h12 : 12 ≤ r) (h20 : r ≤ 20)
    (hq : (mlxsw_reg_query_mfsc dev thermal.core
      (mlxsw_reg_mfsc_pack (mlxsw_get_cooling_device_idx thermal cdev).toNat 0)).2.1 = 0) :
    ((r : Int) - 10 < mlxsw_duty_to_state (u8 (mlxsw_reg_query_mfsc dev thermal.core
        (mlxsw_reg_mfsc_pack (mlxsw_get_cooling_device_idx thermal cdev).toNat 0)).2.2) →
      (mlxsw_thermal_set_cur_state dev thermal cdev r).2 = 0 ∧
      mfsc_writes (mlxsw_thermal_set_cur_state dev thermal cdev r).1.core.log =
        mfsc_writes thermal.core.log) ∧
    (mlxsw_duty_to_state (u8 (mlxsw_reg_query_mfsc dev thermal.core
        (mlxsw_reg_mfsc_pack (mlxsw_get_cooling_device_idx thermal cdev).toNat 0)).2.2) ≤
        (r : Int) - 10 →
      mfsc_writes (mlxsw_thermal_set_cur_state dev thermal cdev r).1.core.log =
        mfsc_writes thermal.core.log ++
          [mlxsw_reg_mfsc_pack (mlxsw_get_cooling_device_idx thermal cdev).toNat
            (mlxsw_state_to_duty ((r : Int) - 10))] ∧
      (mlxsw_thermal_set_cur_state dev thermal cdev r).2 =
        (mlxsw_reg_write_mfsc dev (mlxsw_reg_query_mfsc dev thermal.core
            (mlxsw_reg_mfsc_pack (mlxsw_get_cooling_device_idx thermal cdev).toNat 0)).1
          (mlxsw_reg_mfsc_pack (mlxsw_get_cooling_device_idx thermal cdev).toNat
            (mlxsw_state_to_duty ((r : Int) - 10)))).2) := by
  obtain ⟨a, b⟩ := set_cur_state_floor dev thermal cdev r hidx hlen h12 h20 hq
  constructor
  · intro h
    rw [a h]
    exact ⟨rfl, mfsc_writes_query dev _ _⟩
  · intro h
    rw [b h]
    refine ⟨?_, rfl⟩
    show mfsc_writes (mlxsw_reg_write_mfsc dev _ _).1.log = _
    rw [mfsc_writes_write, mfsc_writes_query]

/-- C23 (witness): the simulated fan at the duty 230 (state 9) and the request
14 (floor 4): the call returns 0 and writes nothing. -/
theorem C23_floor_stop_witness :
    (0 ≤ mlxsw_get_cooling_device_idx (cooling_0 230) mlxsw_fan ∧
      (cooling_0 230).cooling_levels.length = 11 ∧
      (14 : Int) - 10 < mlxsw_duty_to_state 230) ∧
    (mlxsw_thermal_set_cur_state sim_fan (cooling_0 230) mlxsw_fan 14).2 = 0 ∧
    mfsc_writes (mlxsw_thermal_set_cur_state sim_fan (cooling_0 230) mlxsw_fan 14).1.core.log =
      [] :=
  ⟨⟨by decide, by rfl, by decide⟩,
    (C23_floor_stop sim_fan (cooling_0 230) mlxsw_fan 14 (by decide) (by rfl) (by decide)
      (by decide) (by rfl)).1 (by decide)⟩

/-- C27: raise to floor. For every floor request r in [12, 20] on a recognised
cooling device whose duty read succeeds, if the state of the duty read is lower
than floor = r - 10, `mlxsw_thermal_set_cur_state` issues exactly one write, of
the duty of the floor, to the PWM of the cooling device, and returns the result
of that write. -/
theorem C27_raise_to_floor (dev : mlxsw_fan_device σ) (thermal : mlxsw_thermal_cooling σ)
    (cdev : thermal_cooling_device) (r : Nat)
    (hidx : 0 ≤ mlxsw_get_cooling_device_idx thermal cdev)
    (hlen : thermal.cooling_levels.length = 11) (h12 : 12 ≤ r) (h20 : r ≤ 20)
    (hq : (dev.mfsc_query thermal.core.state
      (mlxsw_reg_mfsc_pack (mlxsw_get_cooling_device_idx thermal cdev).toNat 0)).2.1 = 0)
    (hlow : mlxsw_duty_to_state (u8 (dev.mfsc_query thermal.core.state
      (mlxsw_reg_mfsc_pack (mlxsw_get_cooling_device_idx thermal cdev).toNat 0)).2.2) <
        (r : Int) - 10) :
    (mlxsw_thermal_set_cur_state dev thermal cdev r).1.core.log =
      thermal.core.log ++
        [mfsc_xfer.query (mlxsw_reg_mfsc_pack (mlxsw_get_cooling_device_idx thermal cdev).toNat 0)
          0 (dev.mfsc_query thermal.core.state
            (mlxsw_reg_mfsc_pack (mlxsw_get_cooling_device_idx thermal cdev).toNat 0)).2.2,
         mfsc_xfer.write
          (mlxsw_reg_mfsc_pack (mlxsw_get_cooling_device_idx thermal cdev).toNat
            (mlxsw_state_to_duty ((r : Int) - 10)))
          (mlxsw_thermal_set_cur_state dev thermal cdev r).2] ∧
    (mlxsw_reg_mfsc_pack (mlxsw_get_cooling_device_idx thermal cdev).toNat
        (mlxsw_state_to_duty ((r : Int) - 10))).pwm_duty_cycle =
      mlxsw_state_to_duty ((r : Int) - 10) := by
  have b := (set_cur_state_floor dev thermal cdev r hidx hlen h12 h20 hq).2
    (Int.le_of_lt hlow)
  constructor
  · rw [b]
    simp only [mlxsw_reg_write_mfsc, mlxsw_reg_query_mfsc, List.append_assoc, List.cons_append,
      List.nil_append]
    rw [show (dev.mfsc_query thermal.core.state
      (mlxsw_reg_mfsc_pack (mlxsw_get_cooling_device_idx thermal cdev).toNat 0)).2.1 = 0 from hq]
  · have hr : (r : Int) - 10 = ((r - 10 : Nat) : Int) := by omega
    rw [hr]
    generalize r - 10 = f at *
    have hf : f ≤ 10 := by omega
    interval_cases f <;> rfl

/-- C27 (witness): the simulated fan at the duty 51 (state 2) and the request 17
(floor 7): the duty 179 of the state 7 is written. -/
theorem C27_raise_to_floor_witness :
    (0 ≤ mlxsw_get_cooling_device_idx (cooling_0 51) mlxsw_fan ∧
      (cooling_0 51).cooling_levels.length = 11 ∧
      mlxsw_duty_to_state (u8 51) < (17 : Int) - 10) ∧
    (mlxsw_thermal_set_cur_state sim_fan (cooling_0 51) mlxsw_fan 17).1.core.log =
      [mfsc_xfer.query { pwm := 0, pwm_duty_cycle := 0 } 0 51,
       mfsc_xfer.write { pwm := 0, pwm_duty_cycle := 179 } 0] :=
  ⟨⟨by decide, by rfl, by decide⟩,
    (C27_raise_to_floor sim_fan (cooling_0 51) mlxsw_fan 17 (by decide) (by rfl) (by decide)
      (by decide) (by rfl) (by decide)).1⟩

/-- C24: state range validation. On a recognised cooling device,
`mlxsw_thermal_set_cur_state` called with 11 or with a value above 20 returns
`-EINVAL` and leaves the driver data, the cooling levels and the log of
transactions included, as it was; every other request issues a transaction.
When the reads of the device succeed and the write does not itself fail with
`-EINVAL`, the call returns `-EINVAL` if and only if the request is 11 or above
20. -/
theorem C24_state_range_validation (dev : mlxsw_fan_device σ)
    (thermal : mlxsw_thermal_cooling σ) (cdev : thermal_cooling_device) (state : Nat)
    (hidx : 0 ≤ mlxsw_get_cooling_device_idx thermal cdev) :
    ((state = 11 ∨ 20 < state) →
      mlxsw_thermal_set_cur_state dev thermal cdev state = (thermal, -EINVAL_errno)) ∧
    (¬ (state = 11 ∨ 20 < state) →
      thermal.core.log.length <
        (mlxsw_thermal_set_cur_state dev thermal cdev state).1.core.log.length) ∧
    ((∀ s pl, (dev.mfsc_query s pl).2.1 = 0) →
      (∀ s pl, (dev.mfsc_write s pl).2 ≠ -EINVAL_errno) →
      ((mlxsw_thermal_set_cur_state dev thermal cdev state).2 = -EINVAL_errno ↔
        (state = 11 ∨ 20 < state))) := by
  obtain ⟨c, hc1, hc2, hc3⟩ := duty_to_state_range (u8 (mlxsw_reg_query_mfsc dev thermal.core
    (mlxsw_reg_mfsc_pack (mlxsw_get_cooling_device_idx thermal cdev).toNat 0)).2.2)
  have hbad : (state = 11 ∨ 20 < state) →
      mlxsw_thermal_set_cur_state dev thermal cdev state = (thermal, -EINVAL_errno) := by
    intro h
    unfold mlxsw_thermal_set_cur_state
    simp only [MLXSW_THERMAL_SPEED_MIN, MLXSW_THERMAL_SPEED_MAX, MLXSW_THERMAL_MAX_STATE]
    rw [if_neg (by omega), if_neg (by omega)]
    unfold mlxsw_thermal_set_cur_state_write
    simp only [MLXSW_THERMAL_MAX_STATE]
    rw [if_pos (by omega)]
  have hgood : ¬ (state = 11 ∨ 20 < state) →
      thermal.core.log.length <
        (mlxsw_thermal_set_cur_state dev thermal cdev state).1.core.log.length ∧
      ((∀ s pl, (dev.mfsc_query s pl).2.1 = 0) →
        (∀ s pl, (dev.mfsc_write s pl).2 ≠ -EINVAL_errno) →
        (mlxsw_thermal_set_cur_state dev thermal cdev state).2 ≠ -EINVAL_errno) := by
    intro h
    unfold mlxsw_thermal_set_cur_state
    simp only [MLXSW_THERMAL_SPEED_MIN, MLXSW_THERMAL_SPEED_MAX, MLXSW_THERMAL_MAX_STATE]
    rw [if_neg (by omega)]
    by_cases hr : 12 ≤ state
    · rw [if_pos (by omega)]
      simp only [hc3]
      split_ifs with h1 h2
      · refine ⟨by simp [mlxsw_reg_query_mfsc], ?_⟩
        intro hread _
        exact absurd (hread _ _) h1
      · refine ⟨by simp [mlxsw_reg_query_mfsc], ?_⟩
        intro _ _
        show (0 : Int) ≠ -EINVAL_errno
        decide
      · unfold mlxsw_thermal_set_cur_state_write
        simp only [MLXSW_THERMAL_MAX_STATE]
        rw [if_neg (by omega)]
        refine ⟨by simp [mlxsw_reg_query_mfsc, mlxsw_reg_write_mfsc], ?_⟩
        intro _ hwrite
        exact hwrite _ _
    · rw [if_neg (by omega)]
      unfold mlxsw_thermal_set_cur_state_write
      simp only [MLXSW_THERMAL_MAX_STATE]
      rw [if_neg (by omega)]
      refine ⟨by simp [mlxsw_reg_write_mfsc], ?_⟩
      intro _ hwrite
      exact hwrite _ _
  refine ⟨hbad, fun h => (hgood h).1, ?_⟩
  intro hread hwrite
  constructor
  · intro he
    by_contra hn
    exact (hgood hn).2 hread hwrite he
  · intro h
    rw [hbad h]

/-- C24 (witness): on the simulated fan the request 11 is refused with `-EINVAL`
and nothing is written; so is the request 21. -/
theorem C24_state_range_validation_witness :
    0 ≤ mlxsw_get_cooling_device_idx (cooling_0 150) mlxsw_fan ∧
    mlxsw_thermal_set_cur_state sim_fan (cooling_0 150) mlxsw_fan 11 =
      (cooling_0 150, -EINVAL_errno) ∧
    mlxsw_thermal_set_cur_state sim_fan (cooling_0 150) mlxsw_fan 21 =
      (cooling_0 150, -EINVAL_errno) :=
  ⟨by decide,
    (C24_state_range_validation sim_fan (cooling_0 150) mlxsw_fan 11 (by decide)).1
      (Or.inl rfl),
    (C24_state_range_validation sim_fan (cooling_0 150) mlxsw_fan 21 (by decide)).1
      (Or.inr (by decide))⟩

/-- C25 (the code at the failing input): right after `mlxsw_thermal_init`, with
no request made yet, the cooling levels are 2, 2, 2, 3, 4, 5, 6, 7, 8, 9, 0: the
initialisation loop stops before the last entry, which keeps the 0 of the
allocation, so the level of state 9 exceeds the level of state 10. A request for
a state in [0, 10] leaves the table so; the loop of a floor request, which runs
to the last entry included, makes it non-decreasing. -/
theorem C25_init_table_not_monotonic :
    (cooling_0 150).cooling_levels = [2, 2, 2, 3, 4, 5, 6, 7, 8, 9, 0] ∧
    (cooling_0 150).cooling_levels[9]? = some 9 ∧
    (cooling_0 150).cooling_levels[10]? = some 0 ∧
    ¬ (cooling_0 150).cooling_levels.Pairwise (fun a b => a ≤ b) ∧
    (set_cur_state_run sim_fan (cooling_0 150) mlxsw_fan [5, 10, 0]).cooling_levels =
      [2, 2, 2, 3, 4, 5, 6, 7, 8, 9, 0] ∧
    (set_cur_state_run sim_fan (cooling_0 150) mlxsw_fan [12]).cooling_levels =
      [2, 2, 2, 3, 4, 5, 6, 7, 8, 9, 10] := by
  refine ⟨by rfl, by rfl, by rfl, by decide, by rfl, by rfl⟩

/-- C26 (the code at the failing input): right after `mlxsw_thermal_init` the
requests for the states 0 to 9 write the duties of max(2, s), from 51 (20%)
upwards, but the cooling level of the maximum state 10 is 0, not max(2, 10): the
request for state 10 writes the duty 0 and stops the fan, where the duty of
state 10 is 255. -/
theorem C26_max_state_stops_fan :
    (List.range 10).map (fun s => (cooling_0 150).cooling_levels.getD s 0) =
      (List.range 10).map (fun s => max 2 s) ∧
    (List.range 10).map (fun s =>
        mfsc_writes (mlxsw_thermal_set_cur_state sim_fan (cooling_0 150) mlxsw_fan s).1.core.log) =
      (List.range 10).map (fun s =>
        [mlxsw_reg_mfsc_pack 0 (mlxsw_state_to_duty ((max 2 s : Nat) : Int))]) ∧
    mlxsw_state_to_duty 2 = 51 ∧
    (cooling_0 150).cooling_levels.getD 10 0 = 0 ∧
    (mlxsw_thermal_set_cur_state sim_fan (cooling_0 150) mlxsw_fan 10).2 = 0 ∧
    (mlxsw_thermal_set_cur_state sim_fan (cooling_0 150) mlxsw_fan 10).1.core.log =
      [mfsc_xfer.write { pwm := 0, pwm_duty_cycle := 0 } 0] ∧
    (mlxsw_thermal_set_cur_state sim_fan (cooling_0 150) mlxsw_fan 10).1.core.state = 0 ∧
    mlxsw_state_to_duty ((max 2 10 : Nat) : Int) = 255 := by
  refine ⟨by rfl, by rfl, by decide, by rfl, by rfl, by rfl, by rfl, by decide⟩

/-- C28 (the claim as stated fails): outside the initialization phase the
sensor of the chassis zone reads -100000, which is not 0; `mlxsw_thermal_get_temp`
returns the reading and leaves the highest score and the hottest zone as they
were, where the score update for this reading would have stored the score
4294967295 with zone 1. The module zone behaves the same. -/
theorem C28_arbiter_feeding_counterexample :
    thermal_0.initializing = false ∧
    (mlxsw_thermal_get_temp cold_device thermal_0).2 = Except.ok (-100000) ∧
    (mlxsw_thermal_get_temp cold_device thermal_0).1.tz_highest_score = 0 ∧
    (mlxsw_thermal_get_temp cold_device thermal_0).1.tz_highest_dev = none ∧
    (mlxsw_thermal_tz_score_update thermal_0 thermal_0.tzdev thermal_0.trips
      (-100000)).tz_highest_score = 4294967295 ∧
    (mlxsw_thermal_tz_score_update thermal_0 thermal_0.tzdev thermal_0.trips
      (-100000)).tz_highest_dev = some 1 ∧
    (mlxsw_thermal_module_temp_get false cold_device thermal_0 module_zone_0).2.2 =
      Except.ok (-100000) ∧
    (mlxsw_thermal_module_temp_get false cold_device thermal_0
      module_zone_0).1.tz_highest_dev = none := by
  refine ⟨by rfl, by rfl, by rfl, by rfl, by rfl, by rfl, by rfl, by rfl⟩

/-- C28 (amended): outside the initialization phase, every positive temperature
reading obtained by getTemperature of the chassis zone or of a gearbox zone is
passed to the score update for that zone, and so is every positive reading of a
module zone whose trip update succeeded; a negative reading, a zero reading and
a reading of a module zone whose trip update failed are returned without a score
update: the highest score and the hottest zone stay as they were. -/
theorem C28_arbiter_feeding (cpu_big_endian : Bool) (dev : mlxsw_device σ)
    (thermal : mlxsw_thermal σ) (tz : mlxsw_thermal_module)
    (hinit : thermal.initializing = false) :
    ((mlxsw_reg_query_mtmp dev thermal.core (mlxsw_reg_mtmp_pack 0 0 false false)).2.1 = 0 →
      (0 < (mlxsw_reg_query_mtmp dev thermal.core
          (mlxsw_reg_mtmp_pack 0 0 false false)).2.2.temp →
        (mlxsw_thermal_get_temp dev thermal).1 =
          mlxsw_thermal_tz_score_update
            { thermal with core := (mlxsw_reg_query_mtmp dev thermal.core
                (mlxsw_reg_mtmp_pack 0 0 false false)).1 }
            thermal.tzdev thermal.trips
            (mlxsw_reg_query_mtmp dev thermal.core
              (mlxsw_reg_mtmp_pack 0 0 false false)).2.2.temp) ∧
      ((mlxsw_reg_query_mtmp dev thermal.core
          (mlxsw_reg_mtmp_pack 0 0 false false)).2.2.temp ≤ 0 →
        (mlxsw_thermal_get_temp dev thermal).1.tz_highest_score = thermal.tz_highest_score ∧
        (mlxsw_thermal_get_temp dev thermal).1.tz_highest_dev = thermal.tz_highest_dev)) ∧
    ((mlxsw_reg_query_mtmp dev thermal.core
        (mlxsw_reg_mtmp_pack tz.slot_index
          (u16 (thermal.main.gearbox_sensor_map.getD tz.module 0)) false false)).2.1 = 0 →
      (0 < (mlxsw_reg_query_mtmp dev thermal.core
          (mlxsw_reg_mtmp_pack tz.slot_index
            (u16 (thermal.main.gearbox_sensor_map.getD tz.module 0)) false false)).2.2.temp →
        (mlxsw_thermal_gearbox_temp_get dev thermal thermal.main.gearbox_sensor_map tz).1 =
          mlxsw_thermal_tz_score_update
            { thermal with core := (mlxsw_reg_query_mtmp dev thermal.core
                (mlxsw_reg_mtmp_pack tz.slot_index
                  (u16 (thermal.main.gearbox_sensor_map.getD tz.module 0)) false false)).1 }
            tz.tzdev tz.trips
            (mlxsw_reg_query_mtmp dev thermal.core
              (mlxsw_reg_mtmp_pack tz.slot_index
                (u16 (thermal.main.gearbox_sensor_map.getD tz.module 0)) false false)).2.2.temp) ∧
      ((mlxsw_reg_query_mtmp dev thermal.core
          (mlxsw_reg_mtmp_pack tz.slot_index
            (u16 (thermal.main.gearbox_sensor_map.getD tz.module 0)) false false)).2.2.temp ≤ 0 →
        (mlxsw_thermal_gearbox_temp_get dev thermal thermal.main.gearbox_sensor_map
          tz).1.tz_highest_score = thermal.tz_highest_score ∧
        (mlxsw_thermal_gearbox_temp_get dev thermal thermal.main.gearbox_sensor_map
          tz).1.tz_highest_dev = thermal.tz_highest_dev)) ∧
    ((mlxsw_reg_query_mtmp dev thermal.core
        (mlxsw_reg_mtmp_pack tz.slot_index (MLXSW_REG_MTMP_MODULE_INDEX_MIN + tz.module)
          false false)).2.1 = 0 →
      (0 < (mlxsw_reg_query_mtmp dev thermal.core
          (mlxsw_reg_mtmp_pack tz.slot_index (MLXSW_REG_MTMP_MODULE_INDEX_MIN + tz.module)
            false false)).2.2.temp →
        (mlxsw_thermal_module_trips_update cpu_big_endian dev
          (mlxsw_reg_query_mtmp dev thermal.core
            (mlxsw_reg_mtmp_pack tz.slot_index (MLXSW_REG_MTMP_MODULE_INDEX_MIN + tz.module)
              false false)).1 tz).2.2 = 0 →
        (mlxsw_thermal_module_temp_get cpu_big_endian dev thermal tz).1 =
          mlxsw_thermal_tz_score_update
            { thermal with core := (mlxsw_thermal_module_trips_update cpu_big_endian dev
                (mlxsw_reg_query_mtmp dev thermal.core
                  (mlxsw_reg_mtmp_pack tz.slot_index
                    (MLXSW_REG_MTMP_MODULE_INDEX_MIN + tz.module) false false)).1 tz).1 }
            (mlxsw_thermal_module_trips_update cpu_big_endian dev
              (mlxsw_reg_query_mtmp dev thermal.core
                (mlxsw_reg_mtmp_pack tz.slot_index
                  (MLXSW_REG_MTMP_MODULE_INDEX_MIN + tz.module) false false)).1 tz).2.1.tzdev
            (mlxsw_thermal_module_trips_update cpu_big_endian dev
              (mlxsw_reg_query_mtmp dev thermal.core
                (mlxsw_reg_mtmp_pack tz.slot_index
                  (MLXSW_REG_MTMP_MODULE_INDEX_MIN + tz.module) false false)).1 tz).2.1.trips
            (mlxsw_reg_query_mtmp dev thermal.core
              (mlxsw_reg_mtmp_pack tz.slot_index (MLXSW_REG_MTMP_MODULE_INDEX_MIN + tz.module)
                false false)).2.2.temp) ∧
      (((mlxsw_reg_query_mtmp dev thermal.core
          (mlxsw_reg_mtmp_pack tz.slot_index (MLXSW_REG_MTMP_MODULE_INDEX_MIN + tz.module)
            false false)).2.2.temp ≤ 0 ∨
        (mlxsw_thermal_module_trips_update cpu_big_endian dev
          (mlxsw_reg_query_mtmp dev thermal.core
            (mlxsw_reg_mtmp_pack tz.slot_index (MLXSW_REG_MTMP_MODULE_INDEX_MIN + tz.module)
              false false)).1 tz).2.2 ≠ 0) →
        (mlxsw_thermal_module_temp_get cpu_big_endian dev thermal tz).1.tz_highest_score =
          thermal.tz_highest_score ∧
        (mlxsw_thermal_module_temp_get cpu_big_endian dev thermal tz).1.tz_highest_dev =
          thermal.tz_highest_dev)) := by
  have hi : ¬ thermal.initializing = true := by
    rw [hinit]
    decide
  refine ⟨?_, ?_, ?_⟩
  · intro hq
    unfold mlxsw_thermal_get_temp
    dsimp only
    rw [if_neg hi, if_neg (not_not.mpr hq)]
    constructor
    · intro hpos
      rw [if_pos hpos]
    · intro hle
      rw [if_neg (by omega)]
      exact ⟨rfl, rfl⟩
  · intro hq
    unfold mlxsw_thermal_gearbox_temp_get
    dsimp only
    rw [if_neg hi, if_neg (not_not.mpr hq)]
    constructor
    · intro hpos
      rw [if_pos hpos]
    · intro hle
      rw [if_neg (by omega)]
      exact ⟨rfl, rfl⟩
  · intro hq
    unfold mlxsw_thermal_module_temp_get
    dsimp only
    rw [if_neg hi, if_neg (not_not.mpr hq)]
    constructor
    · intro hpos hu
      rw [if_neg (by omega), if_pos ⟨hu, hpos⟩]
    · intro h
      split_ifs with h1 h2
      · exact ⟨rfl, rfl⟩
      · exfalso
        rcases h with h | h
        · omega
        · exact h h2.1
      · exact ⟨rfl, rfl⟩

/-- C28 (witness): the chassis zone of the examples reads 40000 outside the
initialization phase: the reading is passed to the score update, and the
chassis zone becomes the hottest zone. -/
theorem C28_arbiter_feeding_witness :
    (thermal_0.initializing = false ∧
      (mlxsw_reg_query_mtmp (sim_device [] false false) thermal_0.core
        (mlxsw_reg_mtmp_pack 0 0 false false)).2.1 = 0 ∧
      0 < (mlxsw_reg_query_mtmp (sim_device [] false false) thermal_0.core
        (mlxsw_reg_mtmp_pack 0 0 false false)).2.2.temp) ∧
    (mlxsw_thermal_get_temp (sim_device [] false false) thermal_0).1.tz_highest_dev = some 1 :=
  ⟨⟨by rfl, by rfl, by decide⟩,
    by rw [((C28_arbiter_feeding false (sim_device [] false false) thermal_0 module_zone_0
      (by rfl)).1 (by rfl)).1 (by decide)]; rfl⟩

/-- The size of the window of a request of at least one byte that ends within
the first 640 bytes: at least one byte, at most the bytes asked for, at most
48. -/
theorem window_progress (o r : Nat) (qsfp cmis : Bool) (hr : 1 ≤ r) (h : o + r ≤ 640) :
    1 ≤ (mlxsw_env_query_module_eeprom_window o r qsfp cmis).size ∧
    (mlxsw_env_query_module_eeprom_window o r qsfp cmis).size ≤ r ∧
    (mlxsw_env_query_module_eeprom_window o r qsfp cmis).size ≤ 48 := by
  unfold mlxsw_env_query_module_eeprom_window
  simp only [u16, u8, u16_sub, MLXSW_REG_MCIA_PAGE_GET, MLXSW_REG_MCIA_EEPROM_SIZE,
    MLXSW_REG_MCIA_EEPROM_PAGE_LENGTH, MLXSW_REG_MCIA_EEPROM_UP_PAGE_LENGTH]
  have e1 : o % 65536 = o := Nat.mod_eq_of_lt (by omega)
  have e2 : r % 65536 = r := Nat.mod_eq_of_lt (by omega)
  simp only [e1, e2]
  cases qsfp <;> simp only [Bool.false_eq_true, if_false, if_true] <;> split_ifs <;>
    simp only [] <;> omega

/-- One call of `mlxsw_env_query_module_eeprom` on a device whose transactions
succeed, for a request of at least one byte that ends within the first 640
bytes. -/
theorem query_module_eeprom_progress (dev : mlxsw_device σ)
    (hok : ∀ s pl, (dev.mcia s pl).2.1 = 0 ∧ (dev.mcia s pl).2.2.status = 0)
    (core : mlxsw_core σ) (slot_index module o r : Nat) (qsfp cmis : Bool) (hr : 1 ≤ r)
    (h : o + r ≤ 640) :
    ∃ (core' : mlxsw_core σ) (chunk : List Nat) (n : Nat) (x : reg_xfer),
      mlxsw_env_query_module_eeprom dev core slot_index module o r qsfp cmis =
        (core', Except.ok (chunk, n)) ∧
      1 ≤ n ∧ n ≤ r ∧ n ≤ 48 ∧ chunk.length = n ∧
      core'.log = core.log ++ [x] ∧ x.size = n ∧ x.failed = false := by
  obtain ⟨w1, w2, w3⟩ := window_progress o r qsfp cmis hr h
  generalize hw : mlxsw_env_query_module_eeprom_window o r qsfp cmis = w at w1 w2 w3
  obtain ⟨a1, a2⟩ := hok core.state
    (mlxsw_reg_mcia_pack slot_index module 0 w.page w.offset w.size w.i2c_addr)
  have hq : mlxsw_env_query_module_eeprom dev core slot_index module o r qsfp cmis =
      ((mlxsw_reg_query_mcia dev core
          (mlxsw_reg_mcia_pack slot_index module 0 w.page w.offset w.size w.i2c_addr)).1,
        Except.ok ((mlxsw_reg_mcia_eeprom_memcpy_from (mlxsw_reg_query_mcia dev core
          (mlxsw_reg_mcia_pack slot_index module 0 w.page w.offset w.size
            w.i2c_addr)).2.2).take w.size, w.size)) := by
    unfold mlxsw_env_query_module_eeprom mlxsw_reg_query_mcia
    simp only [hw, a1, a2, ne_eq, not_true_eq_false, if_false]
  have hl : ((mlxsw_reg_mcia_eeprom_memcpy_from (mlxsw_reg_query_mcia dev core
      (mlxsw_reg_mcia_pack slot_index module 0 w.page w.offset w.size
        w.i2c_addr)).2.2).take w.size).length = w.size := by
    simp [mlxsw_reg_mcia_eeprom_memcpy_from, MLXSW_REG_MCIA_EEPROM_SIZE]
    omega
  have hf : (reg_xfer.mcia
      (mlxsw_reg_mcia_pack slot_index module 0 w.page w.offset w.size w.i2c_addr)
      (dev.mcia core.state
        (mlxsw_reg_mcia_pack slot_index module 0 w.page w.offset w.size w.i2c_addr)).2.1
      (dev.mcia core.state
        (mlxsw_reg_mcia_pack slot_index module 0 w.page w.offset w.size
          w.i2c_addr)).2.2).failed = false := by
    simp [reg_xfer.failed, a1, a2]
  rw [hq]
  exact ⟨_, _, _, _, rfl, w1, w2, w3, hl, rfl, rfl, hf⟩

/-- The loop of `mlxsw_env_get_module_eeprom` on a device whose transactions
succeed, started with `i` bytes read: with fuel for the bytes left it returns 0
after at most that many transactions, whose sizes add up to the bytes left. -/
theorem get_module_eeprom_loop_progress (dev : mlxsw_device σ)
    (hok : ∀ s pl, (dev.mcia s pl).2.1 = 0 ∧ (dev.mcia s pl).2.2.status = 0)
    (slot_index module ee_offset ee_len : Nat) (qsfp cmis : Bool)
    (h : ee_offset + ee_len ≤ 640) :
    ∀ (fuel : Nat) (core : mlxsw_core σ) (i : Nat) (data : List Nat), i ≤ ee_len →
      ee_len - i ≤ fuel →
      ∃ (core' : mlxsw_core σ) (data' : List Nat) (xs : List reg_xfer),
        mlxsw_env_get_module_eeprom_loop dev slot_index module ee_len qsfp cmis fuel core i
          (ee_offset + i) data = some (core', data', 0) ∧
        core'.log = core.log ++ xs ∧ xs.length ≤ ee_len - i ∧
        (xs.map reg_xfer.size).sum = ee_len - i ∧
        ∀ x ∈ xs, 1 ≤ x.size ∧ x.size ≤ 48 ∧ x.failed = false := by
  intro fuel
  induction fuel with
  | zero =>
    intro core i data hi hf
    have hie : ¬ i < ee_len := by omega
    refine ⟨core, data, [], ?_, by simp, by simp, by simp; omega, by simp⟩
    unfold mlxsw_env_get_module_eeprom_loop
    rw [if_neg hie]
  | succ fuel ih =>
    intro core i data hi hf
    by_cases hlt : i < ee_len
    · obtain ⟨core1, chunk, n, x, hq, hn1, hn2, hn3, -, hlog, hxs, hxf⟩ :=
        query_module_eeprom_progress dev hok core slot_index module (ee_offset + i)
          (ee_len - i) qsfp cmis (by omega) (by omega)
      obtain ⟨core', data', xs, hrec, hlog', hlen, hsum, hall⟩ :=
        ih core1 (i + n) (memcpy_at data i chunk) (by omega) (by omega)
      refine ⟨core', data', x :: xs, ?_, ?_, ?_, ?_, ?_⟩
      · unfold mlxsw_env_get_module_eeprom_loop
        simp only [hlt, if_true, hq]
        have e1 : u32 (i + n) = i + n := Nat.mod_eq_of_lt (by omega)
        have e2 : u32 (ee_offset + i + n) = ee_offset + (i + n) := by
          unfold u32
          omega
        rw [e1, e2]
        exact hrec
      · rw [hlog', hlog]
        simp
      · simp only [List.length_cons]
        omega
      · simp only [List.map_cons, List.sum_cons, hsum, hxs]
        omega
      · intro y hy
        rcases List.mem_cons.mp hy with hy | hy
        · rw [hy, hxs]
          exact ⟨hn1, hn3, hxf⟩
        · exact hall y hy
    · refine ⟨core, data, [], ?_, by simp, by simp, by simp; omega, by simp⟩
      unfold mlxsw_env_get_module_eeprom_loop
      rw [if_neg hlt]

/-- C29: bulk read progress. For every module family and every request with len
>= 1 and offset + len <= 640 on a device whose transactions all succeed: each
call of `mlxsw_env_query_module_eeprom` the loop makes, with i < len bytes read
so far, succeeds and transfers n bytes with 1 <= n <= len - i; the loop of
`mlxsw_env_get_module_eeprom`, given fuel for len iterations, returns 0 after at
most len transactions, each of at least one byte, whose sizes add up to exactly
len. -/
theorem C29_bulk_read_progress (dev : mlxsw_device σ) (core : mlxsw_core σ)
    (slot_index module ee_offset ee_len : Nat) (qsfp cmis : Bool) (data : List Nat)
    (fuel : Nat)
    (hok : ∀ s pl, (dev.mcia s pl).2.1 = 0 ∧ (dev.mcia s pl).2.2.status = 0)
    (hlen : 1 ≤ ee_len) (h : ee_offset + ee_len ≤ 640) (hfuel : ee_len ≤ fuel) :
    (∀ (c : mlxsw_core σ) (i : Nat), i < ee_len →
      ∃ (c' : mlxsw_core σ) (chunk : List Nat) (n : Nat),
        mlxsw_env_query_module_eeprom dev c slot_index module (ee_offset + i) (ee_len - i)
          qsfp cmis = (c', Except.ok (chunk, n)) ∧
        1 ≤ n ∧ n ≤ ee_len - i ∧ chunk.length = n) ∧
    ∃ (core' : mlxsw_core σ) (data' : List Nat) (xs : List reg_xfer),
      mlxsw_env_get_module_eeprom_loop dev slot_index module ee_len qsfp cmis fuel core 0
        ee_offset data = some (core', data', 0) ∧
      core'.log = core.log ++ xs ∧ 1 ≤ xs.length ∧ xs.length ≤ ee_len ∧
      (xs.map reg_xfer.size).sum = ee_len ∧
      ∀ x ∈ xs, 1 ≤ x.size ∧ x.size ≤ 48 ∧ x.failed = false := by
  constructor
  · intro c i hi
    obtain ⟨c', chunk, n, x, hq, hn1, hn2, -, hl, -, -, -⟩ :=
      query_module_eeprom_progress dev hok c slot_index module (ee_offset + i) (ee_len - i)
        qsfp cmis (by omega) (by omega)
    exact ⟨c', chunk, n, hq, hn1, hn2, hl⟩
  · obtain ⟨core', data', xs, hrec, hlog, hl, hsum, hall⟩ :=
      get_module_eeprom_loop_progress dev hok slot_index module ee_offset ee_len qsfp cmis h
        fuel core 0 data (by omega) (by omega)
    refine ⟨core', data', xs, hrec, hlog, ?_, by omega, by omega, hall⟩
    cases xs with
    | nil =>
      simp at hsum
      omega
    | cons x rest => simp

/-- C29 (witness): 200 bytes from offset 100 of a paged module on the device
that answers every transaction: the loop returns 0 after at most 200
transactions of at least one byte, 200 bytes in all. -/
theorem C29_bulk_read_progress_witness :
    ((∀ s pl, (null_device.mcia s pl).2.1 = 0 ∧ (null_device.mcia s pl).2.2.status = 0) ∧
      1 ≤ 200 ∧ 100 + 200 ≤ 640) ∧
    ∃ (core' : mlxsw_core Unit) (data' : List Nat) (xs : List reg_xfer),
      mlxsw_env_get_module_eeprom_loop null_device 0 0 200 true false 200 core_init 0
        100 [] = some (core', data', 0) ∧
      core'.log = core_init.log ++ xs ∧ 1 ≤ xs.length ∧ xs.length ≤ 200 ∧
      (xs.map reg_xfer.size).sum = 200 ∧
      ∀ x ∈ xs, 1 ≤ x.size ∧ x.size ≤ 48 ∧ x.failed = false :=
  ⟨⟨fun _ _ => ⟨rfl, rfl⟩, by decide, by decide⟩,
    (C29_bulk_read_progress null_device core_init 0 0 100 200 true false [] 200
      (fun _ _ => ⟨rfl, rfl⟩) (by decide) (by decide) (by decide)).2⟩

/-- The score of a temperature in the band below the trip of index `k`: the
rounded quotient `q` of `DIV_ROUND_CLOSEST`, times 256^k, modulo 2^32. -/
theorem tz_score_band (trips : mlxsw_thermal_trips) (temp : Int) (k : Nat)
    (trip : mlxsw_thermal_trip) (hpos : 0 < temp)
    (hk : trips.toList[k]? = some trip) (hlt : temp < trip.temp)
    (hfirst : ∀ (j : Nat) (t : mlxsw_thermal_trip), j < k → trips.toList[j]? = some t →
      t.temp ≤ temp)
    (hint : trip.temp < 2147483648) :
    ∃ q : Nat, DIV_ROUND_CLOSEST temp (trip.temp - temp) = (q : Int) ∧
      (2 * (q : Int) - 1) * (trip.temp - temp) ≤ 2 * temp ∧
      2 * temp < (2 * (q : Int) + 1) * (trip.temp - temp) ∧
      mlxsw_thermal_tz_score trips temp = (q * 256 ^ k) % 2 ^ 32 := by
  have hs : s32 (trip.temp - temp) = trip.temp - temp := by
    unfold s32
    omega
  obtain ⟨q, hq1, hq2, hq3, hq4⟩ := div_round_closest_pos temp (trip.temp - temp) hpos
    (by omega) (by omega)
  have hloop : ∀ (rest : List mlxsw_thermal_trip) (shift : Nat),
      mlxsw_thermal_tz_score_loop temp (trip :: rest) shift = (q * shift) % 4294967296 := by
    intro rest shift
    unfold mlxsw_thermal_tz_score_loop
    rw [if_pos hlt, hs, hq2]
    rfl
  refine ⟨q, hq1, hq3, hq4, ?_⟩
  unfold mlxsw_thermal_tz_score
  unfold mlxsw_thermal_trips.toList at hk hfirst ⊢
  match k, hk, hfirst with
  | 0, hk, _ =>
    simp only [List.getElem?_cons_zero, Option.some.injEq] at hk
    rw [hk, hloop]
    simp
  | 1, hk, hfirst =>
    simp only [List.getElem?_cons_succ, List.getElem?_cons_zero, Option.some.injEq] at hk
    have h0 := hfirst 0 trips.norm (by omega) (by simp)
    rw [mlxsw_thermal_tz_score_loop, if_neg (by omega), hk, hloop]
    rfl
  | 2, hk, hfirst =>
    simp only [List.getElem?_cons_succ, List.getElem?_cons_zero, Option.some.injEq] at hk
    have h0 := hfirst 0 trips.norm (by omega) (by simp)
    have h1 := hfirst 1 trips.high (by omega) (by simp)
    rw [mlxsw_thermal_tz_score_loop, if_neg (by omega), mlxsw_thermal_tz_score_loop,
      if_neg (by omega), hk, hloop]
    rfl
  | k + 3, hk, _ =>
    simp at hk

/-- The score is an `unsigned int`: at most 2^32 - 1. -/
theorem tz_score_le_max (trips : mlxsw_thermal_trips) (temp : Int) :
    mlxsw_thermal_tz_score trips temp ≤ MLXSW_THERMAL_TEMP_SCORE_MAX := by
  unfold mlxsw_thermal_tz_score mlxsw_thermal_trips.toList
  simp only [mlxsw_thermal_tz_score_loop, u32, MLXSW_THERMAL_TEMP_SCORE_MAX]
  split_ifs <;> omega

/-- C30 (the claim as stated fails): with the default chassis trips 75000, 85000,
105000 the score of 74999 is 74999 and the score of the hotter 75000 is 2048;
the score of 104998 is 3440574464 and the score of the hotter 104999, whose
product 104999 * 65536 does not fit 32 bits, is 2586247168. -/
theorem C30_score_monotonic_counterexample :
    default_thermal_trips.toList.map (fun t => t.temp) = [75000, 85000, 105000] ∧
    mlxsw_thermal_tz_score default_thermal_trips 74999 = 74999 ∧
    mlxsw_thermal_tz_score default_thermal_trips 75000 = 2048 ∧
    ¬ mlxsw_thermal_tz_score default_thermal_trips 74999 ≤
      mlxsw_thermal_tz_score default_thermal_trips 75000 ∧
    mlxsw_thermal_tz_score default_thermal_trips 104998 = 3440574464 ∧
    mlxsw_thermal_tz_score default_thermal_trips 104999 = 2586247168 ∧
    ¬ mlxsw_thermal_tz_score default_thermal_trips 104998 ≤
      mlxsw_thermal_tz_score default_thermal_trips 104999 := by
  refine ⟨by rfl, by rfl, by rfl, by decide, by rfl, by rfl, by decide⟩

/-- C30 (amended): the score computed by `mlxsw_thermal_tz_score_update` is
non-decreasing in the observed temperature within one band: for 0 < t1 <= t2
whose first trip above is the same trip, of index k, score(t1) <= score(t2) as
long as the rounded quotient of t2, times 256^k, is below 2^32. Across a trip
temperature the score may drop, and so it may where the product wraps. For any
trips, a reading t2 that no trip exceeds has the score 2^32 - 1, and the score
of no reading t, of either sign, exceeds it. -/
theorem C30_score_monotonic (trips : mlxsw_thermal_trips) (t1 t2 t : Int) :
    (∀ (k : Nat) (trip : mlxsw_thermal_trip), 0 < t1 → t1 ≤ t2 →
      trips.toList[k]? = some trip → t2 < trip.temp →
      (∀ (j : Nat) (x : mlxsw_thermal_trip), j < k → trips.toList[j]? = some x →
        x.temp ≤ t1) →
      trip.temp < 2147483648 →
      DIV_ROUND_CLOSEST t2 (trip.temp - t2) * 256 ^ k < 2 ^ 32 →
      mlxsw_thermal_tz_score trips t1 ≤ mlxsw_thermal_tz_score trips t2) ∧
    (trips.norm.temp ≤ t2 → trips.high.temp ≤ t2 → trips.hot.temp ≤ t2 →
      mlxsw_thermal_tz_score trips t2 = 2 ^ 32 - 1 ∧
      mlxsw_thermal_tz_score trips t ≤ mlxsw_thermal_tz_score trips t2) := by
  constructor
  · intro k trip hpos hle hk hlt hfirst hint hfit
    obtain ⟨q1, -, a1, -, s1⟩ := tz_score_band trips t1 k trip hpos hk (by omega) hfirst hint
    obtain ⟨q2, e2, -, b2, s2⟩ := tz_score_band trips t2 k trip (by omega) hk hlt
      (fun j x hj hx => Int.le_trans (hfirst j x hj hx) hle) hint
    have hq : q1 ≤ q2 := by
      by_contra hn
      have hn1 : (q2 : Int) + 1 ≤ (q1 : Int) := by omega
      have h1 : (2 * (q2 : Int) + 1) * (trip.temp - t2) ≤
          (2 * (q1 : Int) - 1) * (trip.temp - t2) :=
        mul_le_mul_of_nonneg_right (by omega) (by omega)
      have h2 : (2 * (q1 : Int) - 1) * (trip.temp - t2) ≤
          (2 * (q1 : Int) - 1) * (trip.temp - t1) :=
        mul_le_mul_of_nonneg_left (by omega) (by omega)
      linarith
    rw [e2] at hfit
    have hfit2 : q2 * 256 ^ k < 2 ^ 32 := by exact_mod_cast hfit
    have hfit1 : q1 * 256 ^ k ≤ q2 * 256 ^ k := Nat.mul_le_mul_right _ hq
    rw [s1, s2, Nat.mod_eq_of_lt (by omega), Nat.mod_eq_of_lt hfit2]
    exact hfit1
  · intro h1 h2 h3
    rw [tz_score_max trips t2 h1 h2 h3]
    exact ⟨rfl, tz_score_le_max trips t⟩

/-- C30 (witness): the default chassis trips in the band below High (k = 1): the
score of 80000 is 16 * 256 and the score of 84000 is 84 * 256; the reading
105000, which no trip exceeds, has the score 2^32 - 1, and the score of 104000
does not exceed it. -/
theorem C30_score_monotonic_witness :
    ((0 : Int) < 80000 ∧ (80000 : Int) ≤ 84000 ∧
      default_thermal_trips.toList[1]? = some default_thermal_trips.high ∧
      (84000 : Int) < default_thermal_trips.high.temp ∧
      DIV_ROUND_CLOSEST 84000 (default_thermal_trips.high.temp - 84000) * 256 ^ 1 < 2 ^ 32) ∧
    mlxsw_thermal_tz_score default_thermal_trips 80000 ≤
      mlxsw_thermal_tz_score default_thermal_trips 84000 ∧
    (default_thermal_trips.norm.temp ≤ 105000 ∧ default_thermal_trips.high.temp ≤ 105000 ∧
      default_thermal_trips.hot.temp ≤ 105000) ∧
    mlxsw_thermal_tz_score default_thermal_trips 105000 = 2 ^ 32 - 1 ∧
    mlxsw_thermal_tz_score default_thermal_trips 104000 ≤
      mlxsw_thermal_tz_score default_thermal_trips 105000 :=
  ⟨⟨by decide, by decide, by rfl, by decide, by decide⟩,
    (C30_score_monotonic default_thermal_trips 80000 84000 0).1 1 default_thermal_trips.high
      (by decide) (by decide) (by rfl) (by decide)
      (by
        intro j x hj hx
        have hj0 : j = 0 := by omega
        subst hj0
        simp only [mlxsw_thermal_trips.toList, List.getElem?_cons_zero, Option.some.injEq] at hx
        rw [← hx]
        decide)
      (by decide) (by decide),
    ⟨by decide, by decide, by decide⟩,
    ((C30_score_monotonic default_thermal_trips 80000 105000 104000).2 (by decide) (by decide)
      (by decide)).1,
    ((C30_score_monotonic default_thermal_trips 80000 105000 104000).2 (by decide) (by decide)
      (by decide)).2⟩

end theorems

end Mlxsw
